import Mathlib

/-!
# AporteCapital: temporary download links and registry lookup (`src/server.js`)

A shallow embedding of two parts of the consultancy-form backend:

* the temporary-link registry: the process-wide `tempLinks` map, `generateTempLink`,
  `validateTempLink`, `incrementDownload`, `cleanupExpiredLinks` and the file-download
  route;
* the company-registry lookup: `consultarCNPJ`, which asks three sources in order, and
  `normalizarDadosCNPJ`, which maps a source's payload to the canonical record.

Modelling conventions
* Time is the millisecond value of a JavaScript `Date`, a natural number; the
  wall clock read by `Date.now()` / `new Date()` is an explicit argument.
* The `tempLinks` map is an insertion-ordered association list with pairwise
  distinct keys, as a JavaScript `Map` is.  Mutating a field of the object held
  by the map is rendered as replacing the value stored under that key in place.
* The disk is the list of paths that currently exist.  `fs.existsSync` is
  membership and `fs.unlinkSync` removes the path, throwing when it is missing.
* Counters are unbounded naturals (the source uses JavaScript numbers).
* A payload is a JSON value (or `undefined`); a thrown exception is the `error` case of
  `Except`.  The network is a function from the URL requested to the outcome of the
  request, and `consultarCNPJ` returns, next to its result, the URLs it requested.
* A text is a sequence of Unicode characters.  Where an unpaired surrogate changes the
  behaviour (the consultancy request with a JSON body, namespace `Utf16`), a JavaScript
  string is the list of its UTF-16 code units.
-/

namespace AporteCapital

deriving instance DecidableEq for Except

/-! ## Data model -/

/-- An uploaded file as multer describes it: the fields the link registry reads. -/
structure FileDesc where
  originalname : String
  path : String
  size : Nat
deriving DecidableEq, Repr

/-- The object stored in `tempLinks` under a link id (server.js, lines 38-45). -/
structure TempLink where
  files : List FileDesc
  createdAt : Nat
  downloads : Nat
  maxDownloads : Nat
  expiresAt : Nat
  active : Bool
deriving DecidableEq, Repr

/-! ## The `Map` holding the links -/

/-- The keys of an association list, in order. -/
def keysOf (es : List (String × TempLink)) : List String := es.map Prod.fst

/-- `Map.prototype.get` on the entry list. -/
def lookupEntry (k : String) : List (String × TempLink) → Option TempLink
  | [] => none
  | (k', v) :: rest => if k' = k then some v else lookupEntry k rest

/-- `Map.prototype.set` on the entry list: an existing key keeps its position,
a new key is appended. -/
def setEntry (k : String) (v : TempLink) : List (String × TempLink) → List (String × TempLink)
  | [] => [(k, v)]
  | (k', v') :: rest => if k' = k then (k, v) :: rest else (k', v') :: setEntry k v rest

/-- `Map.prototype.delete` on the entry list. -/
def deleteEntry (k : String) (es : List (String × TempLink)) : List (String × TempLink) :=
  es.filter (fun e => decide (e.1 ≠ k))

theorem keysOf_setEntry (k : String) (v : TempLink) (es : List (String × TempLink)) :
    keysOf (setEntry k v es) = if k ∈ keysOf es then keysOf es else keysOf es ++ [k] := by
  induction es with
  | nil => simp [setEntry, keysOf]
  | cons e rest ih =>
    obtain ⟨k', v'⟩ := e
    by_cases h : k' = k
    · subst h
      simp [setEntry, keysOf]
    · have h' : ¬ k = k' := fun hk => h hk.symm
      have ih' := ih
      simp only [keysOf] at ih'
      by_cases hm : k ∈ List.map Prod.fst rest
      · simp [setEntry, keysOf, h, h', hm, ih']
      · simp [setEntry, keysOf, h, h', hm, ih']

theorem nodup_setEntry (k : String) (v : TempLink) (es : List (String × TempLink))
    (h : (keysOf es).Nodup) : (keysOf (setEntry k v es)).Nodup := by
  rw [keysOf_setEntry]
  split
  · exact h
  · rename_i hk
    exact List.Nodup.append h (List.nodup_singleton k) (by
      intro a ha hb
      simp at hb
      subst hb
      exact hk ha)

theorem nodup_deleteEntry (k : String) (es : List (String × TempLink))
    (h : (keysOf es).Nodup) : (keysOf (deleteEntry k es)).Nodup := by
  unfold keysOf deleteEntry at *
  exact List.Nodup.sublist (List.Sublist.map _ (List.filter_sublist es)) h

/-- The state of the process-wide `tempLinks` map (server.js, line 29). -/
structure TempLinks where
  entries : List (String × TempLink)
  nodupKeys : (keysOf entries).Nodup

namespace TempLinks

/-- The map `new Map()` starts as. -/
def empty : TempLinks := ⟨[], List.nodup_nil⟩

/-- Is `tempLinks.get(k)`. -/
def get (m : TempLinks) (k : String) : Option TempLink := lookupEntry k m.entries

/-- Is `tempLinks.set(k, v)`. -/
def set (m : TempLinks) (k : String) (v : TempLink) : TempLinks :=
  ⟨setEntry k v m.entries, nodup_setEntry k v m.entries m.nodupKeys⟩

/-- Is `tempLinks.delete(k)`. -/
def delete (m : TempLinks) (k : String) : TempLinks :=
  ⟨deleteEntry k m.entries, nodup_deleteEntry k m.entries m.nodupKeys⟩

end TempLinks

instance : DecidableEq TempLinks := fun a b =>
  if h : a.entries = b.entries then
    isTrue (by cases a; cases b; cases h; rfl)
  else
    isFalse (fun hab => h (by rw [hab]))

/-! ## The link registry operations -/

/-- The four reasons `validateTempLink` gives (server.js, lines 58, 62, 67, 72). -/
def reasonNotFound : String := "Link não encontrado"
def reasonInactive : String := "Link desativado"
def reasonExpired : String := "Link expirado"
def reasonExhausted : String := "Limite de downloads atingido"

/-- The object `validateTempLink` returns: `{ valid: true, link }` or
`{ valid: false, reason }`. -/
inductive Validation where
  | valid (link : TempLink)
  | invalid (reason : String)
deriving DecidableEq, Repr

/-- The `valid` field of the returned object. -/
def Validation.isValid : Validation → Bool
  | .valid _ => true
  | .invalid _ => false

/-- The body of `validateTempLink` (server.js, lines 54-76), run at clock value `now`:
the returned object and the map afterwards. -/
def validateTempLink (now : Nat) (linkId : String) (tempLinks : TempLinks) :
    Validation × TempLinks :=
  match tempLinks.get linkId with
  | none => (.invalid reasonNotFound, tempLinks)
  | some link =>
    if !link.active then
      (.invalid reasonInactive, tempLinks)
    else if now > link.expiresAt then
      (.invalid reasonExpired, tempLinks.set linkId { link with active := false })
    else if link.downloads ≥ link.maxDownloads then
      (.invalid reasonExhausted, tempLinks.set linkId { link with active := false })
    else
      (.valid link, tempLinks)

/-- The body of `incrementDownload` (server.js, lines 81-87). -/
def incrementDownload (linkId : String) (tempLinks : TempLinks) : TempLinks :=
  match tempLinks.get linkId with
  | some link => tempLinks.set linkId { link with downloads := link.downloads + 1 }
  | none => tempLinks

/-! ## Link creation -/

/-- One hexadecimal digit in upper case, as `toString('hex').toUpperCase()` writes it. -/
def hexDigitUpper (n : Nat) : Char :=
  if n < 10 then Char.ofNat (48 + n) else Char.ofNat (55 + n)

/-- The text of `buffer.toString('hex').toUpperCase()` for a buffer of bytes. -/
def hexUpper (bytes : List Nat) : String :=
  String.mk (bytes.flatMap (fun b => [hexDigitUpper ((b % 256) / 16), hexDigitUpper ((b % 256) % 16)]))

/-- The body of `generateTempLink` (server.js, lines 34-49).  `randomBytes` is the
outcome of `crypto.randomBytes(8)`, `nowExpiry` the value of `Date.now()` on line 36
and `nowCreated` the value of `new Date()` on line 40.  An argument left out by the
caller is `none`: `files || []`, `maxDownloads = 5`, `expirationHours = 48`.
The result is the returned id and the map afterwards. -/
def generateTempLink (nowExpiry nowCreated : Nat) (randomBytes : List Nat)
    (files : Option (List FileDesc)) (maxDownloads expirationHours : Option Nat)
    (tempLinks : TempLinks) : String × TempLinks :=
  let linkId := hexUpper randomBytes
  let expiresAt := nowExpiry + (expirationHours.getD 48) * 60 * 60 * 1000
  (linkId, tempLinks.set linkId
    { files := files.getD []
      createdAt := nowCreated
      downloads := 0
      maxDownloads := maxDownloads.getD 5
      expiresAt := expiresAt
      active := true })

/-! ## The disk and the sweep -/

/-- The paths that exist on disk. -/
abbrev Disk := List String

/-- Is `fs.existsSync(p)`: the empty path names nothing. -/
def existsSync (disk : Disk) (p : String) : Bool := decide (p ≠ "") && decide (p ∈ disk)

/-- Is `fs.unlinkSync(p)`: removes the path, throws when there is nothing to remove. -/
def unlinkSync (disk : Disk) (p : String) : Except String Disk :=
  if existsSync disk p then .ok (disk.filter (fun q => decide (q ≠ p)))
  else .error "ENOENT: no such file or directory"

/-- The callback of `link.files.forEach` in `cleanupExpiredLinks`
(server.js, lines 100-109): a failed removal is logged and ignored. -/
def removeLinkFile (disk : Disk) (file : FileDesc) : Disk :=
  if file.path ≠ "" ∧ existsSync disk file.path = true then
    match unlinkSync disk file.path with
    | .ok disk' => disk'
    | .error _ => disk
  else disk

/-- What the link registry reads and writes: the map and the disk. -/
structure Server where
  tempLinks : TempLinks
  disk : Disk

instance : DecidableEq Server := fun a b =>
  if h : a.tempLinks = b.tempLinks ∧ a.disk = b.disk then
    isTrue (by cases a; cases b; cases h; simp_all)
  else
    isFalse (fun hab => h (by rw [hab]; exact ⟨rfl, rfl⟩))

/-- The condition on line 97: the link is past its expiry or no longer active. -/
def sweepable (now : Nat) (link : TempLink) : Bool :=
  decide (now > link.expiresAt) || !link.active

/-- One turn of the `for ... of tempLinks.entries()` loop of `cleanupExpiredLinks`
(server.js, lines 96-115); the second component is the `cleaned` counter.
`link.files` is always an array here, so the guard on line 99 holds. -/
def cleanupStep (now : Nat) (acc : Server × Nat) (entry : String × TempLink) : Server × Nat :=
  if sweepable now entry.2 then
    ({ tempLinks := acc.1.tempLinks.delete entry.1
       disk := entry.2.files.foldl removeLinkFile acc.1.disk }, acc.2 + 1)
  else acc

/-- The body of `cleanupExpiredLinks` (server.js, lines 92-120), run at clock value `now`.
Deleting the entry being visited does not disturb the iteration of a `Map`, so the
loop visits the entries present when it starts. -/
def cleanupExpiredLinks (now : Nat) (s : Server) : Server :=
  (s.tempLinks.entries.foldl (cleanupStep now) (s, 0)).1

/-! ## The file-download route -/

/-- The value of a hexadecimal digit, in either case. -/
def hexValue (c : Char) : Option Nat :=
  if 48 ≤ c.toNat ∧ c.toNat ≤ 57 then some (c.toNat - 48)
  else if 97 ≤ c.toNat ∧ c.toNat ≤ 102 then some (c.toNat - 87)
  else if 65 ≤ c.toNat ∧ c.toNat ≤ 70 then some (c.toNat - 55)
  else none

/-- What `decodeURIComponent` reads: a character standing for itself, or the octet
written by an escape `%XX`. -/
inductive UriToken where
  | lit (c : Char)
  | octet (b : Nat)
deriving DecidableEq, Repr

/-- Splits a text into characters and `%XX` escapes; `none` when a `%` is not followed
by two hexadecimal digits. -/
def uriTokens : List Char → Option (List UriToken)
  | [] => some []
  | c :: rest =>
    if c = Char.ofNat 37 then
      match rest with
      | a :: b :: rest' =>
        match hexValue a, hexValue b, uriTokens rest' with
        | some x, some y, some ts => some (UriToken.octet (16 * x + y) :: ts)
        | _, _, _ => none
      | _ => none
    else
      match uriTokens rest with
      | some ts => some (UriToken.lit c :: ts)
      | none => none

/-- The payload of a UTF-8 continuation octet `10xxxxxx` written as an escape. -/
def continuationBits : UriToken → Option Nat
  | .octet b => if 128 ≤ b ∧ b < 192 then some (b - 128) else none
  | .lit _ => none

/-- Decodes the escapes as UTF-8; `none` when the octets are not the UTF-8 encoding of
a code point. -/
def decodeTokens : List UriToken → Option (List Char)
  | [] => some []
  | .lit c :: rest =>
    match decodeTokens rest with
    | some cs => some (c :: cs)
    | none => none
  | .octet b :: rest =>
    if b < 128 then
      match decodeTokens rest with
      | some cs => some (Char.ofNat b :: cs)
      | none => none
    else if b < 192 then none
    else if b < 224 then
      match rest with
      | t1 :: rest' =>
        match continuationBits t1, decodeTokens rest' with
        | some c1, some cs =>
          if 128 ≤ (b - 192) * 64 + c1 then some (Char.ofNat ((b - 192) * 64 + c1) :: cs)
          else none
        | _, _ => none
      | _ => none
    else if b < 240 then
      match rest with
      | t1 :: t2 :: rest' =>
        match continuationBits t1, continuationBits t2, decodeTokens rest' with
        | some c1, some c2, some cs =>
          if 2048 ≤ (b - 224) * 4096 + c1 * 64 + c2 ∧
              ¬ (55296 ≤ (b - 224) * 4096 + c1 * 64 + c2 ∧
                (b - 224) * 4096 + c1 * 64 + c2 ≤ 57343) then
            some (Char.ofNat ((b - 224) * 4096 + c1 * 64 + c2) :: cs)
          else none
        | _, _, _ => none
      | _ => none
    else if b < 248 then
      match rest with
      | t1 :: t2 :: t3 :: rest' =>
        match continuationBits t1, continuationBits t2, continuationBits t3,
            decodeTokens rest' with
        | some c1, some c2, some c3, some cs =>
          if 65536 ≤ (b - 240) * 262144 + c1 * 4096 + c2 * 64 + c3 ∧
              (b - 240) * 262144 + c1 * 4096 + c2 * 64 + c3 ≤ 1114111 then
            some (Char.ofNat ((b - 240) * 262144 + c1 * 4096 + c2 * 64 + c3) :: cs)
          else none
        | _, _, _, _ => none
      | _ => none
    else none

/-- The built-in `decodeURIComponent`: the decoded text, or the `URIError` it throws on
a malformed escape sequence. -/
def decodeURIComponent (text : String) : Except String String :=
  match uriTokens text.data with
  | none => .error "URIError: URI malformed"
  | some tokens =>
    match decodeTokens tokens with
    | none => .error "URIError: URI malformed"
    | some cs => .ok (String.mk cs)

/-- What a download route answers. -/
inductive Response where
  /-- `res.status(status).json({ error })` -/
  | error (status : Nat) (error : String)
  /-- `res.download(path, name)` -/
  | download (path : String) (name : String)
  /-- the answer of the error middleware (server.js, lines 1225-1253) to an
  exception thrown by a handler: status 500 -/
  | internalError
deriving DecidableEq, Repr

/-- The handler of `GET /download/:linkId/file/:filename` (server.js, lines 1037-1066),
run at clock value `now`; `filename` is `req.params.filename`.  The callback of
`link.files.find` evaluates `decodeURIComponent(filename)` once per file visited, so
nothing is decoded, and nothing thrown, when the link has no file. -/
def downloadFileRoute (now : Nat) (linkId filename : String) (s : Server) :
    Response × Server :=
  match validateTempLink now linkId s.tempLinks with
  | (.invalid reason, tempLinks) => (.error 404 reason, { s with tempLinks := tempLinks })
  | (.valid link, tempLinks) =>
    match link.files with
    | [] => (.error 404 "Arquivo não encontrado", { s with tempLinks := tempLinks })
    | _ :: _ =>
      match decodeURIComponent filename with
      | .error _ => (.internalError, { s with tempLinks := tempLinks })
      | .ok name =>
        match link.files.find? (fun f => decide (f.originalname = name)) with
        | none => (.error 404 "Arquivo não encontrado", { s with tempLinks := tempLinks })
        | some file =>
          if !existsSync s.disk file.path then
            (.error 404 "Arquivo não existe no servidor", { s with tempLinks := tempLinks })
          else
            (.download file.path file.originalname,
              { s with tempLinks := incrementDownload linkId tempLinks })

/-- The file route requested once at each of the given clock values, in turn: the
answers in order and the state at the end. -/
def downloadFileRepeatedly (linkId filename : String) : List Nat → Server → List Response × Server
  | [], s => ([], s)
  | now :: later, s =>
    ((downloadFileRoute now linkId filename s).1 ::
        (downloadFileRepeatedly linkId filename later (downloadFileRoute now linkId filename s).2).1,
      (downloadFileRepeatedly linkId filename later (downloadFileRoute now linkId filename s).2).2)

/-! ## JavaScript values read by the registry lookup

The payload of a lookup source is what `response.json()` produces: a JSON value.
`undefined` is added because reading an absent property yields it. -/

/-- A JavaScript number as far as the lookup code observes it: its text under
`ToString`, whether it is zero (falsy) and whether it is greater than zero.
`JSON.parse` never yields `NaN`. -/
structure JSNumber where
  text : String
  isZero : Bool
  isPositive : Bool
deriving DecidableEq, Repr

/-- A JSON value, or `undefined`.  The fields of an object are its own properties. -/
inductive JSValue where
  | undefined
  | null
  | bool (b : Bool)
  | number (n : JSNumber)
  | string (s : String)
  | array (elems : List JSValue)
  | object (fields : List (String × JSValue))
deriving Repr

/-- The part of the JavaScript runtime the embedding leaves open: whether
`ToNumber(s) > 0` for a string `s` (the `StringToNumber` grammar and its rounding). -/
structure JSRuntime where
  stringIsPositive : String → Bool

namespace JSValue

/-- Is the value `null` or `undefined`. -/
def isNullish : JSValue → Bool
  | .undefined => true
  | .null => true
  | _ => false

/-- The value of `ToBoolean`. -/
def truthy : JSValue → Bool
  | .undefined => false
  | .null => false
  | .bool b => b
  | .number n => !n.isZero
  | .string s => decide (s ≠ "")
  | .array _ => true
  | .object _ => true

/-- The value of `a || b`. -/
def orElse (a b : JSValue) : JSValue := if a.truthy then a else b

/-- The value of `a || ''`. -/
def orEmpty (a : JSValue) : JSValue := a.orElse (.string "")

/-- Is `Array.isArray(v)`. -/
def isArray : JSValue → Bool
  | .array _ => true
  | _ => false

/-- The own property `name` of an object, `undefined` when it has none. -/
def ownProperty (name : String) : List (String × JSValue) → JSValue
  | [] => .undefined
  | (k, v) :: rest => if k = name then v else ownProperty name rest

/-- The number a `length` property holds. -/
def lengthNumber (n : Nat) : JSValue :=
  .number { text := toString n, isZero := decide (n = 0), isPositive := decide (0 < n) }

/-- The length of a string in UTF-16 code units. -/
def utf16Length (s : String) : Nat :=
  (s.data.map (fun c => if c.toNat < 65536 then 1 else 2)).sum

/-- The property read `v.name`, for the property names the lookup code reads: an own
property of an object, `length` and `0` of an array or a string, `undefined` otherwise
(none of the other names is defined on a built-in prototype).  Reading a property of
`null` or `undefined` throws a `TypeError`.  For a string, `v[0]` is rendered as the
text of its first character. -/
def getProp (v : JSValue) (name : String) : Except String JSValue :=
  match v with
  | .undefined => .error "TypeError: Cannot read properties of undefined"
  | .null => .error "TypeError: Cannot read properties of null"
  | .object fields => .ok (ownProperty name fields)
  | .array elems =>
    if name = "length" then .ok (lengthNumber elems.length)
    else if name = "0" then .ok (elems.head?.getD .undefined)
    else .ok .undefined
  | .string s =>
    if name = "length" then .ok (lengthNumber (utf16Length s))
    else if name = "0" then
      .ok (match s.data with
        | [] => .undefined
        | c :: _ => .string (String.mk [c]))
    else .ok .undefined
  | .bool _ => .ok .undefined
  | .number _ => .ok .undefined

/-- The optional chain `v?.name`. -/
def getPropOptional (v : JSValue) (name : String) : Except String JSValue :=
  if v.isNullish then .ok .undefined else v.getProp name

mutual
/-- The text `ToString(v)` that a template literal inserts, or the `TypeError` thrown
for an object whose own `toString` property hides `Object.prototype.toString`. -/
def toStr : JSValue → Except String String
  | .undefined => .ok "undefined"
  | .null => .ok "null"
  | .bool b => .ok (if b then "true" else "false")
  | .number n => .ok n.text
  | .string s => .ok s
  | .array elems => joinStr elems
  | .object fields =>
    if fields.any (fun f => decide (f.1 = "toString")) then
      .error "TypeError: Cannot convert object to primitive value"
    else .ok "[object Object]"
termination_by structural v => v
/-- The text of `Array.prototype.join` with the default separator: `null` and
`undefined` elements contribute nothing. -/
def joinStr : List JSValue → Except String String
  | [] => .ok ""
  | v :: rest =>
    match (if v.isNullish then .ok "" else toStr v), rest, joinStr rest with
    | .error e, _, _ => .error e
    | .ok a, [], _ => .ok a
    | .ok _, _ :: _, .error e => .error e
    | .ok a, _ :: _, .ok b => .ok (a ++ "," ++ b)
termination_by structural l => l
end

/-- The value of `v > 0`, or the `TypeError` thrown while converting `v`. -/
def gtZero (rt : JSRuntime) : JSValue → Except String Bool
  | .undefined => .ok false
  | .null => .ok false
  | .bool b => .ok b
  | .number n => .ok n.isPositive
  | .string s => .ok (rt.stringIsPositive s)
  | .array elems =>
    match joinStr elems with
    | .ok s => .ok (rt.stringIsPositive s)
    | .error e => .error e
  | .object fields =>
    if fields.any (fun f => decide (f.1 = "toString")) then
      .error "TypeError: Cannot convert object to primitive value"
    else .ok false

/-- The template literal `${a} - ${b}`. -/
def dashTemplate (a b : JSValue) : Except String JSValue :=
  match toStr a with
  | .error e => .error e
  | .ok x =>
    match toStr b with
    | .error e => .error e
    | .ok y => .ok (.string (x ++ " - " ++ y))

end JSValue

/-! ## The registry normalizer -/

/-- The `endereco` object of the canonical record. -/
structure Endereco where
  logradouro : JSValue
  numero : JSValue
  complemento : JSValue
  bairro : JSValue
  municipio : JSValue
  uf : JSValue
  cep : JSValue
deriving Repr

/-- An element of `socios`. -/
structure Socio where
  nome : JSValue
  qualificacao : JSValue
  dataEntrada : JSValue
deriving Repr

/-- The canonical record `normalized` (server.js, lines 222-250); its `success` field is
`true` throughout. -/
structure DadosCNPJ where
  cnpj : JSValue
  razaoSocial : JSValue
  nomeFantasia : JSValue
  situacao : JSValue
  dataSituacao : JSValue
  motivoSituacao : JSValue
  dataAbertura : JSValue
  naturezaJuridica : JSValue
  porte : JSValue
  regimeTributario : JSValue
  capitalSocial : JSValue
  endereco : Endereco
  telefone : JSValue
  email : JSValue
  atividadePrincipal : JSValue
  atividadesSecundarias : List JSValue
  socios : List Socio
  dataUltimaAtualizacao : JSValue
deriving Repr

/-- The empty text `''`. -/
def emptyText : JSValue := .string ""

/-- The initial value of `normalized` (server.js, lines 222-250). -/
def normalizedInicial : DadosCNPJ :=
  { cnpj := emptyText, razaoSocial := emptyText, nomeFantasia := emptyText,
    situacao := emptyText, dataSituacao := emptyText, motivoSituacao := emptyText,
    dataAbertura := emptyText, naturezaJuridica := emptyText, porte := emptyText,
    regimeTributario := emptyText, capitalSocial := emptyText,
    endereco :=
      { logradouro := emptyText, numero := emptyText, complemento := emptyText,
        bairro := emptyText, municipio := emptyText, uf := emptyText, cep := emptyText },
    telefone := emptyText, email := emptyText, atividadePrincipal := emptyText,
    atividadesSecundarias := [], socios := [], dataUltimaAtualizacao := emptyText }

/-- What `normalizarDadosCNPJ` returns: the canonical record, or
`{ success: false, error }`. -/
inductive Normalizacao where
  | success (dados : DadosCNPJ)
  | failure (error : String)
deriving Repr

/-- The text of the failure for a record without a legal name (line 346). -/
def erroDadosIncompletos : String := "Dados incompletos retornados pela API"

/-- The text of the failure for an exception during the mapping (line 356). -/
def erroProcessamento : String := "Erro ao processar dados da API"

/-- The expression `a || b` with both sides evaluated in order: `b` is evaluated only
when `a` is falsy, an exception in either side propagates. -/
def orM (a b : Except String JSValue) : Except String JSValue :=
  match a with
  | .error e => .error e
  | .ok v => if v.truthy then .ok v else b

/-- The expression `data.name || ''`. -/
def propOrEmpty (data : JSValue) (name : String) : Except String JSValue :=
  orM (data.getProp name) (.ok emptyText)

/-- The expression `data.first || data.second || ''`. -/
def propOrPropOrEmpty (data : JSValue) (first second : String) : Except String JSValue :=
  orM (data.getProp first) (orM (data.getProp second) (.ok emptyText))

/-- Applies a mapping callback to every element, in order, as `Array.prototype.map`
does; the first exception thrown by the callback ends the loop. -/
def mapElems {α : Type} (f : JSValue → Except String α) : List JSValue → Except String (List α)
  | [] => .ok []
  | v :: rest =>
    match f v with
    | .error e => .error e
    | .ok a =>
      match mapElems f rest with
      | .error e => .error e
      | .ok as => .ok (a :: as)

/-- The expression `value && Array.isArray(value) ? value.map(f) : []` shared by the
list fields (lines 282-286, 289-295, 326-330, 333-339). -/
def mapIfArray {α : Type} (f : JSValue → Except String α) (value : JSValue) :
    Except String (List α) :=
  match value with
  | .array elems => mapElems f elems
  | _ => .ok []

/-- The callback on line 283: the text of a secondary activity of BrasilAPI. -/
def cnaeSecundario (cnae : JSValue) : Except String JSValue := do
  let codigo ← cnae.getProp "codigo"
  let descricao ← cnae.getProp "descricao"
  JSValue.dashTemplate codigo descricao

/-- The callback on lines 290-294: a partner of BrasilAPI. -/
def socioBrasilAPI (socio : JSValue) : Except String Socio := do
  let nome ← propOrEmpty socio "nome_socio"
  let qualificacao ← propOrEmpty socio "qualificacao_socio"
  let dataEntrada ← propOrEmpty socio "data_entrada_sociedade"
  pure { nome := nome, qualificacao := qualificacao, dataEntrada := dataEntrada }

/-- The callback on line 327: the text of a secondary activity of ReceitaWS. -/
def atividadeSecundaria (ativ : JSValue) : Except String JSValue := do
  let code ← ativ.getProp "code"
  let text ← ativ.getProp "text"
  JSValue.dashTemplate code text

/-- The callback on lines 334-338: a partner of ReceitaWS. -/
def socioReceitaWS (socio : JSValue) : Except String Socio := do
  let nome ← propOrEmpty socio "nome"
  let qualificacao ← propOrEmpty socio "qual"
  pure { nome := nome, qualificacao := qualificacao, dataEntrada := emptyText }

/-- The primary activity of BrasilAPI (lines 278-280). -/
def atividadePrincipalBrasilAPI (data : JSValue) : Except String JSValue := do
  let principal ← data.getProp "cnae_fiscal_principal"
  if principal.truthy then
    let codigo ← principal.getProp "codigo"
    let descricao ← principal.getProp "descricao"
    JSValue.dashTemplate codigo descricao
  else pure emptyText

/-- The primary activity of ReceitaWS (lines 321-324). -/
def atividadePrincipalReceitaWS (rt : JSRuntime) (data : JSValue) : Except String JSValue := do
  let atividades ← data.getProp "atividade_principal"
  if atividades.truthy then
    let length ← atividades.getProp "length"
    if ← length.gtZero rt then
      let principal ← atividades.getProp "0"
      let code ← principal.getProp "code"
      let text ← principal.getProp "text"
      JSValue.dashTemplate code text
    else pure emptyText
  else pure emptyText

/-- The branch `apiName === 'BrasilAPI'` (server.js, lines 253-295). -/
def mapBrasilAPI (data : JSValue) : Except String DadosCNPJ := do
  let cnpj ← propOrEmpty data "cnpj"
  let razaoSocial ←
    orM (data.getProp "razao_social")
      (orM (do let company ← data.getProp "company"; company.getPropOptional "name")
        (.ok emptyText))
  let nomeFantasia ← propOrPropOrEmpty data "nome_fantasia" "alias"
  let situacao ← propOrPropOrEmpty data "descricao_situacao_cadastral" "status"
  let dataSituacao ← propOrEmpty data "data_situacao_cadastral"
  let motivoSituacao ← propOrEmpty data "descricao_motivo_situacao_cadastral"
  let dataAbertura ← propOrPropOrEmpty data "data_inicio_atividade" "founded"
  let naturezaJuridica ← propOrEmpty data "descricao_natureza_juridica"
  let porte ← propOrPropOrEmpty data "descricao_porte" "size"
  let capitalSocial ← propOrEmpty data "capital_social"
  let logradouro ← propOrEmpty data "logradouro"
  let numero ← propOrEmpty data "numero"
  let complemento ← propOrEmpty data "complemento"
  let bairro ← propOrEmpty data "bairro"
  let municipio ← propOrEmpty data "municipio"
  let uf ← propOrEmpty data "uf"
  let cep ← propOrEmpty data "cep"
  let telefone ← propOrEmpty data "ddd_telefone_1"
  let email ← propOrEmpty data "email"
  let atividadePrincipal ← atividadePrincipalBrasilAPI data
  let atividadesSecundarias ← mapIfArray cnaeSecundario (← data.getProp "cnaes_secundarios")
  let socios ← mapIfArray socioBrasilAPI (← data.getProp "qsa")
  pure
    { normalizedInicial with
      cnpj := cnpj, razaoSocial := razaoSocial, nomeFantasia := nomeFantasia,
      situacao := situacao, dataSituacao := dataSituacao, motivoSituacao := motivoSituacao,
      dataAbertura := dataAbertura, naturezaJuridica := naturezaJuridica, porte := porte,
      capitalSocial := capitalSocial,
      endereco :=
        { logradouro := logradouro, numero := numero, complemento := complemento,
          bairro := bairro, municipio := municipio, uf := uf, cep := cep },
      telefone := telefone, email := email, atividadePrincipal := atividadePrincipal,
      atividadesSecundarias := atividadesSecundarias, socios := socios }

/-- The branch `apiName === 'ReceitaWS'` (server.js, lines 297-340). -/
def mapReceitaWS (rt : JSRuntime) (data : JSValue) : Except String DadosCNPJ := do
  let cnpj ← propOrEmpty data "cnpj"
  let razaoSocial ← propOrEmpty data "nome"
  let nomeFantasia ← propOrEmpty data "fantasia"
  let situacao ← propOrEmpty data "situacao"
  let dataAbertura ← propOrEmpty data "abertura"
  let naturezaJuridica ← propOrEmpty data "natureza_juridica"
  let porte ← propOrEmpty data "porte"
  let capitalSocial ← propOrEmpty data "capital_social"
  let logradouro ← propOrEmpty data "logradouro"
  let numero ← propOrEmpty data "numero"
  let complemento ← propOrEmpty data "complemento"
  let bairro ← propOrEmpty data "bairro"
  let municipio ← propOrEmpty data "municipio"
  let uf ← propOrEmpty data "uf"
  let cep ← propOrEmpty data "cep"
  let telefone ← propOrEmpty data "telefone"
  let email ← propOrEmpty data "email"
  let atividadePrincipal ← atividadePrincipalReceitaWS rt data
  let atividadesSecundarias ←
    mapIfArray atividadeSecundaria (← data.getProp "atividades_secundarias")
  let socios ← mapIfArray socioReceitaWS (← data.getProp "qsa")
  pure
    { normalizedInicial with
      cnpj := cnpj, razaoSocial := razaoSocial, nomeFantasia := nomeFantasia,
      situacao := situacao, dataAbertura := dataAbertura,
      naturezaJuridica := naturezaJuridica, porte := porte, capitalSocial := capitalSocial,
      endereco :=
        { logradouro := logradouro, numero := numero, complemento := complemento,
          bairro := bairro, municipio := municipio, uf := uf, cep := cep },
      telefone := telefone, email := email, atividadePrincipal := atividadePrincipal,
      atividadesSecundarias := atividadesSecundarias, socios := socios }

/-- The body of the `try` block of `normalizarDadosCNPJ` up to the validation
(server.js, lines 222-340): the record after the branch for `apiName`, or the
exception thrown on the way.  A source name without a branch leaves the initial
record as it is. -/
def mapearDados (rt : JSRuntime) (data : JSValue) (apiName : String) :
    Except String DadosCNPJ :=
  if apiName = "BrasilAPI" then mapBrasilAPI data
  else if apiName = "ReceitaWS" then mapReceitaWS rt data
  else .ok normalizedInicial

/-- The function `normalizarDadosCNPJ` (server.js, lines 220-359). -/
def normalizarDadosCNPJ (rt : JSRuntime) (data : JSValue) (apiName : String) : Normalizacao :=
  match mapearDados rt data apiName with
  | .error _ => .failure erroProcessamento
  | .ok normalized =>
    if !normalized.razaoSocial.truthy then .failure erroDadosIncompletos
    else .success normalized

/-! ## The lookup orchestrator -/

/-- An entry of the `apis` array (server.js, lines 145-161). -/
structure Api where
  name : String
  url : String
  official : Bool
deriving DecidableEq, Repr

/-- What `fetch` resolves to, as far as `consultarCNPJ` reads it: the status and the
outcome of `response.json()`, which throws on a body that is not JSON. -/
structure HttpResponse where
  status : Nat
  json : Except String JSValue

/-- The field `response.ok`: the status is in the range 200-299. -/
def HttpResponse.ok (response : HttpResponse) : Bool :=
  decide (200 ≤ response.status) && decide (response.status ≤ 299)

/-- The behaviour of the network: for the URL requested, the rejection of `fetch`
(network error, timeout) or the response. -/
abbrev Fetch := String → Except String HttpResponse

/-- What `consultarCNPJ` returns: the normalized record tagged with `source`,
`official` and `consultedAt`, or `{ success: false, error, source }` with a
`consultedAt` when all sources failed.  `consultedAt` is the instant that
`new Date().toISOString()` writes. -/
inductive Consulta where
  | sucesso (dados : DadosCNPJ) (source : String) (official : Bool) (consultedAt : Nat)
  | falha (error : String) (source : String) (consultedAt : Option Nat)
deriving Repr

/-- The text `cnpj.replace(/[^\d]/g, '')`: the decimal digits of the identifier. -/
def cnpjLimpo (cnpj : String) : String := String.mk (cnpj.data.filter Char.isDigit)

/-- The `apis` array for a cleaned identifier (server.js, lines 145-161). -/
def apis (limpo : String) : List Api :=
  [ { name := "BrasilAPI", url := "https://brasilapi.com.br/api/cnpj/v1/" ++ limpo,
      official := true },
    { name := "ReceitaWS", url := "https://www.receitaws.com.br/v1/cnpj/" ++ limpo,
      official := false },
    { name := "CNPJ.ws", url := "https://cnpj.ws/cnpj/" ++ limpo, official := false } ]

/-- The test `data.status && data.status === 'ERROR'` on a payload that is not nullish. -/
def temMarcaDeErro (data : JSValue) : Bool :=
  match data.getProp "status" with
  | .ok (.string status) => decide (status = "ERROR")
  | _ => false

/-- The body of the `try` block for one source (server.js, lines 164-205), given the
outcome of its request: `some` is the record with which the function returns, `none`
stands for `continue`, which is also what the `catch` does. -/
def tentarApi (rt : JSRuntime) (fetch : Fetch) (api : Api) : Option DadosCNPJ :=
  match fetch api.url with
  | .error _ => none
  | .ok response =>
    if !response.ok then none
    else
      match response.json with
      | .error _ => none
      | .ok data =>
        if !data.truthy || temMarcaDeErro data then none
        else
          match normalizarDadosCNPJ rt data api.name with
          | .success dados => some dados
          | .failure _ => none

/-- The `for ... of apis` loop and the final `return` (server.js, lines 163-214): the
result and the URLs requested, in order. -/
def consultarApis (rt : JSRuntime) (fetch : Fetch) (now : Nat) : List Api → Consulta × List String
  | [] =>
    (.falha "Não foi possível consultar o CNPJ no momento. Todas as APIs estão indisponíveis."
      "todas_apis_falharam" (some now), [])
  | api :: rest =>
    match tentarApi rt fetch api with
    | some dados => (.sucesso dados api.name api.official now, [api.url])
    | none => ((consultarApis rt fetch now rest).1, api.url :: (consultarApis rt fetch now rest).2)

/-- The function `consultarCNPJ` (server.js, lines 130-215) for an identifier that is a
string, run against the network `fetch` with `now` the clock value read by
`new Date()`: the result and the URLs requested, in order. -/
def consultarCNPJ (rt : JSRuntime) (fetch : Fetch) (now : Nat) (cnpj : String) :
    Consulta × List String :=
  if (cnpjLimpo cnpj).length ≠ 14 then
    (.falha "CNPJ deve ter 14 dígitos" "validacao" none, [])
  else consultarApis rt fetch now (apis (cnpjLimpo cnpj))

/-! ## The form validator

The fields of the form are text fields: each is a string, or absent (`undefined`).
A text is a sequence of Unicode characters; its `length` is counted in UTF-16 code
units, as JavaScript does. -/

/-- The body of a consultancy request, `req.body`: the text fields the server reads. -/
structure FormData where
  nomeCompleto : Option String
  email : Option String
  telefone : Option String
  empresa : Option String
  cnpj : Option String
  tempoExistencia : Option String
  faturamentoAnual : Option String
  tipoConsultoria : Option String
  mensagem : Option String
  outrosDocumentos : Option String
deriving DecidableEq, Repr

/-- The characters `String.prototype.trim` removes and the regular-expression class
`\s` matches: white space and line terminators. -/
def isJsWhitespace (c : Char) : Bool :=
  c.toNat = 9 || c.toNat = 10 || c.toNat = 11 || c.toNat = 12 || c.toNat = 13 ||
  c.toNat = 32 || c.toNat = 160 || c.toNat = 5760 ||
  (decide (8192 ≤ c.toNat) && decide (c.toNat ≤ 8202)) ||
  c.toNat = 8232 || c.toNat = 8233 || c.toNat = 8239 || c.toNat = 8287 ||
  c.toNat = 12288 || c.toNat = 65279

/-- The text `s.trim()`. -/
def jsTrim (s : String) : String :=
  String.mk ((s.data.dropWhile isJsWhitespace).reverse.dropWhile isJsWhitespace).reverse

/-- The number `s.trim().length`. -/
def trimmedLength (s : String) : Nat := JSValue.utf16Length (jsTrim s)

/-- The test `!campo`: the field is absent or the empty text. -/
def campoVazio : Option String → Bool
  | none => true
  | some s => decide (s = "")

/-- The test `!campo || campo.trim().length < minimo`. -/
def ausenteOuCurto (campo : Option String) (minimo : Nat) : Bool :=
  match campo with
  | none => true
  | some s => decide (s = "") || decide (trimmedLength s < minimo)

/-- One step of the automaton of the regular expression
`/^[^\s@]+@[^\s@]+\.[^\s@]+$/` (line 445).  State 0 is the start, 1 is inside the first
`[^\s@]+`, 2 is after `@`, 3 is inside the second `[^\s@]+`, 4 is after `\.`, 5 is
inside the third `[^\s@]+` and accepts. -/
def emailPasso (c : Char) (estado : Nat) : List Nat :=
  match estado with
  | 0 => if !isJsWhitespace c && c != Char.ofNat 64 then [1] else []
  | 1 =>
    (if !isJsWhitespace c && c != Char.ofNat 64 then [1] else []) ++
      (if c = Char.ofNat 64 then [2] else [])
  | 2 => if !isJsWhitespace c && c != Char.ofNat 64 then [3] else []
  | 3 =>
    (if !isJsWhitespace c && c != Char.ofNat 64 then [3] else []) ++
      (if c = Char.ofNat 46 then [4] else [])
  | 4 => if !isJsWhitespace c && c != Char.ofNat 64 then [5] else []
  | 5 => if !isJsWhitespace c && c != Char.ofNat 64 then [5] else []
  | _ => []

/-- The states the automaton can be in after reading the characters. -/
def emailEstados (cs : List Char) : List Nat :=
  cs.foldl (fun estados c => (estados.flatMap (emailPasso c)).eraseDups) [0]

/-- The test `/^[^\s@]+@[^\s@]+\.[^\s@]+$/.test(s)`. -/
def emailRegexTest (s : String) : Bool := (emailEstados s.data).contains 5

/-- The text `cnpj.replace(/\D/g, '')`: the decimal digits of the identifier. -/
def apenasDigitos (cnpj : String) : String := String.mk (cnpj.data.filter Char.isDigit)

/-- The object `validateFormData` returns. -/
structure Validacao where
  isValid : Bool
  errors : List String
deriving DecidableEq, Repr

/-- The statement `if (condicao) errors.push(mensagem)`. -/
def pushIf (errors : List String) (condicao : Bool) (mensagem : String) : List String :=
  if condicao then errors ++ [mensagem] else errors

/-- The function `validateFormData` (server.js, lines 437-489). -/
def validateFormData (data : FormData) : Validacao :=
  let errors : List String := []
  let errors := pushIf errors (ausenteOuCurto data.nomeCompleto 2)
    "Nome completo é obrigatório e deve ter pelo menos 2 caracteres"
  let errors := pushIf errors
    (match data.email with
      | none => true
      | some email => decide (email = "") || !emailRegexTest email)
    "Email válido é obrigatório"
  let errors := pushIf errors (ausenteOuCurto data.telefone 10) "Telefone válido é obrigatório"
  let errors := pushIf errors (ausenteOuCurto data.empresa 2) "Nome da empresa é obrigatório"
  let errors :=
    if ausenteOuCurto data.cnpj 14 then errors ++ ["CNPJ é obrigatório e deve ser válido"]
    else
      pushIf errors (decide ((apenasDigitos (data.cnpj.getD "")).length ≠ 14))
        "CNPJ deve conter 14 dígitos"
  let errors := pushIf errors (campoVazio data.tempoExistencia)
    "Tempo de existência da empresa é obrigatório"
  let errors := pushIf errors (campoVazio data.faturamentoAnual)
    "Faturamento anual é obrigatório"
  let errors := pushIf errors (campoVazio data.tipoConsultoria)
    "Tipo de consultoria é obrigatório"
  let errors := pushIf errors (ausenteOuCurto data.mensagem 5)
    "Descrição do projeto é obrigatória e deve ter pelo menos 5 caracteres"
  { isValid := decide (errors.length = 0), errors := errors }

/-! ## Uploaded files and the listing route -/

/-- The callback of `files.forEach` in `cleanupFiles` (server.js, lines 733-742): a
failed removal is logged and ignored. -/
def removeUploadedFile (disk : Disk) (file : FileDesc) : Disk :=
  if existsSync disk file.path then
    match unlinkSync disk file.path with
    | .ok disk' => disk'
    | .error _ => disk
  else disk

/-- The function `cleanupFiles` (server.js, lines 730-743); `none` is an absent list. -/
def cleanupFiles (files : Option (List FileDesc)) (disk : Disk) : Disk :=
  match files with
  | none => disk
  | some [] => disk
  | some list => list.foldl removeUploadedFile disk

/-- The characters `encodeURIComponent` leaves as they are: ASCII letters and digits
and `- _ . ! ~ * ' ( )`. -/
def uriUnreserved (c : Char) : Bool :=
  c.isAlphanum || c.toNat = 45 || c.toNat = 95 || c.toNat = 46 || c.toNat = 33 ||
  c.toNat = 126 || c.toNat = 42 || c.toNat = 39 || c.toNat = 40 || c.toNat = 41

/-- The octets of the UTF-8 encoding of a character. -/
def utf8Octets (c : Char) : List Nat :=
  if c.toNat < 128 then [c.toNat]
  else if c.toNat < 2048 then [192 + c.toNat / 64, 128 + c.toNat % 64]
  else if c.toNat < 65536 then
    [224 + c.toNat / 4096, 128 + (c.toNat / 64) % 64, 128 + c.toNat % 64]
  else
    [240 + c.toNat / 262144, 128 + (c.toNat / 4096) % 64, 128 + (c.toNat / 64) % 64,
      128 + c.toNat % 64]

/-- The built-in `encodeURIComponent` on a text of Unicode characters. -/
def encodeURIComponent (text : String) : String :=
  String.mk (text.data.flatMap (fun c =>
    if uriUnreserved c then [c]
    else (utf8Octets c).flatMap (fun b =>
      [Char.ofNat 37, hexDigitUpper (b / 16), hexDigitUpper (b % 16)])))

/-- What `GET /download/:linkId/zip` answers: `res.status(status).json({ error })`, or
the JSON object with a message and, for each file, its name and its download URL. -/
inductive ZipResponse where
  | error (status : Nat) (error : String)
  | listing (message : String) (files : List (String × String))
deriving DecidableEq, Repr

/-- The handler of `GET /download/:linkId/zip` (server.js, lines 1071-1093), run at
clock value `now`. -/
def downloadZipRoute (now : Nat) (linkId : String) (s : Server) : ZipResponse × Server :=
  match validateTempLink now linkId s.tempLinks with
  | (.invalid reason, tempLinks) => (.error 404 reason, { s with tempLinks := tempLinks })
  | (.valid link, tempLinks) =>
    (.listing "Download em lote não implementado ainda. Use downloads individuais."
        (link.files.map (fun f =>
          (f.originalname,
            "/download/" ++ linkId ++ "/file/" ++ encodeURIComponent f.originalname))),
      { s with tempLinks := incrementDownload linkId tempLinks })

/-- The zip route requested once at each of the given clock values, in turn: the state
at the end. -/
def downloadZipRepeatedly (linkId : String) : List Nat → Server → Server
  | [], s => s
  | now :: later, s => downloadZipRepeatedly linkId later (downloadZipRoute now linkId s).2

/-- The file route requested for each pair of a clock value and a file name, in turn:
the answers in order and the state at the end. -/
def downloadFiles (linkId : String) : List (Nat × String) → Server → List Response × Server
  | [], s => ([], s)
  | pedido :: later, s =>
    ((downloadFileRoute pedido.1 linkId pedido.2 s).1 ::
        (downloadFiles linkId later (downloadFileRoute pedido.1 linkId pedido.2 s).2).1,
      (downloadFiles linkId later (downloadFileRoute pedido.1 linkId pedido.2 s).2).2)

/-- Is the answer a delivered file. -/
def Response.isDownload : Response → Bool
  | .download _ _ => true
  | _ => false

/-! ## The notification email -/

/-- The surroundings of the mail code that the embedding leaves open: the text
`Date.prototype.toLocaleString('pt-BR')` writes for an instant, the text
`String.prototype.toLowerCase` yields, and the environment variables `EMAIL_USER` and
`RECIPIENT_EMAIL`. -/
structure Ambiente where
  toLocaleString : Nat → String
  toLowerCase : String → String
  envEmailUser : Option String
  envRecipientEmail : Option String

/-- The text a template literal inserts for a form field: `undefined` when absent. -/
def textoDe : Option String → String
  | none => "undefined"
  | some s => s

/-- The text `s.replace(/\n/g, '<br>')`. -/
def quebrasParaBr (s : String) : String :=
  String.mk (s.data.flatMap (fun c => if c = Char.ofNat 10 then "<br>".data else [c]))

/-- The test `texto.includes(parte)`. -/
def contemTexto (texto parte : String) : Bool :=
  texto.data.tails.any (fun resto => parte.data.isPrefixOf resto)

/-- A template literal: the parts are evaluated and converted in order, the first
exception ends the evaluation. -/
def concatM : List (Except String String) → Except String String
  | [] => .ok ""
  | parte :: resto =>
    match parte with
    | .error e => .error e
    | .ok a =>
      match concatM resto with
      | .error e => .error e
      | .ok b => .ok (a ++ b)

/-- The results of the callbacks of `map`, in order, or the first exception. -/
def sequenciaM : List (Except String String) → Except String (List String)
  | [] => .ok []
  | parte :: resto =>
    match parte with
    | .error e => .error e
    | .ok a =>
      match sequenciaM resto with
      | .error e => .error e
      | .ok as => .ok (a :: as)

/-- The expression `lista.map(f).join(separador)`. -/
def joinM (separador : String) (partes : List (Except String String)) : Except String String :=
  match sequenciaM partes with
  | .error e => .error e
  | .ok textos => .ok (separador.intercalate textos)

/-- The text `new Date(consultedAt).toLocaleString('pt-BR')`; without a `consultedAt`
the date is invalid. -/
def dataLocal (amb : Ambiente) : Option Nat → String
  | none => "Invalid Date"
  | some instante => amb.toLocaleString instante

/-- The colour `situacao?.toLowerCase().includes('ativa') ? '#059669' : '#dc2626'`
(line 521); a value that is neither nullish nor a string has no `toLowerCase`. -/
def corDaSituacao (amb : Ambiente) (situacao : JSValue) : Except String String :=
  match situacao with
  | .undefined => .ok "#dc2626"
  | .null => .ok "#dc2626"
  | .string s => .ok (if contemTexto (amb.toLowerCase s) "ativa" then "#059669" else "#dc2626")
  | _ => .error "TypeError: dadosCNPJ.situacao?.toLowerCase is not a function"

/-- The test `dadosCNPJ && dadosCNPJ.success`. -/
def consultaComSucesso : Option Consulta → Bool
  | some (.sucesso _ _ _ _) => true
  | _ => false

/-- The section of the email for a successful lookup: the template on lines 498-619 of
server.js.  An interpolated value is converted with `ToString`, which can throw. -/
def secaoDadosOficiais (amb : Ambiente) (dados : DadosCNPJ) (source : String) (official : Bool)
    (consultedAt : Nat) : Except String String :=
  concatM
    [ Except.ok "\n",
      Except.ok "        <h2 style=\"color: #059669; border-bottom: 2px solid #059669; padding-bottom: 10px;\">📊 DADOS OFICIAIS DO CNPJ</h2>\n",
      Except.ok "        <div style=\"background: #ecfdf5; padding: 15px; border-radius: 8px; margin-bottom: 20px;\">\n",
      Except.ok "            <p style=\"margin: 0; font-size: 12px; color: #065f46;\">\n",
      Except.ok "                <strong>Fonte:</strong> ",
      Except.ok source,
      Except.ok " ",
      Except.ok (if official then "(Oficial)" else "(Terceiros)"),
      Except.ok " | \n                <strong>Consultado em:</strong> ",
      Except.ok (amb.toLocaleString consultedAt),
      Except.ok "\n            </p>\n        </div>\n        \n        <div class=\"field\">\n",
      Except.ok "            <div class=\"label\">🏢 Razão Social:</div>\n",
      Except.ok "            <div class=\"value\" style=\"font-weight: bold; color: #059669;\">",
      dados.razaoSocial.toStr,
      Except.ok "</div>\n        </div>\n        \n        ",
      (if dados.nomeFantasia.truthy then
          concatM
            [ Except.ok "\n        <div class=\"field\">\n            <div class=\"label\">🏪 Nome Fantasia:</div>\n",
              Except.ok "            <div class=\"value\">",
              dados.nomeFantasia.toStr,
              Except.ok "</div>\n        </div>\n        " ]
        else Except.ok ""),
      Except.ok "\n        \n        <div class=\"field\">\n",
      Except.ok "            <div class=\"label\">📋 Situação Cadastral:</div>\n",
      Except.ok "            <div class=\"value\" style=\"color: ",
      corDaSituacao amb dados.situacao,
      Except.ok "; font-weight: bold;\">\n                ",
      dados.situacao.toStr,
      Except.ok "\n                ",
      (if dados.dataSituacao.truthy then
          concatM
            [ Except.ok " (desde ",
              dados.dataSituacao.toStr,
              Except.ok ")" ]
        else Except.ok ""),
      Except.ok "\n            </div>\n        </div>\n        \n        ",
      (if dados.motivoSituacao.truthy then
          concatM
            [ Except.ok "\n        <div class=\"field\">\n",
              Except.ok "            <div class=\"label\">📝 Motivo da Situação:</div>\n",
              Except.ok "            <div class=\"value\">",
              dados.motivoSituacao.toStr,
              Except.ok "</div>\n        </div>\n        " ]
        else Except.ok ""),
      Except.ok "\n        \n        <div class=\"field\">\n",
      Except.ok "            <div class=\"label\">📅 Data de Abertura:</div>\n",
      Except.ok "            <div class=\"value\">",
      dados.dataAbertura.toStr,
      Except.ok "</div>\n        </div>\n        \n        ",
      (if dados.naturezaJuridica.truthy then
          concatM
            [ Except.ok "\n        <div class=\"field\">\n",
              Except.ok "            <div class=\"label\">⚖️ Natureza Jurídica:</div>\n",
              Except.ok "            <div class=\"value\">",
              dados.naturezaJuridica.toStr,
              Except.ok "</div>\n        </div>\n        " ]
        else Except.ok ""),
      Except.ok "\n        \n        ",
      (if dados.porte.truthy then
          concatM
            [ Except.ok "\n        <div class=\"field\">\n            <div class=\"label\">📏 Porte da Empresa:</div>\n",
              Except.ok "            <div class=\"value\">",
              dados.porte.toStr,
              Except.ok "</div>\n        </div>\n        " ]
        else Except.ok ""),
      Except.ok "\n        \n        ",
      (if dados.capitalSocial.truthy then
          concatM
            [ Except.ok "\n        <div class=\"field\">\n            <div class=\"label\">💰 Capital Social:</div>\n",
              Except.ok "            <div class=\"value\">R$ ",
              dados.capitalSocial.toStr,
              Except.ok "</div>\n        </div>\n        " ]
        else Except.ok ""),
      Except.ok "\n        \n",
      Except.ok "        <h3 style=\"color: #0369a1; margin-top: 25px;\">📍 Endereço Oficial</h3>\n",
      Except.ok "        <div class=\"field\">\n            <div class=\"label\">🏠 Endereço Completo:</div>\n",
      Except.ok "            <div class=\"value\">\n                ",
      dados.endereco.logradouro.toStr,
      Except.ok " ",
      dados.endereco.numero.toStr,
      Except.ok "\n                ",
      (if dados.endereco.complemento.truthy then
          concatM
            [ Except.ok ", ",
              dados.endereco.complemento.toStr ]
        else Except.ok ""),
      Except.ok "\n                <br>",
      dados.endereco.bairro.toStr,
      Except.ok " - ",
      dados.endereco.municipio.toStr,
      Except.ok "/",
      dados.endereco.uf.toStr,
      Except.ok "\n                <br>CEP: ",
      dados.endereco.cep.toStr,
      Except.ok "\n            </div>\n        </div>\n        \n        ",
      (if (dados.telefone.truthy || dados.email.truthy) then
          concatM
            [ Except.ok "\n        <h3 style=\"color: #0369a1; margin-top: 25px;\">📞 Contatos Oficiais</h3>\n",
              Except.ok "        ",
              (if dados.telefone.truthy then
                  concatM
                    [ Except.ok "\n        <div class=\"field\">\n            <div class=\"label\">📱 Telefone:</div>\n",
                      Except.ok "            <div class=\"value\">",
                      dados.telefone.toStr,
                      Except.ok "</div>\n        </div>\n        " ]
                else Except.ok ""),
              Except.ok "\n        ",
              (if dados.email.truthy then
                  concatM
                    [ Except.ok "\n        <div class=\"field\">\n            <div class=\"label\">📧 Email:</div>\n",
                      Except.ok "            <div class=\"value\">",
                      dados.email.toStr,
                      Except.ok "</div>\n        </div>\n        " ]
                else Except.ok ""),
              Except.ok "\n        " ]
        else Except.ok ""),
      Except.ok "\n        \n        ",
      (if dados.atividadePrincipal.truthy then
          concatM
            [ Except.ok "\n        <h3 style=\"color: #0369a1; margin-top: 25px;\">🎯 Atividade Econômica</h3>\n",
              Except.ok "        <div class=\"field\">\n",
              Except.ok "            <div class=\"label\">🏭 Atividade Principal:</div>\n",
              Except.ok "            <div class=\"value\">",
              dados.atividadePrincipal.toStr,
              Except.ok "</div>\n        </div>\n        " ]
        else Except.ok ""),
      Except.ok "\n        \n        ",
      (if 0 < dados.atividadesSecundarias.length then
          concatM
            [ Except.ok "\n        <div class=\"field\">\n",
              Except.ok "            <div class=\"label\">🔧 Atividades Secundárias:</div>\n",
              Except.ok "            <div class=\"value\">\n                ",
              joinM "<br>"
                ((dados.atividadesSecundarias.take 5).map (fun ativ =>
                  concatM
                    [ Except.ok "• ",
                      ativ.toStr ])),
              Except.ok "\n                ",
              (if 5 < dados.atividadesSecundarias.length then
                  concatM
                    [ Except.ok "<br><em>... e mais ",
                      Except.ok (toString (dados.atividadesSecundarias.length - 5)),
                      Except.ok " atividades</em>" ]
                else Except.ok ""),
              Except.ok "\n            </div>\n        </div>\n        " ]
        else Except.ok ""),
      Except.ok "\n        \n        ",
      (if 0 < dados.socios.length then
          concatM
            [ Except.ok "\n        <h3 style=\"color: #0369a1; margin-top: 25px;\">👥 Quadro Societário</h3>\n",
              Except.ok "        <div class=\"field\">\n",
              Except.ok "            <div class=\"label\">🤝 Sócios/Administradores:</div>\n",
              Except.ok "            <div class=\"value\">\n                ",
              joinM "<br><br>"
                ((dados.socios.take 10).map (fun socio =>
                  concatM
                    [ Except.ok "\n                    <strong>",
                      socio.nome.toStr,
                      Except.ok "</strong><br>\n                    <em>",
                      socio.qualificacao.toStr,
                      Except.ok "</em>\n                    ",
                      (if socio.dataEntrada.truthy then
                          concatM
                            [ Except.ok "<br><small>Entrada: ",
                              socio.dataEntrada.toStr,
                              Except.ok "</small>" ]
                        else Except.ok ""),
                      Except.ok "\n                " ])),
              Except.ok "\n                ",
              (if 10 < dados.socios.length then
                  concatM
                    [ Except.ok "<br><br><em>... e mais ",
                      Except.ok (toString (dados.socios.length - 10)),
                      Except.ok " sócios</em>" ]
                else Except.ok ""),
              Except.ok "\n            </div>\n        </div>\n        " ]
        else Except.ok ""),
      Except.ok "\n        \n    " ]

/-- The notice of the email for a failed lookup: the template on lines 620-628 of
server.js. -/
def avisoFalhaConsulta (amb : Ambiente) (error source : String) (consultedAt : Option Nat) :
    String :=
  String.join
    [ "\n        <h2 style=\"color: #dc2626;\">⚠️ CONSULTA CNPJ</h2>\n",
      "        <div style=\"background: #fef2f2; padding: 15px; border-radius: 8px; margin-bottom: 20px; border-left: 4px solid #dc2626;\">\n",
      "            <p style=\"margin: 0; color: #991b1b;\">\n",
      "                <strong>Erro na consulta:</strong> ",
      error,
      "<br>\n                <small>Fonte: ",
      source,
      " | Consultado em: ",
      dataLocal amb consultedAt,
      "</small>\n            </p>\n        </div>\n    " ]

/-- The text `secaoCNPJ` of `generateEmailHTML` (server.js, lines 498-628): the
official data for a successful lookup, the notice for a failed one, nothing without a
lookup. -/
def secaoCNPJ (amb : Ambiente) (dadosCNPJ : Option Consulta) : Except String String :=
  match dadosCNPJ with
  | some (.sucesso dados source official consultedAt) =>
    secaoDadosOficiais amb dados source official consultedAt
  | some (.falha error source consultedAt) =>
    .ok (avisoFalhaConsulta amb error source consultedAt)
  | none => .ok ""

/-- The function `generateEmailHTML` (server.js, lines 496-724); `agora` is the clock value
read by `new Date()` on line 717. -/
def generateEmailHTML (amb : Ambiente) (agora : Nat) (data : FormData)
    (dadosCNPJ : Option Consulta) : Except String String :=
  concatM
    [ Except.ok "\n        <!DOCTYPE html>\n        <html>\n        <head>\n",
      Except.ok "            <meta charset=\"utf-8\">\n            <style>\n",
      Except.ok "                body \x7b font-family: Arial, sans-serif; line-height: 1.6; color: #333; \x7d\n",
      Except.ok "                .container \x7b max-width: 700px; margin: 0 auto; padding: 20px; \x7d\n",
      Except.ok "                .header \x7b background: #3b82f6; color: white; padding: 20px; text-align: center; \x7d\n",
      Except.ok "                .content \x7b padding: 20px; background: #f9f9f9; \x7d\n",
      Except.ok "                .field \x7b margin-bottom: 15px; \x7d\n",
      Except.ok "                .label \x7b font-weight: bold; color: #555; \x7d\n",
      Except.ok "                .value \x7b margin-top: 5px; padding: 10px; background: white; border-radius: 5px; \x7d\n",
      Except.ok "                .footer \x7b text-align: center; padding: 20px; color: #666; font-size: 12px; \x7d\n",
      Except.ok "                .cnpj-section \x7b background: #f0f9ff; border: 1px solid #0ea5e9; border-radius: 8px; padding: 20px; margin: 20px 0; \x7d\n",
      Except.ok "            </style>\n        </head>\n        <body>\n",
      Except.ok "            <div class=\"container\">\n                <div class=\"header\">\n",
      Except.ok "                    <h1>Nova Solicitação de Consultoria</h1>\n                </div>\n",
      Except.ok "                \n                <div class=\"content\">\n",
      Except.ok "                    <h2>Dados do Solicitante</h2>\n                    \n",
      Except.ok "                    <div class=\"field\">\n",
      Except.ok "                        <div class=\"label\">Nome:</div>\n",
      Except.ok "                        <div class=\"value\">",
      Except.ok (textoDe data.nomeCompleto),
      Except.ok "</div>\n                    </div>\n                    \n",
      Except.ok "                    <div class=\"field\">\n",
      Except.ok "                        <div class=\"label\">Email:</div>\n",
      Except.ok "                        <div class=\"value\">",
      Except.ok (textoDe data.email),
      Except.ok "</div>\n                    </div>\n                    \n",
      Except.ok "                    <div class=\"field\">\n",
      Except.ok "                        <div class=\"label\">Telefone:</div>\n",
      Except.ok "                        <div class=\"value\">",
      Except.ok (textoDe data.telefone),
      Except.ok "</div>\n                    </div>\n                    \n",
      Except.ok "                    <div class=\"field\">\n",
      Except.ok "                        <div class=\"label\">Empresa:</div>\n",
      Except.ok "                        <div class=\"value\">",
      Except.ok (textoDe data.empresa),
      Except.ok "</div>\n                    </div>\n                    \n",
      Except.ok "                    <h2>Dados Empresariais Informados</h2>\n                    \n",
      Except.ok "                    <div class=\"field\">\n",
      Except.ok "                        <div class=\"label\">CNPJ:</div>\n",
      Except.ok "                        <div class=\"value\">",
      Except.ok (textoDe data.cnpj),
      Except.ok "</div>\n                    </div>\n                    \n",
      Except.ok "                    <div class=\"field\">\n",
      Except.ok "                        <div class=\"label\">Faturamento Anual:</div>\n",
      Except.ok "                        <div class=\"value\">",
      Except.ok (textoDe data.faturamentoAnual),
      Except.ok "</div>\n                    </div>\n                    \n",
      Except.ok "                    <div class=\"field\">\n",
      Except.ok "                        <div class=\"label\">Tempo de Existência:</div>\n",
      Except.ok "                        <div class=\"value\">",
      Except.ok (textoDe data.tempoExistencia),
      Except.ok "</div>\n                    </div>\n                    \n                    ",
      secaoCNPJ amb dadosCNPJ,
      Except.ok "\n                    \n                    <h2>Detalhes da Consultoria</h2>\n",
      Except.ok "                    \n                    <div class=\"field\">\n",
      Except.ok "                        <div class=\"label\">Tipo de Consultoria:</div>\n",
      Except.ok "                        <div class=\"value\">",
      Except.ok (textoDe data.tipoConsultoria),
      Except.ok "</div>\n                    </div>\n                    \n",
      Except.ok "                    <div class=\"field\">\n",
      Except.ok "                        <div class=\"label\">Descrição do Projeto:</div>\n",
      Except.ok "                        <div class=\"value\">",
      Except.ok (if campoVazio data.mensagem then "Não informado" else quebrasParaBr (textoDe data.mensagem)),
      Except.ok "</div>\n                    </div>\n                    \n                    ",
      (if !campoVazio data.outrosDocumentos then
          concatM
            [ Except.ok "\n                    <div class=\"field\">\n",
              Except.ok "                        <div class=\"label\">Outros Documentos:</div>\n",
              Except.ok "                        <div class=\"value\">",
              Except.ok (quebrasParaBr (textoDe data.outrosDocumentos)),
              Except.ok "</div>\n                    </div>\n                    " ]
        else Except.ok ""),
      Except.ok "\n                </div>\n                \n                <div class=\"footer\">\n",
      Except.ok "                    <p>Esta solicitação foi enviada através do formulário de consultoria do site.</p>\n",
      Except.ok "                    <p>Data: ",
      Except.ok (amb.toLocaleString agora),
      Except.ok "</p>\n                    ",
      Except.ok (if consultaComSucesso dadosCNPJ then "<p><strong>✅ Dados do CNPJ verificados automaticamente</strong></p>" else ""),
      Except.ok "\n                </div>\n            </div>\n        </body>\n        </html>\n    " ]

/-! ## Auxiliary notions and sample states -/

/-- The keys of the entries of a list that the sweep removes. -/
def sweptKeys (now : Nat) (es : List (String × TempLink)) : List String :=
  keysOf (es.filter (fun e => sweepable now e.2))

/-- The paths the sweep unlinks: the non-empty paths of the files of swept entries. -/
def sweptPath (now : Nat) (es : List (String × TempLink)) (p : String) : Prop :=
  ∃ e ∈ es, sweepable now e.2 = true ∧ ∃ f ∈ e.2.files, f.path ≠ "" ∧ p = f.path

/-- A link created at clock value 0 with a lifetime of one hour and a budget of five
downloads, in an otherwise empty map. -/
def oneHourStore : TempLinks :=
  (generateTempLink 0 0 [1, 2, 3, 4, 5, 6, 7, 8] (some []) (some 5) (some 1) TempLinks.empty).2

/-- A link with a budget of one download, created at clock value 0 with a lifetime of
one hour, after its single download has been counted. -/
def spentStore : TempLinks :=
  incrementDownload "0102030405060708"
    (generateTempLink 0 0 [1, 2, 3, 4, 5, 6, 7, 8] (some []) (some 1) (some 1) TempLinks.empty).2

/-- The link id is not stored, or it is stored with `active == false`. -/
def inactiveOrAbsent (tempLinks : TempLinks) (linkId : String) : Prop :=
  match tempLinks.get linkId with
  | none => True
  | some link => link.active = false

/-- One uploaded file, stored under the name multer gave it. -/
def sampleFile : FileDesc :=
  { originalname := "contrato social.pdf", path := "uploads/1700000000000_contrato_social.pdf",
    size := 2048 }

/-- A runtime in which no string converts to a positive number; the sample payloads
below never reach that conversion. -/
def sampleRuntime : JSRuntime := { stringIsPositive := fun _ => false }

/-- A network on which every request is rejected. -/
def offlineFetch : Fetch := fun _ => .error "fetch failed"

/-- The property read `v.name` as a value: `undefined` where the read throws. -/
def JSValue.prop (v : JSValue) (name : String) : JSValue :=
  match v.getProp name with
  | .ok x => x
  | .error _ => .undefined

/-- The record the BrasilAPI branch builds from a payload that is not nullish, given
the primary activity, the secondary activities and the partners it computed. -/
def registroBrasilAPI (data atividadePrincipal : JSValue) (atividadesSecundarias : List JSValue)
    (socios : List Socio) : DadosCNPJ :=
  { cnpj := (data.prop "cnpj").orEmpty,
    razaoSocial :=
      (data.prop "razao_social").orElse (((data.prop "company").prop "name").orElse emptyText),
    nomeFantasia := (data.prop "nome_fantasia").orElse (data.prop "alias").orEmpty,
    situacao := (data.prop "descricao_situacao_cadastral").orElse (data.prop "status").orEmpty,
    dataSituacao := (data.prop "data_situacao_cadastral").orEmpty,
    motivoSituacao := (data.prop "descricao_motivo_situacao_cadastral").orEmpty,
    dataAbertura := (data.prop "data_inicio_atividade").orElse (data.prop "founded").orEmpty,
    naturezaJuridica := (data.prop "descricao_natureza_juridica").orEmpty,
    porte := (data.prop "descricao_porte").orElse (data.prop "size").orEmpty,
    regimeTributario := emptyText,
    capitalSocial := (data.prop "capital_social").orEmpty,
    endereco :=
      { logradouro := (data.prop "logradouro").orEmpty, numero := (data.prop "numero").orEmpty,
        complemento := (data.prop "complemento").orEmpty, bairro := (data.prop "bairro").orEmpty,
        municipio := (data.prop "municipio").orEmpty, uf := (data.prop "uf").orEmpty,
        cep := (data.prop "cep").orEmpty },
    telefone := (data.prop "ddd_telefone_1").orEmpty,
    email := (data.prop "email").orEmpty,
    atividadePrincipal := atividadePrincipal,
    atividadesSecundarias := atividadesSecundarias,
    socios := socios,
    dataUltimaAtualizacao := emptyText }

/-- The record the ReceitaWS branch builds from a payload that is not nullish, given
the primary activity, the secondary activities and the partners it computed. -/
def registroReceitaWS (data atividadePrincipal : JSValue) (atividadesSecundarias : List JSValue)
    (socios : List Socio) : DadosCNPJ :=
  { cnpj := (data.prop "cnpj").orEmpty,
    razaoSocial := (data.prop "nome").orEmpty,
    nomeFantasia := (data.prop "fantasia").orEmpty,
    situacao := (data.prop "situacao").orEmpty,
    dataSituacao := emptyText,
    motivoSituacao := emptyText,
    dataAbertura := (data.prop "abertura").orEmpty,
    naturezaJuridica := (data.prop "natureza_juridica").orEmpty,
    porte := (data.prop "porte").orEmpty,
    regimeTributario := emptyText,
    capitalSocial := (data.prop "capital_social").orEmpty,
    endereco :=
      { logradouro := (data.prop "logradouro").orEmpty, numero := (data.prop "numero").orEmpty,
        complemento := (data.prop "complemento").orEmpty, bairro := (data.prop "bairro").orEmpty,
        municipio := (data.prop "municipio").orEmpty, uf := (data.prop "uf").orEmpty,
        cep := (data.prop "cep").orEmpty },
    telefone := (data.prop "telefone").orEmpty,
    email := (data.prop "email").orEmpty,
    atividadePrincipal := atividadePrincipal,
    atividadesSecundarias := atividadesSecundarias,
    socios := socios,
    dataUltimaAtualizacao := emptyText }

/-- The legal name a payload carries for a source: `razao_social`, else `company.name`,
for BrasilAPI; `nome` for ReceitaWS; none for a source name the normalizer does not
know.  The payload is missing a legal name when this value is falsy. -/
def nomeLegal (data : JSValue) (apiName : String) : JSValue :=
  if apiName = "BrasilAPI" then
    (data.prop "razao_social").orElse ((data.prop "company").prop "name")
  else if apiName = "ReceitaWS" then data.prop "nome"
  else .undefined

/-- A BrasilAPI payload without a legal name whose list of partners holds `null`. -/
def payloadSocioNulo : JSValue := .object [("qsa", .array [.null])]

/-- A BrasilAPI payload with a legal name and one secondary activity that has a
description but no code. -/
def payloadCnaeSemCodigo : JSValue :=
  .object
    [("razao_social", .string "ACME LTDA"),
     ("cnaes_secundarios", .array [.object [("descricao", .string "Comércio varejista")]])]

/-- A payload that carries a legal name under the field names of both mapped sources. -/
def payloadComNome : JSValue :=
  .object [("razao_social", .string "ACME LTDA"), ("nome", .string "ACME LTDA")]

/-- The value is neither `null` nor `undefined`. -/
def JSValue.definido (v : JSValue) : Bool := !v.isNullish

/-- No field of the partner is `null` or `undefined`. -/
def Socio.semNulos (socio : Socio) : Bool :=
  socio.nome.definido && socio.qualificacao.definido && socio.dataEntrada.definido

/-- No field of the canonical record, of its address, of its list of secondary
activities or of its partners is `null` or `undefined`. -/
def DadosCNPJ.semNulos (dados : DadosCNPJ) : Bool :=
  dados.cnpj.definido && dados.razaoSocial.definido && dados.nomeFantasia.definido &&
  dados.situacao.definido && dados.dataSituacao.definido && dados.motivoSituacao.definido &&
  dados.dataAbertura.definido && dados.naturezaJuridica.definido && dados.porte.definido &&
  dados.regimeTributario.definido && dados.capitalSocial.definido &&
  dados.endereco.logradouro.definido && dados.endereco.numero.definido &&
  dados.endereco.complemento.definido && dados.endereco.bairro.definido &&
  dados.endereco.municipio.definido && dados.endereco.uf.definido &&
  dados.endereco.cep.definido && dados.telefone.definido && dados.email.definido &&
  dados.atividadePrincipal.definido && dados.dataUltimaAtualizacao.definido &&
  dados.atividadesSecundarias.all JSValue.definido && dados.socios.all Socio.semNulos

/-- For a source, each scalar field of the canonical record with the payload fields it
is read from (server.js, lines 253-280 and 298-324); a field no branch assigns has none. -/
def camposEscalares (apiName : String) : List ((DadosCNPJ → JSValue) × List String) :=
  if apiName = "BrasilAPI" then
    [ (fun d => d.cnpj, ["cnpj"]),
      (fun d => d.razaoSocial, ["razao_social", "company"]),
      (fun d => d.nomeFantasia, ["nome_fantasia", "alias"]),
      (fun d => d.situacao, ["descricao_situacao_cadastral", "status"]),
      (fun d => d.dataSituacao, ["data_situacao_cadastral"]),
      (fun d => d.motivoSituacao, ["descricao_motivo_situacao_cadastral"]),
      (fun d => d.dataAbertura, ["data_inicio_atividade", "founded"]),
      (fun d => d.naturezaJuridica, ["descricao_natureza_juridica"]),
      (fun d => d.porte, ["descricao_porte", "size"]),
      (fun d => d.regimeTributario, []),
      (fun d => d.capitalSocial, ["capital_social"]),
      (fun d => d.endereco.logradouro, ["logradouro"]),
      (fun d => d.endereco.numero, ["numero"]),
      (fun d => d.endereco.complemento, ["complemento"]),
      (fun d => d.endereco.bairro, ["bairro"]),
      (fun d => d.endereco.municipio, ["municipio"]),
      (fun d => d.endereco.uf, ["uf"]),
      (fun d => d.endereco.cep, ["cep"]),
      (fun d => d.telefone, ["ddd_telefone_1"]),
      (fun d => d.email, ["email"]),
      (fun d => d.atividadePrincipal, ["cnae_fiscal_principal"]),
      (fun d => d.dataUltimaAtualizacao, []) ]
  else if apiName = "ReceitaWS" then
    [ (fun d => d.cnpj, ["cnpj"]),
      (fun d => d.razaoSocial, ["nome"]),
      (fun d => d.nomeFantasia, ["fantasia"]),
      (fun d => d.situacao, ["situacao"]),
      (fun d => d.dataSituacao, []),
      (fun d => d.motivoSituacao, []),
      (fun d => d.dataAbertura, ["abertura"]),
      (fun d => d.naturezaJuridica, ["natureza_juridica"]),
      (fun d => d.porte, ["porte"]),
      (fun d => d.regimeTributario, []),
      (fun d => d.capitalSocial, ["capital_social"]),
      (fun d => d.endereco.logradouro, ["logradouro"]),
      (fun d => d.endereco.numero, ["numero"]),
      (fun d => d.endereco.complemento, ["complemento"]),
      (fun d => d.endereco.bairro, ["bairro"]),
      (fun d => d.endereco.municipio, ["municipio"]),
      (fun d => d.endereco.uf, ["uf"]),
      (fun d => d.endereco.cep, ["cep"]),
      (fun d => d.telefone, ["telefone"]),
      (fun d => d.email, ["email"]),
      (fun d => d.atividadePrincipal, ["atividade_principal"]),
      (fun d => d.dataUltimaAtualizacao, []) ]
  else []

/-- The payload field a source keeps its secondary activities in. -/
def campoAtividadesSecundarias (apiName : String) : String :=
  if apiName = "BrasilAPI" then "cnaes_secundarios" else "atividades_secundarias"

/-- A BrasilAPI payload that carries nothing but a legal name. -/
def payloadSoNome : JSValue := .object [("razao_social", .string "ACME LTDA")]

/-- The source answers the request with a record: its response is transport-ok, its
body parses to a payload that is not empty and carries no error marker, and the
payload normalizes to `dados`. -/
def responde (rt : JSRuntime) (fetch : Fetch) (api : Api) (dados : DadosCNPJ) : Prop :=
  ∃ response data,
    fetch api.url = .ok response ∧ response.ok = true ∧ response.json = .ok data ∧
    data.truthy = true ∧ temMarcaDeErro data = false ∧
    normalizarDadosCNPJ rt data api.name = .success dados

/-- A network on which only ReceitaWS answers, for the identifier 11222333000181, with
`payloadComNome`. -/
def fetchSoReceitaWS : Fetch := fun url =>
  if url = "https://www.receitaws.com.br/v1/cnpj/11222333000181" then
    .ok { status := 200, json := .ok payloadComNome }
  else .error "fetch failed"

/-! ## The consultancy request handler -/

/-- An element of `attachments` (server.js, lines 1145-1149). -/
structure Anexo where
  filename : String
  path : String
  contentType : String
deriving DecidableEq, Repr

/-- The object `mailOptions` handed to `transporter.sendMail`; `remetente` is its
`from` field and `destinatario` its `to` field, absent when `RECIPIENT_EMAIL` is not
set. -/
structure MailOptions where
  remetente : String
  destinatario : Option String
  subject : String
  html : String
  attachments : List Anexo
deriving DecidableEq, Repr

/-- The request of `POST /api/consultoria` as the handler reads it: the text fields,
the files multer stored (absent when the request is not multipart), and the protocol
and host used for the download link. -/
structure Requisicao where
  body : FormData
  files : Option (List FileDesc)
  protocol : String
  host : String
deriving DecidableEq, Repr

/-- The clock values a run of the handler reads: for `consultedAt`, for the date of the
email, and the two of `generateTempLink`. -/
structure Instantes where
  consulta : Nat
  email : Nat
  expiry : Nat
  created : Nat
deriving DecidableEq, Repr

/-- What `POST /api/consultoria` answers: status 400 with the validation errors, status
200 with `success: true`, the download link (or `null`) and `hasFiles`, or status 500.
The message texts and the WhatsApp URLs of the answer are not kept. -/
inductive RespostaConsultoria where
  | invalida (errors : List String)
  | enviada (downloadLink : Option String) (hasFiles : Option Bool)
  | erroInterno
deriving DecidableEq, Repr

/-- The outcome of a run of the handler: the answer, the map and the disk afterwards,
the URLs of the lookup sources requested and the mails handed to `sendMail`. -/
structure ResultadoConsultoria where
  resposta : RespostaConsultoria
  estado : Server
  consultas : List String
  emails : List MailOptions

/-- The value `emailConfig.auth.user` (line 423). -/
def emailUser (amb : Ambiente) : String :=
  match amb.envEmailUser with
  | none => "seu-email@gmail.com"
  | some user => if user = "" then "seu-email@gmail.com" else user

/-- The statement `if (req.files) cleanupFiles(req.files)` (lines 1108-1110, 1186-1188,
1210-1212). -/
def cleanupRequestFiles (files : Option (List FileDesc)) (disk : Disk) : Disk :=
  match files with
  | none => disk
  | some list => cleanupFiles (some list) disk

/-- The lookup of the handler (server.js, lines 1119-1140): `null` without an
identifier, else the result of `consultarCNPJ` and the URLs it requested.  For an
identifier that is a text `consultarCNPJ` does not throw, so the `catch` on line 1131
is not reached. -/
def consultaDoPedido (rt : JSRuntime) (fetch : Fetch) (now : Nat) (body : FormData) :
    Option Consulta × List String :=
  if campoVazio body.cnpj then (none, [])
  else
    (some (consultarCNPJ rt fetch now (textoDe body.cnpj)).1,
      (consultarCNPJ rt fetch now (textoDe body.cnpj)).2)

/-- The object `mailOptions` (server.js, lines 1142-1161), or the exception thrown
while its texts are built. -/
def montarEmail (amb : Ambiente) (agora : Nat) (req : Requisicao)
    (dadosCNPJ : Option Consulta) : Except String MailOptions :=
  match
    (match dadosCNPJ with
      | some (.sucesso dados _ _ _) => concatM [Except.ok " - ", dados.situacao.toStr]
      | _ => Except.ok "") with
  | .error e => .error e
  | .ok subjectSuffix =>
    match generateEmailHTML amb agora req.body dadosCNPJ with
    | .error e => .error e
    | .ok html =>
      .ok
        { remetente := "\"Formulário de Consultoria\" <" ++ emailUser amb ++ ">",
          destinatario := amb.envRecipientEmail,
          subject :=
            "Nova Solicitação de Consultoria - " ++ textoDe req.body.empresa ++ subjectSuffix,
          html := html,
          attachments :=
            (req.files.getD []).map (fun file =>
              { filename := file.originalname, path := file.path,
                contentType := "application/pdf" }) }

/-- The handler of `POST /api/consultoria` (server.js, lines 1098-1222).  `sendMail`
tells whether `transporter.sendMail` resolves for a mail; `randomBytes` is the outcome
of `crypto.randomBytes` should a link be created.  The fields of `req.body` are texts
here, for which the lines 1174-1182 that build the WhatsApp URLs throw nothing;
`Utf16.consultoriaHandler` embeds the route on JavaScript strings, those lines
included. -/
def consultoriaHandler (rt : JSRuntime) (amb : Ambiente) (fetch : Fetch)
    (sendMail : MailOptions → Bool) (instantes : Instantes) (randomBytes : List Nat)
    (req : Requisicao) (s : Server) : ResultadoConsultoria :=
  if !(validateFormData req.body).isValid then
    { resposta := .invalida (validateFormData req.body).errors,
      estado := { s with disk := cleanupRequestFiles req.files s.disk },
      consultas := [], emails := [] }
  else
    match montarEmail amb instantes.email req
        (consultaDoPedido rt fetch instantes.consulta req.body).1 with
    | .error _ =>
      { resposta := .erroInterno,
        estado := { s with disk := cleanupRequestFiles req.files s.disk },
        consultas := (consultaDoPedido rt fetch instantes.consulta req.body).2, emails := [] }
    | .ok mailOptions =>
      if !sendMail mailOptions then
        { resposta := .erroInterno,
          estado := { s with disk := cleanupRequestFiles req.files s.disk },
          consultas := (consultaDoPedido rt fetch instantes.consulta req.body).2,
          emails := [mailOptions] }
      else
        match req.files with
        | some (file :: files) =>
          { resposta :=
              .enviada
                (some (req.protocol ++ "://" ++ req.host ++ "/download/" ++
                  (generateTempLink instantes.expiry instantes.created randomBytes
                    (some (file :: files)) (some 5) (some 48) s.tempLinks).1))
                (some true),
            estado :=
              { s with tempLinks :=
                  (generateTempLink instantes.expiry instantes.created randomBytes
                    (some (file :: files)) (some 5) (some 48) s.tempLinks).2 },
            consultas := (consultaDoPedido rt fetch instantes.consulta req.body).2,
            emails := [mailOptions] }
        | some [] =>
          { resposta := .enviada none (some false),
            estado := { s with disk := cleanupRequestFiles (some []) s.disk },
            consultas := (consultaDoPedido rt fetch instantes.consulta req.body).2,
            emails := [mailOptions] }
        | none =>
          { resposta := .enviada none none,
            estado := s,
            consultas := (consultaDoPedido rt fetch instantes.consulta req.body).2,
            emails := [mailOptions] }

/-! ## The serverless email handler (`src/api/send-email.js`) -/

/-- The text `emailHtml` of the serverless handler (send-email.js, lines 56-110); `agora`
is the clock value read by `new Date()` on line 104. -/
def emailHtmlAporte (amb : Ambiente) (agora : Nat)
    (nome email telefone empresa cnpj valorAporte descricao : JSValue) : Except String String :=
  concatM
    [ Except.ok "\n        <!DOCTYPE html>\n        <html>\n        <head>\n",
      Except.ok "            <meta charset=\"UTF-8\">\n            <title>Nova Solicitação de Aporte - ",
      (empresa.orElse (JSValue.string "Empresa")).toStr,
      Except.ok "</title>\n            <style>\n",
      Except.ok "                body \x7b font-family: Arial, sans-serif; line-height: 1.6; color: #333; \x7d\n",
      Except.ok "                .container \x7b max-width: 600px; margin: 0 auto; padding: 20px; \x7d\n",
      Except.ok "                .header \x7b background: linear-gradient(135deg, #1e3c72, #2a5298); color: white; padding: 30px; text-align: center; border-radius: 10px 10px 0 0; \x7d\n",
      Except.ok "                .content \x7b background: #f9f9f9; padding: 30px; border-radius: 0 0 10px 10px; \x7d\n",
      Except.ok "                .info-box \x7b background: white; padding: 20px; margin: 15px 0; border-radius: 8px; border-left: 4px solid #2a5298; \x7d\n",
      Except.ok "                .label \x7b font-weight: bold; color: #1e3c72; \x7d\n",
      Except.ok "                .value \x7b margin-left: 10px; \x7d\n",
      Except.ok "                .footer \x7b text-align: center; margin-top: 30px; color: #666; font-size: 14px; \x7d\n",
      Except.ok "            </style>\n        </head>\n        <body>\n",
      Except.ok "            <div class=\"container\">\n                <div class=\"header\">\n",
      Except.ok "                    <h1>🚀 Nova Solicitação de Aporte</h1>\n",
      Except.ok "                    <p>Recebemos uma nova solicitação através da landing page</p>\n",
      Except.ok "                </div>\n                \n                <div class=\"content\">\n",
      Except.ok "                    <div class=\"info-box\">\n",
      Except.ok "                        <h3>📋 Dados do Solicitante</h3>\n",
      Except.ok "                        <p><span class=\"label\">Nome:</span><span class=\"value\">",
      nome.toStr,
      Except.ok "</span></p>\n",
      Except.ok "                        <p><span class=\"label\">E-mail:</span><span class=\"value\">",
      email.toStr,
      Except.ok "</span></p>\n",
      Except.ok "                        <p><span class=\"label\">Telefone:</span><span class=\"value\">",
      telefone.toStr,
      Except.ok "</span></p>\n                    </div>\n\n                    ",
      (if empresa.truthy then
          concatM
            [ Except.ok "\n                    <div class=\"info-box\">\n",
              Except.ok "                        <h3>🏢 Dados da Empresa</h3>\n",
              Except.ok "                        <p><span class=\"label\">Empresa:</span><span class=\"value\">",
              empresa.toStr,
              Except.ok "</span></p>\n                        ",
              (if cnpj.truthy then
                  concatM
                    [ Except.ok "<p><span class=\"label\">CNPJ:</span><span class=\"value\">",
                      cnpj.toStr,
                      Except.ok "</span></p>" ]
                else Except.ok ""),
              Except.ok "\n                    </div>\n                    " ]
        else Except.ok ""),
      Except.ok "\n\n                    <div class=\"info-box\">\n",
      Except.ok "                        <h3>💰 Informações do Aporte</h3>\n",
      Except.ok "                        <p><span class=\"label\">Valor Solicitado:</span><span class=\"value\">R$ ",
      (valorAporte.orElse (JSValue.string "Não informado")).toStr,
      Except.ok "</span></p>\n                        ",
      (if descricao.truthy then
          concatM
            [ Except.ok "<p><span class=\"label\">Descrição:</span><span class=\"value\">",
              descricao.toStr,
              Except.ok "</span></p>" ]
        else Except.ok ""),
      Except.ok "\n                    </div>\n\n                    <div class=\"footer\">\n",
      Except.ok "                        <p>📧 E-mail enviado automaticamente pela Landing Page</p>\n",
      Except.ok "                        <p>🕒 ",
      Except.ok (amb.toLocaleString agora),
      Except.ok "</p>\n                    </div>\n                </div>\n            </div>\n",
      Except.ok "        </body>\n        </html>\n        " ]

/-- The request of the serverless handler: the method and the parsed body, which is
`null` or `undefined` when the request carries none. -/
structure PedidoEmail where
  method : String
  body : JSValue

/-- What the handler answers: `res.status(status).end()`, or
`res.status(status).json({ success, message })`.  The `error` detail of the 500 answer,
present in development mode only, is not kept. -/
inductive RespostaEmail where
  | vazio (status : Nat)
  | json (status : Nat) (success : Bool) (message : String)
deriving DecidableEq, Repr

/-- The object `mailOptions` of the serverless handler (send-email.js, lines 113-118),
or the exception thrown while its texts are built. -/
def montarEmailAporte (amb : Ambiente) (agora : Nat)
    (nome email telefone empresa cnpj valorAporte descricao : JSValue) :
    Except String MailOptions :=
  match emailHtmlAporte amb agora nome email telefone empresa cnpj valorAporte descricao with
  | .error e => .error e
  | .ok html =>
    match (empresa.orElse nome).toStr with
    | .error e => .error e
    | .ok titulo =>
      .ok
        { remetente := "\"Aporte Capital\" <" ++ textoDe amb.envEmailUser ++ ">",
          destinatario := amb.envRecipientEmail,
          subject := "🚀 Nova Solicitação de Aporte - " ++ titulo,
          html := html,
          attachments := [] }

/-- The function `handler` (send-email.js, lines 6-138): the answer and the mails handed
to `sendMail`.  `createTransporter` is the value of `nodemailer.createTransporter` when
it is a function, given as the outcome of `sendMail` on the transporter it returns;
it is `none` when the module exports no such function, and the call throws. -/
def handler (amb : Ambiente) (createTransporter : Option (MailOptions → Bool)) (agora : Nat)
    (req : PedidoEmail) : RespostaEmail × List MailOptions :=
  if req.method = "OPTIONS" then (.vazio 200, [])
  else if req.method ≠ "POST" then (.json 405 false "Método não permitido", [])
  else if req.body.isNullish then (.json 500 false "Erro interno do servidor", [])
  else if !(req.body.prop "nome").truthy || !(req.body.prop "email").truthy ||
      !(req.body.prop "telefone").truthy then
    (.json 400 false "Nome, email e telefone são obrigatórios", [])
  else
    match createTransporter with
    | none => (.json 500 false "Erro interno do servidor", [])
    | some sendMail =>
      match montarEmailAporte amb agora (req.body.prop "nome") (req.body.prop "email")
          (req.body.prop "telefone") (req.body.prop "empresa") (req.body.prop "cnpj")
          (req.body.prop "valorAporte") (req.body.prop "descricao") with
      | .error _ => (.json 500 false "Erro interno do servidor", [])
      | .ok mailOptions =>
        if sendMail mailOptions then (.json 200 true "E-mail enviado com sucesso!", [mailOptions])
        else (.json 500 false "Erro interno do servidor", [mailOptions])

/-! ## Notions used to state the properties of the handlers -/

/-- The problems of a form record, field by field in the order of the form, as the
specification words them: for each field the message of its check when the check
fails.  An absent field counts as the empty text. -/
def problemasPorCampo (data : FormData) : List (Option String) :=
  [ if trimmedLength (data.nomeCompleto.getD "") < 2 then
      some "Nome completo é obrigatório e deve ter pelo menos 2 caracteres"
    else none,
    if emailRegexTest (data.email.getD "") then none else some "Email válido é obrigatório",
    if trimmedLength (data.telefone.getD "") < 10 then some "Telefone válido é obrigatório"
    else none,
    if trimmedLength (data.empresa.getD "") < 2 then some "Nome da empresa é obrigatório"
    else none,
    if trimmedLength (data.cnpj.getD "") < 14 then some "CNPJ é obrigatório e deve ser válido"
    else if ((data.cnpj.getD "").data.filter Char.isDigit).length ≠ 14 then
      some "CNPJ deve conter 14 dígitos"
    else none,
    if data.tempoExistencia.getD "" = "" then
      some "Tempo de existência da empresa é obrigatório"
    else none,
    if data.faturamentoAnual.getD "" = "" then some "Faturamento anual é obrigatório" else none,
    if data.tipoConsultoria.getD "" = "" then some "Tipo de consultoria é obrigatório"
    else none,
    if trimmedLength (data.mensagem.getD "") < 5 then
      some "Descrição do projeto é obrigatória e deve ter pelo menos 5 caracteres"
    else none ]

/-- The text `parte` occurs in `texto`. -/
def ocorreEm (parte texto : String) : Prop := ∃ antes depois, texto = antes ++ parte ++ depois

/-- A form record that passes the validation. -/
def formularioValido : FormData :=
  { nomeCompleto := some "Maria Souza", email := some "maria@acme.com.br",
    telefone := some "(92) 99988-9392", empresa := some "ACME LTDA",
    cnpj := some "11.222.333/0001-81", tempoExistencia := some "2-5 anos",
    faturamentoAnual := some "ate-360k", tipoConsultoria := some "credito",
    mensagem := some "Capital de giro", outrosDocumentos := none }

/-- The locale texts and environment used in the sample runs. -/
def sampleAmbiente : Ambiente :=
  { toLocaleString := fun instante => toString instante, toLowerCase := String.toLower,
    envEmailUser := some "site@acme.com.br", envRecipientEmail := some "contato@acme.com.br" }

/-- Every part of the template evaluates without an exception. -/
def todasOk : List (Except String String) → Bool
  | [] => true
  | .ok _ :: resto => todasOk resto
  | .error _ :: _ => false

/-- The text of the failure `consultarCNPJ` returns when no source answers (line 211). -/
def erroTodasApis : String :=
  "Não foi possível consultar o CNPJ no momento. Todas as APIs estão indisponíveis."

/-- An uploaded file of a sample request. -/
def arquivoEnviado : FileDesc :=
  { originalname := "balanço.pdf", path := "uploads/1700000000000_balan_o.pdf", size := 4096 }

/-- A request whose form lacks the email, with one uploaded file. -/
def pedidoInvalido : Requisicao :=
  { body := { formularioValido with email := none }, files := some [arquivoEnviado],
    protocol := "https", host := "aportecapital.com.br" }

/-- A request with a complete form and no attachment. -/
def pedidoSemAnexos : Requisicao :=
  { body := formularioValido, files := some [], protocol := "https",
    host := "aportecapital.com.br" }

/-- The four clock values of the sample runs. -/
def sampleInstantes : Instantes := { consulta := 1000, email := 1001, expiry := 1002, created := 1003 }

/-- The file retrievals a link can still give: `maxDownloads - downloads` for a stored
link that is active, none for a link that is inactive or not stored. -/
def restante (tempLinks : TempLinks) (linkId : String) : Nat :=
  match tempLinks.get linkId with
  | none => 0
  | some link => if link.active then link.maxDownloads - link.downloads else 0

/-- The number of delivered files among the answers of the file route. -/
def entregas (respostas : List Response) : Nat := respostas.countP Response.isDownload

/-- A link for `sampleFile` with a budget of three downloads, created at clock value 0
with the default lifetime, and the file on disk. -/
def sampleServer : Server :=
  { tempLinks :=
      (generateTempLink 0 0 [1, 2, 3, 4, 5, 6, 7, 8] (some [sampleFile]) (some 3) none
        TempLinks.empty).2,
    disk := ["uploads/1700000000000_contrato_social.pdf"] }

/-- An uploaded file whose original name holds a percent sign, stored under the name
multer gave it. -/
def arquivoPorcento : FileDesc :=
  { originalname := "100%.pdf", path := "uploads/1700000000000_100_.pdf", size := 1024 }

/-- A link for `arquivoPorcento` with the default budget and lifetime, created at clock
value 0, and the file on disk. -/
def servidorPorcento : Server :=
  { tempLinks :=
      (generateTempLink 0 0 [1, 2, 3, 4, 5, 6, 7, 8] (some [arquivoPorcento]) none none
        TempLinks.empty).2,
    disk := ["uploads/1700000000000_100_.pdf"] }

/-- Two uploaded files with the same original name. -/
def relatorioAntigo : FileDesc :=
  { originalname := "relatorio.pdf", path := "uploads/1700000000000_relatorio.pdf",
    size := 1024 }
def relatorioNovo : FileDesc :=
  { originalname := "relatorio.pdf", path := "uploads/1700000000001_relatorio.pdf",
    size := 2048 }

/-- A link for the two files of the same name, in this order, with the default budget
and lifetime, created at clock value 0, over the given disk. -/
def servidorHomonimos (disk : Disk) : Server :=
  { tempLinks :=
      (generateTempLink 0 0 [1, 2, 3, 4, 5, 6, 7, 8] (some [relatorioAntigo, relatorioNovo])
        none none TempLinks.empty).2,
    disk := disk }

/-- A field of the request body that is missing (`undefined`, or `null` in the JSON
text) or the empty text. -/
def ausenteOuVazio : JSValue → Bool
  | .undefined => true
  | .null => true
  | .string texto => decide (texto = "")
  | _ => false

/-! ## The consultancy request on JavaScript strings

The body parser `express.json()` (server.js, line 404) hands the handler of
`POST /api/consultoria` the strings of a JSON body as they are, and a JavaScript string
is a sequence of UTF-16 code units in which a surrogate need not be paired.  This
section embeds the route on such strings, the lines 1174-1182 that build the WhatsApp
URLs included: there `encodeURIComponent` throws on a lone surrogate.  The fields of
the form are strings, or absent. -/

namespace Utf16

/-- A JavaScript string: the sequence of its UTF-16 code units, each a number below
65536.  A surrogate (55296 to 57343) need not be paired. -/
abbrev JSString := List Nat

/-- The code units of a character. -/
def unidades (c : Char) : List Nat :=
  if c.toNat < 65536 then [c.toNat]
  else [55296 + (c.toNat - 65536) / 1024, 56320 + (c.toNat - 65536) % 1024]

/-- The JavaScript string of a text. -/
def lit (s : String) : JSString := s.data.flatMap unidades

/-- The body of a consultancy request, `req.body`: the fields the server reads. -/
structure FormData where
  nomeCompleto : Option JSString
  email : Option JSString
  telefone : Option JSString
  empresa : Option JSString
  cnpj : Option JSString
  tempoExistencia : Option JSString
  faturamentoAnual : Option JSString
  tipoConsultoria : Option JSString
  mensagem : Option JSString
  outrosDocumentos : Option JSString
deriving DecidableEq, Repr

/-- The code units `String.prototype.trim` removes and the regular-expression class
`\s` matches: white space and line terminators. -/
def isJsWhitespace (u : Nat) : Bool :=
  u = 9 || u = 10 || u = 11 || u = 12 || u = 13 || u = 32 || u = 160 || u = 5760 ||
  (decide (8192 ≤ u) && decide (u ≤ 8202)) ||
  u = 8232 || u = 8233 || u = 8239 || u = 8287 || u = 12288 || u = 65279

/-- The string `s.trim()`. -/
def jsTrim (s : JSString) : JSString :=
  ((s.dropWhile isJsWhitespace).reverse.dropWhile isJsWhitespace).reverse

/-- The test `!campo`: the field is absent or the empty string. -/
def campoVazio : Option JSString → Bool
  | none => true
  | some s => s.isEmpty

/-- The test `!campo || campo.trim().length < minimo`. -/
def ausenteOuCurto (campo : Option JSString) (minimo : Nat) : Bool :=
  match campo with
  | none => true
  | some s => s.isEmpty || decide ((jsTrim s).length < minimo)

/-- The class `[^\s@]` of the regular expression on line 445, which has no `u` flag and
so reads the string one code unit at a time. -/
def foraDeBrancoEArroba (u : Nat) : Bool := !isJsWhitespace u && u != 64

/-- One step of the automaton of the regular expression
`/^[^\s@]+@[^\s@]+\.[^\s@]+$/` (line 445).  State 0 is the start, 1 is inside the first
`[^\s@]+`, 2 is after `@`, 3 is inside the second `[^\s@]+`, 4 is after `\.`, 5 is
inside the third `[^\s@]+` and accepts. -/
def emailPasso (u : Nat) (estado : Nat) : List Nat :=
  match estado with
  | 0 => if foraDeBrancoEArroba u then [1] else []
  | 1 => (if foraDeBrancoEArroba u then [1] else []) ++ (if u = 64 then [2] else [])
  | 2 => if foraDeBrancoEArroba u then [3] else []
  | 3 => (if foraDeBrancoEArroba u then [3] else []) ++ (if u = 46 then [4] else [])
  | 4 => if foraDeBrancoEArroba u then [5] else []
  | 5 => if foraDeBrancoEArroba u then [5] else []
  | _ => []

/-- The states the automaton can be in after reading the code units. -/
def emailEstados (s : JSString) : List Nat :=
  s.foldl (fun estados u => (estados.flatMap (emailPasso u)).eraseDups) [0]

/-- The test `/^[^\s@]+@[^\s@]+\.[^\s@]+$/.test(s)`. -/
def emailRegexTest (s : JSString) : Bool := (emailEstados s).contains 5

/-- The string `cnpj.replace(/\D/g, '')`: the decimal digits of the identifier. -/
def apenasDigitos (cnpj : JSString) : JSString :=
  cnpj.filter (fun u => decide (48 ≤ u) && decide (u ≤ 57))

/-- The function `validateFormData` (server.js, lines 437-489) on JavaScript strings. -/
def validateFormData (data : FormData) : Validacao :=
  let errors : List String := []
  let errors := pushIf errors (ausenteOuCurto data.nomeCompleto 2)
    "Nome completo é obrigatório e deve ter pelo menos 2 caracteres"
  let errors := pushIf errors
    (match data.email with
      | none => true
      | some email => email.isEmpty || !emailRegexTest email)
    "Email válido é obrigatório"
  let errors := pushIf errors (ausenteOuCurto data.telefone 10) "Telefone válido é obrigatório"
  let errors := pushIf errors (ausenteOuCurto data.empresa 2) "Nome da empresa é obrigatório"
  let errors :=
    if ausenteOuCurto data.cnpj 14 then errors ++ ["CNPJ é obrigatório e deve ser válido"]
    else
      pushIf errors (decide ((apenasDigitos (data.cnpj.getD [])).length ≠ 14))
        "CNPJ deve conter 14 dígitos"
  let errors := pushIf errors (campoVazio data.tempoExistencia)
    "Tempo de existência da empresa é obrigatório"
  let errors := pushIf errors (campoVazio data.faturamentoAnual)
    "Faturamento anual é obrigatório"
  let errors := pushIf errors (campoVazio data.tipoConsultoria)
    "Tipo de consultoria é obrigatório"
  let errors := pushIf errors (ausenteOuCurto data.mensagem 5)
    "Descrição do projeto é obrigatória e deve ter pelo menos 5 caracteres"
  { isValid := decide (errors.length = 0), errors := errors }

/-- The text `cnpj.replace(/[^\d]/g, '')` of `consultarCNPJ` (line 132): decimal digits
only, so a text. -/
def cnpjLimpo (cnpj : JSString) : String := String.mk ((apenasDigitos cnpj).map Char.ofNat)

/-- The function `consultarCNPJ` (server.js, lines 130-215) for an identifier that is a
JavaScript string; it reads the identifier through `cnpjLimpo` only. -/
def consultarCNPJ (rt : JSRuntime) (fetch : Fetch) (now : Nat) (cnpj : JSString) :
    Consulta × List String :=
  if (cnpjLimpo cnpj).length ≠ 14 then
    (.falha "CNPJ deve ter 14 dígitos" "validacao" none, [])
  else consultarApis rt fetch now (apis (cnpjLimpo cnpj))

/-- The string a template literal inserts for a form field: `undefined` when absent. -/
def textoDe : Option JSString → JSString
  | none => lit "undefined"
  | some s => s

/-- The string `s.replace(/\n/g, '<br>')`. -/
def quebrasParaBr (s : JSString) : JSString :=
  s.flatMap (fun u => if u = 10 then lit "<br>" else [u])

/-- A template literal: the parts are evaluated and converted in order, the first
exception ends the evaluation. -/
def concatM : List (Except String JSString) → Except String JSString
  | [] => .ok []
  | parte :: resto =>
    match parte with
    | .error e => .error e
    | .ok a =>
      match concatM resto with
      | .error e => .error e
      | .ok b => .ok (a ++ b)

/-- The surroundings of the handler that the embedding leaves open: those of the mail
code, and the environment variables `WHATSAPP_NUMBER` and `NODE_ENV`. -/
structure Ambiente where
  base : AporteCapital.Ambiente
  envWhatsappNumber : Option String
  envNodeEnv : Option String

/-- The text a template literal inserts for `downloadLink`: the id, or `null`. -/
def linkTexto : Option String → String
  | none => "null"
  | some linkId => linkId

/-- The function `generateEmailHTML` (server.js, lines 496-724) on JavaScript strings;
`agora` is the clock value read by `new Date()` on line 717.  The section on the lookup
is built from the lookup result alone. -/
def generateEmailHTML (amb : Ambiente) (agora : Nat) (data : FormData)
    (dadosCNPJ : Option Consulta) : Except String JSString :=
  concatM
    [ Except.ok (lit "\n        <!DOCTYPE html>\n        <html>\n        <head>\n"),
      Except.ok (lit "            <meta charset=\"utf-8\">\n            <style>\n"),
      Except.ok (lit "                body \x7b font-family: Arial, sans-serif; line-height: 1.6; color: #333; \x7d\n"),
      Except.ok (lit "                .container \x7b max-width: 700px; margin: 0 auto; padding: 20px; \x7d\n"),
      Except.ok (lit "                .header \x7b background: #3b82f6; color: white; padding: 20px; text-align: center; \x7d\n"),
      Except.ok (lit "                .content \x7b padding: 20px; background: #f9f9f9; \x7d\n"),
      Except.ok (lit "                .field \x7b margin-bottom: 15px; \x7d\n"),
      Except.ok (lit "                .label \x7b font-weight: bold; color: #555; \x7d\n"),
      Except.ok (lit "                .value \x7b margin-top: 5px; padding: 10px; background: white; border-radius: 5px; \x7d\n"),
      Except.ok (lit "                .footer \x7b text-align: center; padding: 20px; color: #666; font-size: 12px; \x7d\n"),
      Except.ok (lit "                .cnpj-section \x7b background: #f0f9ff; border: 1px solid #0ea5e9; border-radius: 8px; padding: 20px; margin: 20px 0; \x7d\n"),
      Except.ok (lit "            </style>\n        </head>\n        <body>\n"),
      Except.ok (lit "            <div class=\"container\">\n                <div class=\"header\">\n"),
      Except.ok (lit "                    <h1>Nova Solicitação de Consultoria</h1>\n                </div>\n"),
      Except.ok (lit "                \n                <div class=\"content\">\n"),
      Except.ok (lit "                    <h2>Dados do Solicitante</h2>\n                    \n"),
      Except.ok (lit "                    <div class=\"field\">\n"),
      Except.ok (lit "                        <div class=\"label\">Nome:</div>\n"),
      Except.ok (lit "                        <div class=\"value\">"),
      Except.ok (textoDe data.nomeCompleto),
      Except.ok (lit "</div>\n                    </div>\n                    \n"),
      Except.ok (lit "                    <div class=\"field\">\n"),
      Except.ok (lit "                        <div class=\"label\">Email:</div>\n"),
      Except.ok (lit "                        <div class=\"value\">"),
      Except.ok (textoDe data.email),
      Except.ok (lit "</div>\n                    </div>\n                    \n"),
      Except.ok (lit "                    <div class=\"field\">\n"),
      Except.ok (lit "                        <div class=\"label\">Telefone:</div>\n"),
      Except.ok (lit "                        <div class=\"value\">"),
      Except.ok (textoDe data.telefone),
      Except.ok (lit "</div>\n                    </div>\n                    \n"),
      Except.ok (lit "                    <div class=\"field\">\n"),
      Except.ok (lit "                        <div class=\"label\">Empresa:</div>\n"),
      Except.ok (lit "                        <div class=\"value\">"),
      Except.ok (textoDe data.empresa),
      Except.ok (lit "</div>\n                    </div>\n                    \n"),
      Except.ok (lit "                    <h2>Dados Empresariais Informados</h2>\n                    \n"),
      Except.ok (lit "                    <div class=\"field\">\n"),
      Except.ok (lit "                        <div class=\"label\">CNPJ:</div>\n"),
      Except.ok (lit "                        <div class=\"value\">"),
      Except.ok (textoDe data.cnpj),
      Except.ok (lit "</div>\n                    </div>\n                    \n"),
      Except.ok (lit "                    <div class=\"field\">\n"),
      Except.ok (lit "                        <div class=\"label\">Faturamento Anual:</div>\n"),
      Except.ok (lit "                        <div class=\"value\">"),
      Except.ok (textoDe data.faturamentoAnual),
      Except.ok (lit "</div>\n                    </div>\n                    \n"),
      Except.ok (lit "                    <div class=\"field\">\n"),
      Except.ok (lit "                        <div class=\"label\">Tempo de Existência:</div>\n"),
      Except.ok (lit "                        <div class=\"value\">"),
      Except.ok (textoDe data.tempoExistencia),
      Except.ok (lit "</div>\n                    </div>\n                    \n                    "),
      (secaoCNPJ amb.base dadosCNPJ).map lit,
      Except.ok (lit "\n                    \n                    <h2>Detalhes da Consultoria</h2>\n"),
      Except.ok (lit "                    \n                    <div class=\"field\">\n"),
      Except.ok (lit "                        <div class=\"label\">Tipo de Consultoria:</div>\n"),
      Except.ok (lit "                        <div class=\"value\">"),
      Except.ok (textoDe data.tipoConsultoria),
      Except.ok (lit "</div>\n                    </div>\n                    \n"),
      Except.ok (lit "                    <div class=\"field\">\n"),
      Except.ok (lit "                        <div class=\"label\">Descrição do Projeto:</div>\n"),
      Except.ok (lit "                        <div class=\"value\">"),
      Except.ok (if campoVazio data.mensagem then lit "Não informado" else quebrasParaBr (textoDe data.mensagem)),
      Except.ok (lit "</div>\n                    </div>\n                    \n                    "),
      (if !campoVazio data.outrosDocumentos then
          concatM
            [ Except.ok (lit "\n                    <div class=\"field\">\n"),
              Except.ok (lit "                        <div class=\"label\">Outros Documentos:</div>\n"),
              Except.ok (lit "                        <div class=\"value\">"),
              Except.ok (quebrasParaBr (textoDe data.outrosDocumentos)),
              Except.ok (lit "</div>\n                    </div>\n                    ") ]
        else Except.ok []),
      Except.ok (lit "\n                </div>\n                \n                <div class=\"footer\">\n"),
      Except.ok (lit "                    <p>Esta solicitação foi enviada através do formulário de consultoria do site.</p>\n"),
      Except.ok (lit "                    <p>Data: "),
      Except.ok (lit (amb.base.toLocaleString agora)),
      Except.ok (lit "</p>\n                    "),
      Except.ok (lit (if consultaComSucesso dadosCNPJ then "<p><strong>✅ Dados do CNPJ verificados automaticamente</strong></p>" else "")),
      Except.ok (lit "\n                </div>\n            </div>\n        </body>\n        </html>\n    ") ]

/-- The text `documentosInfo` of `generateWhatsAppMessageForClient` when files were sent
(server.js, lines 753-758); `quantidade` is `files.length`. -/
def documentosInfoCliente (quantidade : Nat) : JSString :=
  List.flatten
    [ (lit "📋 *DOCUMENTOS ENVIADOS:*\n✅ "),
      lit (toString quantidade),
      (lit " arquivo(s) enviado(s) por EMAIL\n✅ Solicitação enviada com sucesso!\n\n"),
      (lit "📧 Aguarde retorno da Aporte Capital\n🕐 Resposta em até 24 horas úteis") ]

/-- The text `message` of `generateWhatsAppMessageForClient` (server.js, lines 763-789). -/
def mensagemCliente (data : FormData) (documentosInfo : JSString) : JSString :=
  List.flatten
    [ (lit "🏢 *APORTE CAPITAL - Solicitação Enviada*\n\n"),
      (lit "✅ *SUA SOLICITAÇÃO FOI ENVIADA COM SUCESSO!*\n\n👤 *DADOS CONFIRMADOS:*\n• Nome: "),
      textoDe data.nomeCompleto,
      (lit "\n• Email: "),
      textoDe data.email,
      (lit "\n• Telefone: "),
      textoDe data.telefone,
      (lit "\n\n🏭 *EMPRESA:*\n• Razão Social: "),
      textoDe data.empresa,
      (lit "\n• CNPJ: "),
      textoDe data.cnpj,
      (lit "\n• Faturamento: "),
      textoDe data.faturamentoAnual,
      (lit "\n• Tempo: "),
      textoDe data.tempoExistencia,
      (lit "\n\n💼 *CONSULTORIA SOLICITADA:*\n• Tipo: "),
      textoDe data.tipoConsultoria,
      (lit "\n• Descrição: "),
      textoDe data.mensagem,
      (lit "\n\n"),
      documentosInfo,
      (lit "\n\n🎯 *PRÓXIMOS PASSOS:*\n• Nossa equipe analisará sua solicitação\n"),
      (lit "• Entraremos em contato em breve\n• Mantenha seu WhatsApp ativo\n\n"),
      (lit "Obrigado por escolher a Aporte Capital! 🚀") ]

/-- The text `documentosInfo` of `generateWhatsAppMessage` when files were sent
(server.js, lines 805-814). -/
def documentosInfoEmpresa (baseUrl : String) (downloadLink : Option String) (quantidade : Nat) :
    JSString :=
  List.flatten
    [ (lit "📋 *DOCUMENTOS ENVIADOS:*\n✅ "),
      lit (toString quantidade),
      (lit " arquivo(s) enviado(s) por EMAIL\n✅ Disponíveis para download em:\n🔗 "),
      lit baseUrl,
      (lit "/download/"),
      lit (linkTexto downloadLink),
      (lit "\n\n⏰ Link válido por 48 horas\n🔒 Acesso seguro e criptografado\n🔢 Máximo 5 downloads\n\n"),
      (lit "📧 Verifique também seu email para detalhes completos!") ]

/-- The text `message` of `generateWhatsAppMessage` (server.js, lines 819-848); `agora` is
the clock value read by `new Date()` on line 845. -/
def mensagemEmpresa (amb : Ambiente) (agora : Nat) (data : FormData)
    (documentosInfo : JSString) : JSString :=
  List.flatten
    [ (lit "🏢 *APORTE CAPITAL - NOVA SOLICITAÇÃO*\n\n🚨 *ATENÇÃO EQUIPE:* Nova solicitação recebida!\n"),
      (lit "\n👤 *DADOS DO SOLICITANTE:*\n• Nome: "),
      textoDe data.nomeCompleto,
      (lit "\n• Email: "),
      textoDe data.email,
      (lit "\n• Telefone: "),
      textoDe data.telefone,
      (lit "\n\n🏭 *INFORMAÇÕES DA EMPRESA:*\n• Razão Social: "),
      textoDe data.empresa,
      (lit "\n• CNPJ: "),
      textoDe data.cnpj,
      (lit "\n• Faturamento Anual: "),
      textoDe data.faturamentoAnual,
      (lit "\n• Tempo de Existência: "),
      textoDe data.tempoExistencia,
      (lit "\n\n💼 *TIPO DE CONSULTORIA:*\n• Serviço: "),
      textoDe data.tipoConsultoria,
      (lit "\n• Descrição: "),
      textoDe data.mensagem,
      (lit "\n\n"),
      documentosInfo,
      (lit "\n\n⚡ *AÇÃO NECESSÁRIA:*\n• Analisar solicitação\n• Baixar documentos (se houver)\n"),
      (lit "• Entrar em contato em até 24h\n\n⏰ *Enviado em:* "),
      lit (amb.base.toLocaleString agora),
      (lit "\n\n---\n*Mensagem automática - Aporte Capital*") ]

/-- The test `files && files.length > 0`. -/
def temArquivos : Option (List FileDesc) → Bool
  | some (_ :: _) => true
  | _ => false

/-- The function `generateWhatsAppMessageForClient` (server.js, lines 749-792). -/
def generateWhatsAppMessageForClient (data : FormData) (files : Option (List FileDesc)) :
    JSString :=
  mensagemCliente data
    (if temArquivos files then documentosInfoCliente (files.getD []).length
      else lit "📄 *DOCUMENTOS:* Nenhum documento anexado")

/-- The function `generateWhatsAppMessage` (server.js, lines 795-851); `agora` is the
clock value read by `new Date()` on line 845. -/
def generateWhatsAppMessage (amb : Ambiente) (agora : Nat) (data : FormData)
    (downloadLink : Option String) (files : Option (List FileDesc)) : JSString :=
  mensagemEmpresa amb agora data
    (if temArquivos files then
        documentosInfoEmpresa
          (if amb.envNodeEnv = some "production" then "https://aportecapital.com.br"
            else "http://192.168.0.18:3001")
          downloadLink (files.getD []).length
      else lit "📄 *DOCUMENTOS:* Nenhum documento anexado")

/-- What `encodeURIComponent` writes for a code point: the character itself when it is
unreserved, else the escapes of its UTF-8 octets. -/
def escapar (c : Char) : List Char :=
  if uriUnreserved c then [c]
  else (utf8Octets c).flatMap (fun b =>
    [Char.ofNat 37, hexDigitUpper (b / 16), hexDigitUpper (b % 16)])

/-- The characters of `encodeURIComponent(s)`, or the `URIError` it throws when `s`
holds a surrogate that is not part of a pair: a leading surrogate (55296 to 56319) not
followed by a trailing one (56320 to 57343), or a trailing one not preceded by a
leading one. -/
def encodeUnidades : JSString → Except String (List Char)
  | [] => .ok []
  | u :: resto =>
    if u < 55296 ∨ 57343 < u then
      match encodeUnidades resto with
      | .ok cs => .ok (escapar (Char.ofNat u) ++ cs)
      | .error e => .error e
    else if u < 56320 then
      match resto with
      | v :: resto' =>
        if 56320 ≤ v ∧ v ≤ 57343 then
          match encodeUnidades resto' with
          | .ok cs =>
            .ok (escapar (Char.ofNat (65536 + (u - 55296) * 1024 + (v - 56320))) ++ cs)
          | .error e => .error e
        else .error "URIError: URI malformed"
      | [] => .error "URIError: URI malformed"
    else .error "URIError: URI malformed"

/-- The built-in `encodeURIComponent` on a JavaScript string. -/
def encodeURIComponent (s : JSString) : Except String String :=
  match encodeUnidades s with
  | .ok cs => .ok (String.mk cs)
  | .error e => .error e

/-- The function `generateWhatsAppURL` (server.js, lines 856-867), or the exception
`encodeURIComponent` throws. -/
def generateWhatsAppURL (phoneNumber : String) (message : JSString) : Except String String :=
  match encodeURIComponent message with
  | .error e => .error e
  | .ok encodedMessage =>
    .ok ("https://wa.me/" ++
      (if "55".data.isPrefixOf (phoneNumber.data.filter Char.isDigit) then
          String.mk (phoneNumber.data.filter Char.isDigit)
        else "55" ++ String.mk (phoneNumber.data.filter Char.isDigit)) ++
      "?text=" ++ encodedMessage)

/-- The value `process.env.WHATSAPP_NUMBER || '5592999889392'` (line 1177). -/
def whatsappNumber (amb : Ambiente) : String :=
  match amb.envWhatsappNumber with
  | none => "5592999889392"
  | some numero => if numero = "" then "5592999889392" else numero

/-- The object `mailOptions` handed to `transporter.sendMail`; `remetente` is its
`from` field and `destinatario` its `to` field, absent when `RECIPIENT_EMAIL` is not
set. -/
structure MailOptions where
  remetente : String
  destinatario : Option String
  subject : JSString
  html : JSString
  attachments : List Anexo
deriving DecidableEq, Repr

/-- The request of `POST /api/consultoria` as the handler reads it: the fields of the
body, the files multer stored (absent when the request is not multipart), and the
protocol and host used for the download link. -/
structure Requisicao where
  body : FormData
  files : Option (List FileDesc)
  protocol : String
  host : String
deriving DecidableEq, Repr

/-- The clock values a run of the handler reads: for `consultedAt`, for the date of the
email, the two of `generateTempLink`, and for the date of the WhatsApp message. -/
structure Instantes where
  consulta : Nat
  email : Nat
  expiry : Nat
  created : Nat
  whatsapp : Nat
deriving DecidableEq, Repr

/-- What `POST /api/consultoria` answers: status 400 with the validation errors, status
200 with `success: true`, the two WhatsApp URLs, the download link (or `null`) and
`hasFiles`, or status 500.  The fixed message texts of the answers are not kept. -/
inductive RespostaConsultoria where
  | invalida (errors : List String)
  | enviada (whatsappURL whatsappURLForCompany : String) (downloadLink : Option String)
      (hasFiles : Option Bool)
  | erroInterno
deriving DecidableEq, Repr

/-- The outcome of a run of the handler: the answer, the map and the disk afterwards,
the URLs of the lookup sources requested and the mails handed to `sendMail`. -/
structure ResultadoConsultoria where
  resposta : RespostaConsultoria
  estado : Server
  consultas : List String
  emails : List MailOptions

/-- The lookup of the handler (server.js, lines 1119-1140): `null` without an
identifier, else the result of `consultarCNPJ` and the URLs it requested.  For an
identifier that is a string `consultarCNPJ` does not throw, so the `catch` on line 1131
is not reached. -/
def consultaDoPedido (rt : JSRuntime) (fetch : Fetch) (now : Nat) (body : FormData) :
    Option Consulta × List String :=
  if campoVazio body.cnpj then (none, [])
  else
    (some (consultarCNPJ rt fetch now (textoDe body.cnpj)).1,
      (consultarCNPJ rt fetch now (textoDe body.cnpj)).2)

/-- The object `mailOptions` (server.js, lines 1142-1161), or the exception thrown
while its strings are built. -/
def montarEmail (amb : Ambiente) (agora : Nat) (req : Requisicao)
    (dadosCNPJ : Option Consulta) : Except String MailOptions :=
  match
    (match dadosCNPJ with
      | some (.sucesso dados _ _ _) =>
        AporteCapital.concatM [Except.ok " - ", dados.situacao.toStr]
      | _ => Except.ok "") with
  | .error e => .error e
  | .ok subjectSuffix =>
    match generateEmailHTML amb agora req.body dadosCNPJ with
    | .error e => .error e
    | .ok html =>
      .ok
        { remetente := "\"Formulário de Consultoria\" <" ++ emailUser amb.base ++ ">",
          destinatario := amb.base.envRecipientEmail,
          subject :=
            lit "Nova Solicitação de Consultoria - " ++ textoDe req.body.empresa ++
              lit subjectSuffix,
          html := html,
          attachments :=
            (req.files.getD []).map (fun file =>
              { filename := file.originalname, path := file.path,
                contentType := "application/pdf" }) }

/-- The statements on lines 1168-1172: the id `generateTempLink` returns and the map
afterwards when files were sent, `null` and the map as it is otherwise. -/
def linkDoPedido (instantes : Instantes) (randomBytes : List Nat)
    (files : Option (List FileDesc)) (tempLinks : TempLinks) : Option String × TempLinks :=
  match files with
  | some (file :: rest) =>
    (some (generateTempLink instantes.expiry instantes.created randomBytes
        (some (file :: rest)) (some 5) (some 48) tempLinks).1,
      (generateTempLink instantes.expiry instantes.created randomBytes
        (some (file :: rest)) (some 5) (some 48) tempLinks).2)
  | _ => (none, tempLinks)

/-- The test `downloadLink` of lines 1186, 1193 and 1202: the id is there and not the
empty string. -/
def temLink : Option String → Bool
  | some linkId => decide (linkId ≠ "")
  | none => false

/-- The two WhatsApp URLs (server.js, lines 1174-1182), for the client and for the
company in this order, or the exception thrown while the first or the second is
built. -/
def urlsWhatsApp (amb : Ambiente) (agora : Nat) (req : Requisicao)
    (downloadLink : Option String) : Except String (String × String) :=
  match generateWhatsAppURL (whatsappNumber amb)
      (generateWhatsAppMessageForClient req.body req.files) with
  | .error e => .error e
  | .ok urlCliente =>
    match generateWhatsAppURL (whatsappNumber amb)
        (generateWhatsAppMessage amb agora req.body downloadLink req.files) with
    | .error e => .error e
    | .ok urlEmpresa => .ok (urlCliente, urlEmpresa)

/-- The handler of `POST /api/consultoria` (server.js, lines 1098-1222).  `sendMail`
tells whether `transporter.sendMail` resolves for a mail; `randomBytes` is the outcome
of `crypto.randomBytes` should a link be created.  An exception thrown after the
validation is caught on line 1206: the uploaded files are removed and the answer is
status 500, whatever was done before. -/
def consultoriaHandler (rt : JSRuntime) (amb : Ambiente) (fetch : Fetch)
    (sendMail : MailOptions → Bool) (instantes : Instantes) (randomBytes : List Nat)
    (req : Requisicao) (s : Server) : ResultadoConsultoria :=
  if !(validateFormData req.body).isValid then
    { resposta := .invalida (validateFormData req.body).errors,
      estado := { s with disk := cleanupRequestFiles req.files s.disk },
      consultas := [], emails := [] }
  else
    match montarEmail amb instantes.email req
        (consultaDoPedido rt fetch instantes.consulta req.body).1 with
    | .error _ =>
      { resposta := .erroInterno,
        estado := { s with disk := cleanupRequestFiles req.files s.disk },
        consultas := (consultaDoPedido rt fetch instantes.consulta req.body).2, emails := [] }
    | .ok mailOptions =>
      if !sendMail mailOptions then
        { resposta := .erroInterno,
          estado := { s with disk := cleanupRequestFiles req.files s.disk },
          consultas := (consultaDoPedido rt fetch instantes.consulta req.body).2,
          emails := [mailOptions] }
      else
        match urlsWhatsApp amb instantes.whatsapp req
            (linkDoPedido instantes randomBytes req.files s.tempLinks).1 with
        | .error _ =>
          { resposta := .erroInterno,
            estado :=
              { tempLinks := (linkDoPedido instantes randomBytes req.files s.tempLinks).2,
                disk := cleanupRequestFiles req.files s.disk },
            consultas := (consultaDoPedido rt fetch instantes.consulta req.body).2,
            emails := [mailOptions] }
        | .ok urls =>
          { resposta :=
              .enviada urls.1 urls.2
                (if temLink (linkDoPedido instantes randomBytes req.files s.tempLinks).1 then
                    some (req.protocol ++ "://" ++ req.host ++ "/download/" ++
                      linkTexto (linkDoPedido instantes randomBytes req.files s.tempLinks).1)
                  else none)
                (req.files.map (fun files => decide (0 < files.length))),
            estado :=
              { tempLinks := (linkDoPedido instantes randomBytes req.files s.tempLinks).2,
                disk :=
                  if temLink (linkDoPedido instantes randomBytes req.files s.tempLinks).1 then
                    s.disk
                  else cleanupRequestFiles req.files s.disk },
            consultas := (consultaDoPedido rt fetch instantes.consulta req.body).2,
            emails := [mailOptions] }

/-- Every surrogate of the string is part of a pair: the string is well-formed
Unicode. -/
def bemFormado : JSString → Bool
  | [] => true
  | u :: resto =>
    if u < 55296 ∨ 57343 < u then bemFormado resto
    else if u < 56320 then
      match resto with
      | v :: resto' => (decide (56320 ≤ v) && decide (v ≤ 57343)) && bemFormado resto'
      | [] => false
    else false

/-- The field is absent or a well-formed string. -/
def campoBemFormado : Option JSString → Bool
  | none => true
  | some s => bemFormado s

/-- Every field of the form is absent or a well-formed string, as in every body that
was decoded from UTF-8. -/
def FormData.bemFormado (data : FormData) : Bool :=
  campoBemFormado data.nomeCompleto && campoBemFormado data.email &&
  campoBemFormado data.telefone && campoBemFormado data.empresa &&
  campoBemFormado data.cnpj && campoBemFormado data.tempoExistencia &&
  campoBemFormado data.faturamentoAnual && campoBemFormado data.tipoConsultoria &&
  campoBemFormado data.mensagem && campoBemFormado data.outrosDocumentos

/-- The form whose fields are the JavaScript strings of the fields of a form of texts. -/
def FormData.deTextos (data : AporteCapital.FormData) : FormData :=
  { nomeCompleto := data.nomeCompleto.map lit, email := data.email.map lit,
    telefone := data.telefone.map lit, empresa := data.empresa.map lit,
    cnpj := data.cnpj.map lit, tempoExistencia := data.tempoExistencia.map lit,
    faturamentoAnual := data.faturamentoAnual.map lit,
    tipoConsultoria := data.tipoConsultoria.map lit, mensagem := data.mensagem.map lit,
    outrosDocumentos := data.outrosDocumentos.map lit }

/-- The string `parte` occurs in `texto`. -/
def ocorreEm (parte texto : JSString) : Prop := ∃ antes depois, texto = antes ++ parte ++ depois

/-- Every part of the template evaluates without an exception. -/
def todasOk : List (Except String JSString) → Bool
  | [] => true
  | .ok _ :: resto => todasOk resto
  | .error _ :: _ => false

/-- A form that passes the validation. -/
def formularioValido : FormData :=
  { nomeCompleto := some (lit "Maria Souza"), email := some (lit "maria@acme.com.br"),
    telefone := some (lit "(92) 99988-9392"), empresa := some (lit "ACME LTDA"),
    cnpj := some (lit "11.222.333/0001-81"), tempoExistencia := some (lit "2-5 anos"),
    faturamentoAnual := some (lit "ate-360k"), tipoConsultoria := some (lit "credito"),
    mensagem := some (lit "Capital de giro"), outrosDocumentos := none }

/-- The locale texts and environment used in the sample runs. -/
def sampleAmbiente : Ambiente :=
  { base := AporteCapital.sampleAmbiente, envWhatsappNumber := none, envNodeEnv := none }

/-- The five clock values of the sample runs. -/
def sampleInstantes : Instantes :=
  { consulta := 1000, email := 1001, expiry := 1002, created := 1003, whatsapp := 1004 }

/-- A multipart request with a complete form and no attachment. -/
def pedidoSemAnexos : Requisicao :=
  { body := formularioValido, files := some [], protocol := "https",
    host := "aportecapital.com.br" }

/-- A JSON request with a complete form whose description ends in the lone surrogate
`\ud800`; such a request carries no files. -/
def pedidoComSubstituto : Requisicao :=
  { body := { formularioValido with mensagem := some (lit "Capital de giro " ++ [55296]) },
    files := none, protocol := "https", host := "aportecapital.com.br" }

end Utf16

/-! ## Facts about the map operations -/

theorem lookupEntry_setEntry_self (k : String) (v : TempLink) (es : List (String × TempLink)) :
    lookupEntry k (setEntry k v es) = some v := by
  induction es with
  | nil => simp [setEntry, lookupEntry]
  | cons e rest ih =>
    obtain ⟨k', v'⟩ := e
    by_cases h : k' = k
    · simp [setEntry, lookupEntry, h]
    · simp [setEntry, lookupEntry, h, ih]

theorem lookupEntry_setEntry_ne (k k' : String) (v : TempLink) (es : List (String × TempLink))
    (hne : k' ≠ k) : lookupEntry k' (setEntry k v es) = lookupEntry k' es := by
  induction es with
  | nil =>
    have h : ¬ k = k' := fun hk => hne hk.symm
    simp [setEntry, lookupEntry, h]
  | cons e rest ih =>
    obtain ⟨k₀, v₀⟩ := e
    by_cases h : k₀ = k
    · subst h
      have h' : ¬ k₀ = k' := fun hk => hne hk.symm
      simp [setEntry, lookupEntry, h']
    · by_cases h2 : k₀ = k'
      · subst h2
        simp [setEntry, lookupEntry, h]
      · simp [setEntry, lookupEntry, h, h2, ih]

theorem lookupEntry_eq_some_iff (k : String) (v : TempLink) (es : List (String × TempLink))
    (hnd : (keysOf es).Nodup) : lookupEntry k es = some v ↔ (k, v) ∈ es := by
  induction es with
  | nil => simp [lookupEntry]
  | cons e rest ih =>
    obtain ⟨k₀, v₀⟩ := e
    have hnd' : k₀ ∉ keysOf rest ∧ (keysOf rest).Nodup := by
      simpa [keysOf] using hnd
    by_cases h : k₀ = k
    · subst h
      have hno : (k₀, v) ∉ rest := fun hm =>
        hnd'.1 (List.mem_map.mpr ⟨(k₀, v), hm, rfl⟩)
      simp only [lookupEntry, if_true, List.mem_cons, Prod.mk.injEq, true_and, Option.some.injEq]
      constructor
      · intro hv
        exact Or.inl hv.symm
      · rintro (hv | hm)
        · exact hv.symm
        · exact absurd hm hno
    · have h' : ¬ k = k₀ := fun hk => h hk.symm
      simp [lookupEntry, h, h', ih hnd'.2]

theorem lookupEntry_eq_none_iff (k : String) (es : List (String × TempLink)) :
    lookupEntry k es = none ↔ k ∉ keysOf es := by
  induction es with
  | nil => simp [lookupEntry, keysOf]
  | cons e rest ih =>
    obtain ⟨k₀, v₀⟩ := e
    by_cases h : k₀ = k
    · simp [lookupEntry, keysOf, h]
    · have h' : ¬ k = k₀ := fun hk => h hk.symm
      simp only [keysOf] at ih
      simp [lookupEntry, keysOf, h, h', ih]

theorem TempLinks.get_set_self (m : TempLinks) (k : String) (v : TempLink) :
    (m.set k v).get k = some v :=
  lookupEntry_setEntry_self k v m.entries

theorem TempLinks.get_set_ne (m : TempLinks) (k k' : String) (v : TempLink) (hne : k' ≠ k) :
    (m.set k v).get k' = m.get k' :=
  lookupEntry_setEntry_ne k k' v m.entries hne

theorem TempLinks.keys_set_of_stored (m : TempLinks) (k : String) (v l : TempLink)
    (h : m.get k = some l) : keysOf (m.set k v).entries = keysOf m.entries := by
  have hk : k ∈ keysOf m.entries := by
    by_contra hc
    have := (lookupEntry_eq_none_iff k m.entries).mpr hc
    simp [TempLinks.get] at h
    rw [this] at h
    cases h
  show keysOf (setEntry k v m.entries) = keysOf m.entries
  rw [keysOf_setEntry, if_pos hk]

theorem TempLinks.ext_entries (a b : TempLinks) (h : a.entries = b.entries) : a = b := by
  cases a; cases b; cases h; rfl

/-! ## Validation: when a link is usable -/

theorem validateTempLink_of_none (now : Nat) (linkId : String) (tempLinks : TempLinks)
    (h : tempLinks.get linkId = none) :
    validateTempLink now linkId tempLinks = (.invalid reasonNotFound, tempLinks) := by
  simp [validateTempLink, h]

theorem validateTempLink_of_some (now : Nat) (linkId : String) (tempLinks : TempLinks)
    (link : TempLink) (h : tempLinks.get linkId = some link) :
    validateTempLink now linkId tempLinks =
      if link.active = false then (.invalid reasonInactive, tempLinks)
      else if now > link.expiresAt then
        (.invalid reasonExpired, tempLinks.set linkId { link with active := false })
      else if link.downloads ≥ link.maxDownloads then
        (.invalid reasonExhausted, tempLinks.set linkId { link with active := false })
      else (.valid link, tempLinks) := by
  cases hact : link.active <;> simp [validateTempLink, h, hact]

theorem validateTempLink_inactive (now : Nat) (linkId : String) (tempLinks : TempLinks)
    (link : TempLink) (h : tempLinks.get linkId = some link) (hact : link.active = false) :
    validateTempLink now linkId tempLinks = (.invalid reasonInactive, tempLinks) := by
  simp [validateTempLink, h, hact]

theorem validateTempLink_expired (now : Nat) (linkId : String) (tempLinks : TempLinks)
    (link : TempLink) (h : tempLinks.get linkId = some link) (hact : link.active = true)
    (hexp : now > link.expiresAt) :
    validateTempLink now linkId tempLinks =
      (.invalid reasonExpired, tempLinks.set linkId { link with active := false }) := by
  simp [validateTempLink, h, hact, hexp]

theorem validateTempLink_exhausted (now : Nat) (linkId : String) (tempLinks : TempLinks)
    (link : TempLink) (h : tempLinks.get linkId = some link) (hact : link.active = true)
    (hexp : ¬ now > link.expiresAt) (hex : link.downloads ≥ link.maxDownloads) :
    validateTempLink now linkId tempLinks =
      (.invalid reasonExhausted, tempLinks.set linkId { link with active := false }) := by
  simp [validateTempLink, h, hact, hexp, hex]

theorem validateTempLink_usable (now : Nat) (linkId : String) (tempLinks : TempLinks)
    (link : TempLink) (h : tempLinks.get linkId = some link) (hact : link.active = true)
    (hexp : ¬ now > link.expiresAt) (hex : ¬ link.downloads ≥ link.maxDownloads) :
    validateTempLink now linkId tempLinks = (.valid link, tempLinks) := by
  simp [validateTempLink, h, hact, hexp, hex]

/-- C2, as stated, fails at the instant of expiry: at `now = expiresAt` the link created
with a one-hour lifetime is reported valid although `now < expiresAt` is false. -/
theorem validateTempLink_valid_iff_strict_fails :
    ¬ ((validateTempLink 3600000 "0102030405060708" oneHourStore).1.isValid = true ↔
        ∃ link, oneHourStore.get "0102030405060708" = some link ∧ link.active = true ∧
          3600000 < link.expiresAt ∧ link.downloads < link.maxDownloads) := by
  intro h
  have hv : (validateTempLink 3600000 "0102030405060708" oneHourStore).1.isValid = true := by
    decide
  obtain ⟨link, hl, _, hlt, _⟩ := h.mp hv
  have hget : oneHourStore.get "0102030405060708" =
      some { files := [], createdAt := 0, downloads := 0, maxDownloads := 5,
             expiresAt := 3600000, active := true } := by decide
  rw [hget] at hl
  cases hl
  exact absurd hlt (by decide)

/-- C2, amended: `validateTempLink` returns `valid: true` if and only if the link is
stored, `active` is true, `now` is not after `expiresAt` (the instant `now = expiresAt`
is still valid) and `downloads < maxDownloads`. -/
theorem validateTempLink_valid_iff (now : Nat) (linkId : String) (tempLinks : TempLinks) :
    (validateTempLink now linkId tempLinks).1.isValid = true ↔
      ∃ link, tempLinks.get linkId = some link ∧ link.active = true ∧
        now ≤ link.expiresAt ∧ link.downloads < link.maxDownloads := by
  cases hget : tempLinks.get linkId with
  | none => simp [validateTempLink_of_none now linkId tempLinks hget, Validation.isValid]
  | some link =>
    rw [validateTempLink_of_some now linkId tempLinks link hget]
    by_cases hact : link.active = false
    · simp [hact, Validation.isValid]
    · have hact' : link.active = true := by simpa using hact
      by_cases hexp : now > link.expiresAt
      · have : ¬ now ≤ link.expiresAt := by omega
        simp [hact', hexp, this, Validation.isValid]
      · have hle : now ≤ link.expiresAt := by omega
        by_cases hex : link.downloads ≥ link.maxDownloads
        · have : ¬ link.downloads < link.maxDownloads := by omega
          simp [hact', hexp, hex, this, Validation.isValid]
        · have hlt : link.downloads < link.maxDownloads := by omega
          simp [hact', hexp, hex, hle, hlt, Validation.isValid]

/-- C4: when `validateTempLink` returns `valid: false`, its reason is one of the four
texts, decided in order: not found iff the id is not stored; otherwise inactive iff
`active` is false; otherwise expired iff `now > expiresAt`; otherwise exhausted iff
`downloads >= maxDownloads`. -/
theorem validateTempLink_reason_order (now : Nat) (linkId : String) (tempLinks : TempLinks)
    (reason : String)
    (h : (validateTempLink now linkId tempLinks).1 = Validation.invalid reason) :
    (reason = reasonNotFound ∨ reason = reasonInactive ∨ reason = reasonExpired ∨
        reason = reasonExhausted) ∧
    (reason = reasonNotFound ↔ tempLinks.get linkId = none) ∧
    (∀ link, tempLinks.get linkId = some link →
      (reason = reasonInactive ↔ link.active = false) ∧
      (link.active = true →
        (reason = reasonExpired ↔ now > link.expiresAt) ∧
        (¬ now > link.expiresAt →
          (reason = reasonExhausted ↔ link.downloads ≥ link.maxDownloads)))) := by
  have d1 : reasonInactive ≠ reasonNotFound := by decide
  have d2 : reasonExpired ≠ reasonNotFound := by decide
  have d3 : reasonExhausted ≠ reasonNotFound := by decide
  have d4 : reasonExpired ≠ reasonInactive := by decide
  have d5 : reasonExhausted ≠ reasonInactive := by decide
  have d6 : reasonExhausted ≠ reasonExpired := by decide
  cases hget : tempLinks.get linkId with
  | none =>
    rw [validateTempLink_of_none now linkId tempLinks hget] at h
    simp only [Validation.invalid.injEq] at h
    subst h
    simp
  | some link =>
    rw [validateTempLink_of_some now linkId tempLinks link hget] at h
    by_cases hact : link.active = false
    · simp only [hact, if_true, Validation.invalid.injEq] at h
      subst h
      refine ⟨Or.inr (Or.inl rfl), by simp [d1], ?_⟩
      intro l hl
      cases hl
      simp [hact]
    · have hact' : link.active = true := by simpa using hact
      by_cases hexp : now > link.expiresAt
      · simp only [hact', hexp, if_true, Bool.true_eq_false, if_false,
          Validation.invalid.injEq] at h
        subst h
        refine ⟨Or.inr (Or.inr (Or.inl rfl)), by simp [d2], ?_⟩
        intro l hl
        cases hl
        simp [hact', d4, hexp]
      · by_cases hex : link.downloads ≥ link.maxDownloads
        · simp only [hact', hexp, hex, if_true, Bool.true_eq_false, if_false,
            Validation.invalid.injEq] at h
          subst h
          refine ⟨Or.inr (Or.inr (Or.inr rfl)), by simp [d3], ?_⟩
          intro l hl
          cases hl
          simp [hact', d5, d6, hexp, hex]
        · simp [hact', hexp, hex] at h

/-- Witness for C4: one hour and one millisecond after its creation the link of
`oneHourStore` is refused as expired. -/
theorem validateTempLink_reason_order_witness :
    (validateTempLink 3600001 "0102030405060708" oneHourStore).1
        = Validation.invalid reasonExpired ∧
    ((reasonExpired = reasonNotFound ∨ reasonExpired = reasonInactive ∨
        reasonExpired = reasonExpired ∨ reasonExpired = reasonExhausted) ∧
    (reasonExpired = reasonNotFound ↔ oneHourStore.get "0102030405060708" = none) ∧
    (∀ link, oneHourStore.get "0102030405060708" = some link →
      (reasonExpired = reasonInactive ↔ link.active = false) ∧
      (link.active = true →
        (reasonExpired = reasonExpired ↔ 3600001 > link.expiresAt) ∧
        (¬ 3600001 > link.expiresAt →
          (reasonExpired = reasonExhausted ↔ link.downloads ≥ link.maxDownloads))))) :=
  ⟨by decide,
   validateTempLink_reason_order 3600001 "0102030405060708" oneHourStore reasonExpired
     (by decide)⟩

/-! ## Frame conditions of validation and of the download counter -/

theorem validateTempLink_get_ne (now : Nat) (linkId other : String) (tempLinks : TempLinks)
    (hne : other ≠ linkId) :
    (validateTempLink now linkId tempLinks).2.get other = tempLinks.get other := by
  cases hget : tempLinks.get linkId with
  | none => rw [validateTempLink_of_none now linkId tempLinks hget]
  | some link =>
    rw [validateTempLink_of_some now linkId tempLinks link hget]
    split
    · rfl
    · split
      · exact TempLinks.get_set_ne _ _ _ _ hne
      · split
        · exact TempLinks.get_set_ne _ _ _ _ hne
        · rfl

theorem incrementDownload_of_some (linkId : String) (tempLinks : TempLinks) (link : TempLink)
    (h : tempLinks.get linkId = some link) :
    incrementDownload linkId tempLinks =
      tempLinks.set linkId { link with downloads := link.downloads + 1 } := by
  simp [incrementDownload, h]

theorem incrementDownload_of_none (linkId : String) (tempLinks : TempLinks)
    (h : tempLinks.get linkId = none) : incrementDownload linkId tempLinks = tempLinks := by
  simp [incrementDownload, h]

theorem incrementDownload_get_ne (linkId other : String) (tempLinks : TempLinks)
    (hne : other ≠ linkId) :
    (incrementDownload linkId tempLinks).get other = tempLinks.get other := by
  cases hget : tempLinks.get linkId with
  | none => rw [incrementDownload_of_none linkId tempLinks hget]
  | some link =>
    rw [incrementDownload_of_some linkId tempLinks link hget]
    exact TempLinks.get_set_ne _ _ _ _ hne

/-- C5: `validateTempLink` changes the map only by lazy deactivation.  Every other link
is untouched and no key is added or removed; the queried link keeps its `files`,
`createdAt`, `expiresAt`, `downloads` and `maxDownloads`, and its `active` flag is set
to false exactly when the expired or the exhausted reason is returned; in every other
case (valid, not found, inactive) the map is unchanged. -/
theorem validateTempLink_frame (now : Nat) (linkId : String) (tempLinks : TempLinks) :
    (∀ other, other ≠ linkId →
      (validateTempLink now linkId tempLinks).2.get other = tempLinks.get other) ∧
    keysOf (validateTempLink now linkId tempLinks).2.entries = keysOf tempLinks.entries ∧
    (∀ link, tempLinks.get linkId = some link →
      ((validateTempLink now linkId tempLinks).1 = Validation.invalid reasonExpired ∨
        (validateTempLink now linkId tempLinks).1 = Validation.invalid reasonExhausted →
        link.active = true ∧
        (validateTempLink now linkId tempLinks).2.get linkId
          = some { link with active := false }) ∧
      (¬ ((validateTempLink now linkId tempLinks).1 = Validation.invalid reasonExpired ∨
          (validateTempLink now linkId tempLinks).1 = Validation.invalid reasonExhausted) →
        (validateTempLink now linkId tempLinks).2.get linkId = some link)) ∧
    (¬ ((validateTempLink now linkId tempLinks).1 = Validation.invalid reasonExpired ∨
        (validateTempLink now linkId tempLinks).1 = Validation.invalid reasonExhausted) →
      (validateTempLink now linkId tempLinks).2 = tempLinks) := by
  have d1 : reasonNotFound ≠ reasonExpired := by decide
  have d2 : reasonNotFound ≠ reasonExhausted := by decide
  have d3 : reasonInactive ≠ reasonExpired := by decide
  have d4 : reasonInactive ≠ reasonExhausted := by decide
  cases hget : tempLinks.get linkId with
  | none =>
    rw [validateTempLink_of_none now linkId tempLinks hget]
    simp
  | some link =>
    by_cases hact : link.active = false
    · rw [validateTempLink_inactive now linkId tempLinks link hget hact]
      refine ⟨fun _ _ => rfl, rfl, ?_, fun _ => rfl⟩
      intro l hl
      cases hl
      simp [d3, d4, hget]
    · have hact' : link.active = true := by simpa using hact
      by_cases hexp : now > link.expiresAt
      · rw [validateTempLink_expired now linkId tempLinks link hget hact' hexp]
        refine ⟨fun o ho => TempLinks.get_set_ne _ _ _ _ ho,
          TempLinks.keys_set_of_stored _ _ _ _ hget, ?_, ?_⟩
        · intro l hl
          cases hl
          simp [hact', TempLinks.get_set_self]
        · simp
      · by_cases hex : link.downloads ≥ link.maxDownloads
        · rw [validateTempLink_exhausted now linkId tempLinks link hget hact' hexp hex]
          refine ⟨fun o ho => TempLinks.get_set_ne _ _ _ _ ho,
            TempLinks.keys_set_of_stored _ _ _ _ hget, ?_, ?_⟩
          · intro l hl
            cases hl
            simp [hact', TempLinks.get_set_self]
          · simp
        · rw [validateTempLink_usable now linkId tempLinks link hget hact' hexp hex]
          refine ⟨fun _ _ => rfl, rfl, ?_, fun _ => rfl⟩
          intro l hl
          cases hl
          simp [hget]

/-- C6: `incrementDownload` raises `downloads` of the stored link by exactly one and
changes nothing else: the other fields of that link, every other link and the set of
keys are as before; for an id that is not stored the map is unchanged (the function is
total, it has no error outcome). -/
theorem incrementDownload_frame (linkId : String) (tempLinks : TempLinks) :
    (∀ link, tempLinks.get linkId = some link →
      (incrementDownload linkId tempLinks).get linkId
        = some { link with downloads := link.downloads + 1 }) ∧
    (∀ other, other ≠ linkId →
      (incrementDownload linkId tempLinks).get other = tempLinks.get other) ∧
    keysOf (incrementDownload linkId tempLinks).entries = keysOf tempLinks.entries ∧
    (tempLinks.get linkId = none → incrementDownload linkId tempLinks = tempLinks) := by
  cases hget : tempLinks.get linkId with
  | none => simp [incrementDownload, hget]
  | some link =>
    simp only [incrementDownload, hget]
    refine ⟨?_, fun o ho => TempLinks.get_set_ne _ _ _ _ ho,
      TempLinks.keys_set_of_stored _ _ _ _ hget, ?_⟩
    · intro l hl
      cases hl
      exact TempLinks.get_set_self _ _ _
    · intro h
      cases h

/-! ## The sweep -/

theorem sweptKeys_cons (now : Nat) (e : String × TempLink) (rest : List (String × TempLink))
    (k : String) :
    k ∈ sweptKeys now (e :: rest) ↔
      (sweepable now e.2 = true ∧ k = e.1) ∨ k ∈ sweptKeys now rest := by
  by_cases hs : sweepable now e.2 = true
  · simp only [sweptKeys, keysOf, List.filter_cons, hs, if_true, List.map_cons,
      List.mem_cons, true_and]
  · have hs' : sweepable now e.2 = false := by simpa using hs
    simp only [sweptKeys, keysOf, List.filter_cons, hs', Bool.false_eq_true, if_false,
      false_and, false_or]

theorem cleanupLoop_entries (now : Nat) (es : List (String × TempLink)) (acc : Server × Nat) :
    (es.foldl (cleanupStep now) acc).1.tempLinks.entries =
      acc.1.tempLinks.entries.filter (fun e => decide (e.1 ∉ sweptKeys now es)) := by
  induction es generalizing acc with
  | nil => simp [sweptKeys, keysOf]
  | cons e rest ih =>
    rw [List.foldl_cons, ih]
    by_cases hs : sweepable now e.2 = true
    · simp only [cleanupStep, hs, if_true, TempLinks.delete, deleteEntry, List.filter_filter]
      apply List.filter_congr
      intro x _
      have key := sweptKeys_cons now e rest x.1
      by_cases h1 : x.1 = e.1
      · have : x.1 ∈ sweptKeys now (e :: rest) := key.mpr (Or.inl ⟨hs, h1⟩)
        have hx : decide (x.1 ∉ sweptKeys now (e :: rest)) = false := by simp [this]
        rw [hx]
        simp [h1]
      · by_cases h2 : x.1 ∈ sweptKeys now rest
        · have : x.1 ∈ sweptKeys now (e :: rest) := key.mpr (Or.inr h2)
          simp [this, h2]
        · have : x.1 ∉ sweptKeys now (e :: rest) := by
            rw [key]
            rintro (⟨_, hc⟩ | hc)
            · exact h1 hc
            · exact h2 hc
          simp [this, h1, h2]
    · simp only [cleanupStep, hs, if_false]
      apply List.filter_congr
      intro x _
      have key := sweptKeys_cons now e rest x.1
      have : x.1 ∈ sweptKeys now (e :: rest) ↔ x.1 ∈ sweptKeys now rest := by
        rw [key]
        constructor
        · rintro (⟨hc, _⟩ | hc)
          · exact absurd hc hs
          · exact hc
        · exact Or.inr
      simp [this]

theorem mem_sweptKeys_iff (now : Nat) (es : List (String × TempLink))
    (hnd : (keysOf es).Nodup) (e : String × TempLink) (he : e ∈ es) :
    e.1 ∈ sweptKeys now es ↔ sweepable now e.2 = true := by
  constructor
  · intro hm
    simp only [sweptKeys, keysOf, List.mem_map, List.mem_filter] at hm
    obtain ⟨e', ⟨he', hs'⟩, hk⟩ := hm
    have h1 : lookupEntry e.1 es = some e.2 :=
      (lookupEntry_eq_some_iff e.1 e.2 es hnd).mpr he
    have h2 : lookupEntry e.1 es = some e'.2 :=
      (lookupEntry_eq_some_iff e.1 e'.2 es hnd).mpr (by rw [← hk]; exact he')
    rw [h1] at h2
    injection h2 with h2
    rw [h2]
    exact hs'
  · intro hs
    simp only [sweptKeys, keysOf, List.mem_map, List.mem_filter]
    exact ⟨e, ⟨he, hs⟩, rfl⟩

theorem cleanupExpiredLinks_entries (now : Nat) (s : Server) :
    (cleanupExpiredLinks now s).tempLinks.entries =
      s.tempLinks.entries.filter (fun e => !sweepable now e.2) := by
  unfold cleanupExpiredLinks
  rw [cleanupLoop_entries]
  apply List.filter_congr
  intro e he
  have := mem_sweptKeys_iff now s.tempLinks.entries s.tempLinks.nodupKeys e he
  by_cases hs : sweepable now e.2 = true
  · simp [hs, this.mpr hs]
  · have hn : e.1 ∉ sweptKeys now s.tempLinks.entries := fun hm => hs (this.mp hm)
    simp [hs, hn]

theorem lookupEntry_filter (k : String) (p : TempLink → Bool) (es : List (String × TempLink))
    (hnd : (keysOf es).Nodup) :
    lookupEntry k (es.filter (fun e => p e.2)) = (lookupEntry k es).filter p := by
  induction es with
  | nil => simp [lookupEntry]
  | cons e rest ih =>
    obtain ⟨k₀, v₀⟩ := e
    have hnd' : k₀ ∉ keysOf rest ∧ (keysOf rest).Nodup := by
      simpa [keysOf] using hnd
    by_cases h : k₀ = k
    · subst h
      have hrest : lookupEntry k₀ rest = none :=
        (lookupEntry_eq_none_iff k₀ rest).mpr hnd'.1
      cases hp : p v₀
      · simp [List.filter_cons, hp, lookupEntry, ih hnd'.2, hrest, Option.filter]
      · simp [List.filter_cons, hp, lookupEntry, Option.filter]
    · cases hp : p v₀
      · simp [List.filter_cons, hp, lookupEntry, h, ih hnd'.2]
      · simp [List.filter_cons, hp, lookupEntry, h, ih hnd'.2]

theorem cleanupExpiredLinks_get (now : Nat) (s : Server) (linkId : String) :
    (cleanupExpiredLinks now s).tempLinks.get linkId =
      (s.tempLinks.get linkId).filter (fun link => !sweepable now link) := by
  unfold TempLinks.get
  rw [cleanupExpiredLinks_entries]
  exact lookupEntry_filter linkId (fun link => !sweepable now link) s.tempLinks.entries
    s.tempLinks.nodupKeys

theorem mem_removeLinkFile (disk : Disk) (file : FileDesc) (p : String) :
    p ∈ removeLinkFile disk file ↔ p ∈ disk ∧ ¬ (file.path ≠ "" ∧ p = file.path) := by
  unfold removeLinkFile
  by_cases h : file.path ≠ "" ∧ existsSync disk file.path = true
  · rw [if_pos h]
    simp only [unlinkSync, h.2, if_true, List.mem_filter, decide_eq_true_eq]
    constructor
    · rintro ⟨hp, hne⟩
      exact ⟨hp, fun hc => hne hc.2⟩
    · rintro ⟨hp, hn⟩
      exact ⟨hp, fun hc => hn ⟨h.1, hc⟩⟩
  · rw [if_neg h]
    constructor
    · intro hp
      refine ⟨hp, ?_⟩
      rintro ⟨hne, rfl⟩
      exact h ⟨hne, by simp [existsSync, hne, hp]⟩
    · exact fun hp => hp.1

theorem mem_foldl_removeLinkFile (files : List FileDesc) (disk : Disk) (p : String) :
    p ∈ files.foldl removeLinkFile disk ↔
      p ∈ disk ∧ ¬ ∃ f ∈ files, f.path ≠ "" ∧ p = f.path := by
  induction files generalizing disk with
  | nil => simp
  | cons f rest ih =>
    rw [List.foldl_cons, ih, mem_removeLinkFile]
    simp only [List.mem_cons, exists_eq_or_imp]
    rw [not_or, and_assoc]

theorem sweptPath_cons (now : Nat) (e : String × TempLink) (rest : List (String × TempLink))
    (p : String) :
    sweptPath now (e :: rest) p ↔
      (sweepable now e.2 = true ∧ ∃ f ∈ e.2.files, f.path ≠ "" ∧ p = f.path) ∨
        sweptPath now rest p := by
  simp only [sweptPath, List.mem_cons, exists_eq_or_imp]

theorem cleanupLoop_disk (now : Nat) (es : List (String × TempLink)) (acc : Server × Nat)
    (p : String) :
    p ∈ (es.foldl (cleanupStep now) acc).1.disk ↔ p ∈ acc.1.disk ∧ ¬ sweptPath now es p := by
  induction es generalizing acc with
  | nil => simp [sweptPath]
  | cons e rest ih =>
    rw [List.foldl_cons, ih, sweptPath_cons]
    by_cases hs : sweepable now e.2 = true
    · simp only [cleanupStep, hs, if_true, mem_foldl_removeLinkFile, true_and]
      rw [not_or, and_assoc]
    · have hs' : sweepable now e.2 = false := by simpa using hs
      simp only [cleanupStep, hs', Bool.false_eq_true, if_false, false_and, false_or]

theorem cleanupLoop_of_none_sweepable (now : Nat) (es : List (String × TempLink))
    (acc : Server × Nat) (h : ∀ e ∈ es, sweepable now e.2 = false) :
    es.foldl (cleanupStep now) acc = acc := by
  induction es generalizing acc with
  | nil => rfl
  | cons e rest ih =>
    have he : sweepable now e.2 = false := h e (List.mem_cons_self _ _)
    rw [List.foldl_cons]
    simp only [cleanupStep, he, Bool.false_eq_true, if_false]
    exact ih acc (fun x hx => h x (List.mem_cons_of_mem _ hx))

theorem not_sweepable_iff (now : Nat) (link : TempLink) :
    (!sweepable now link) = decide (link.active = true ∧ ¬ now > link.expiresAt) := by
  cases hact : link.active <;> by_cases hexp : now > link.expiresAt <;>
    simp [sweepable, hact, hexp]

/-- C7: after `cleanupExpiredLinks` the map holds exactly the entries that were active
and not past `expiresAt` (`now > expiresAt` false), each unchanged and in the same
order; every link with `now > expiresAt` or `active == false` is gone from the map and
none of its backing files exists any more. -/
theorem cleanupExpiredLinks_spec (now : Nat) (s : Server) :
    (cleanupExpiredLinks now s).tempLinks.entries =
      s.tempLinks.entries.filter
        (fun e => decide (e.2.active = true ∧ ¬ now > e.2.expiresAt)) ∧
    (∀ linkId, (cleanupExpiredLinks now s).tempLinks.get linkId =
      (s.tempLinks.get linkId).filter
        (fun link => decide (link.active = true ∧ ¬ now > link.expiresAt))) ∧
    (∀ linkId link, s.tempLinks.get linkId = some link →
      (now > link.expiresAt ∨ link.active = false) →
      (cleanupExpiredLinks now s).tempLinks.get linkId = none ∧
      ∀ file ∈ link.files, existsSync (cleanupExpiredLinks now s).disk file.path = false) := by
  refine ⟨?_, ?_, ?_⟩
  · rw [cleanupExpiredLinks_entries]
    apply List.filter_congr
    intro e _
    exact not_sweepable_iff now e.2
  · intro linkId
    rw [cleanupExpiredLinks_get]
    congr 1
    funext link
    exact not_sweepable_iff now link
  · intro linkId link hget hbad
    have hsw : sweepable now link = true := by
      rcases hbad with h | h
      · simp [sweepable, h]
      · simp [sweepable, h]
    refine ⟨?_, ?_⟩
    · rw [cleanupExpiredLinks_get, hget]
      simp [Option.filter, hsw]
    · intro file hfile
      by_cases hp : file.path = ""
      · simp [existsSync, hp]
      · have hmem : (linkId, link) ∈ s.tempLinks.entries :=
          (lookupEntry_eq_some_iff linkId link s.tempLinks.entries s.tempLinks.nodupKeys).mp hget
        have hnot : file.path ∉ (cleanupExpiredLinks now s).disk := by
          unfold cleanupExpiredLinks
          rw [cleanupLoop_disk]
          rintro ⟨_, hn⟩
          exact hn ⟨(linkId, link), hmem, hsw, file, hfile, hp, rfl⟩
        simp [existsSync, hnot]

/-- C8: the sweep is idempotent at a fixed clock value: a second run right after the
first leaves the map and the disk exactly as the first run left them. -/
theorem cleanupExpiredLinks_idempotent (now : Nat) (s : Server) :
    cleanupExpiredLinks now (cleanupExpiredLinks now s) = cleanupExpiredLinks now s := by
  show ((cleanupExpiredLinks now s).tempLinks.entries.foldl (cleanupStep now)
    (cleanupExpiredLinks now s, 0)).1 = cleanupExpiredLinks now s
  rw [cleanupLoop_of_none_sweepable]
  intro e he
  rw [cleanupExpiredLinks_entries] at he
  simpa using (List.mem_filter.mp he).2

/-- C9, as stated, fails: a link whose budget is spent but which no validation has yet
marked inactive survives the sweep with `downloads >= maxDownloads`. -/
theorem cleanupExpiredLinks_keeps_exhausted :
    ¬ (∀ linkId link,
        (cleanupExpiredLinks 10 { tempLinks := spentStore, disk := [] }).tempLinks.get linkId
          = some link →
        ¬ 10 > link.expiresAt ∧ ¬ link.downloads ≥ link.maxDownloads) := by
  intro h
  have hget : (cleanupExpiredLinks 10 { tempLinks := spentStore, disk := [] }).tempLinks.get
      "0102030405060708" =
      some { files := [], createdAt := 0, downloads := 1, maxDownloads := 1,
             expiresAt := 3600000, active := true } := by decide
  exact (h _ _ hget).2 (by decide)

/-- C9, amended: after `cleanupExpiredLinks` no stored link has `now > expiresAt` and no
stored link has `active == false`. -/
theorem cleanupExpiredLinks_leaves_live (now : Nat) (s : Server) (linkId : String)
    (link : TempLink) (h : (cleanupExpiredLinks now s).tempLinks.get linkId = some link) :
    ¬ now > link.expiresAt ∧ link.active = true := by
  have hmem := (lookupEntry_eq_some_iff linkId link _
    (cleanupExpiredLinks now s).tempLinks.nodupKeys).mp h
  rw [cleanupExpiredLinks_entries] at hmem
  have hp := (List.mem_filter.mp hmem).2
  rw [not_sweepable_iff] at hp
  simp only [decide_eq_true_eq] at hp
  exact ⟨hp.2, hp.1⟩

/-- Witness for C9 (amended): the link of `spentStore` is still stored after a sweep at
clock value 10. -/
theorem cleanupExpiredLinks_leaves_live_witness :
    (cleanupExpiredLinks 10 { tempLinks := spentStore, disk := [] }).tempLinks.get
        "0102030405060708" =
      some { files := [], createdAt := 0, downloads := 1, maxDownloads := 1,
             expiresAt := 3600000, active := true } ∧
    (¬ 10 > 3600000 ∧ true = true) :=
  ⟨by decide,
   cleanupExpiredLinks_leaves_live 10 { tempLinks := spentStore, disk := [] }
     "0102030405060708"
     { files := [], createdAt := 0, downloads := 1, maxDownloads := 1,
       expiresAt := 3600000, active := true } (by decide)⟩

/-- C10: no reactivation.  For each of `validateTempLink`, `incrementDownload` (called
for any id `queried`) and `cleanupExpiredLinks`, an id stored with `active == false`
before the operation is afterwards still stored with `active == false` or absent, and
an id absent before is absent after. -/
theorem no_reactivation (now sweepTime : Nat) (s : Server) (queried linkId : String) :
    ((∃ link, s.tempLinks.get linkId = some link ∧ link.active = false) →
      inactiveOrAbsent (validateTempLink now queried s.tempLinks).2 linkId ∧
      inactiveOrAbsent (incrementDownload queried s.tempLinks) linkId ∧
      inactiveOrAbsent (cleanupExpiredLinks sweepTime s).tempLinks linkId) ∧
    (s.tempLinks.get linkId = none →
      (validateTempLink now queried s.tempLinks).2.get linkId = none ∧
      (incrementDownload queried s.tempLinks).get linkId = none ∧
      (cleanupExpiredLinks sweepTime s).tempLinks.get linkId = none) := by
  have hc := cleanupExpiredLinks_get sweepTime s linkId
  constructor
  · rintro ⟨link, hget, hact⟩
    refine ⟨?_, ?_, ?_⟩
    · by_cases hq : linkId = queried
      · subst hq
        rw [validateTempLink_inactive now linkId s.tempLinks link hget hact]
        simp [inactiveOrAbsent, hget, hact]
      · simp [inactiveOrAbsent, validateTempLink_get_ne now queried linkId s.tempLinks hq,
          hget, hact]
    · by_cases hq : linkId = queried
      · subst hq
        rw [incrementDownload_of_some linkId s.tempLinks link hget]
        simp [inactiveOrAbsent, TempLinks.get_set_self, hact]
      · simp [inactiveOrAbsent, incrementDownload_get_ne queried linkId s.tempLinks hq,
          hget, hact]
    · simp [inactiveOrAbsent, hc, hget, Option.filter, sweepable, hact]
  · intro hget
    refine ⟨?_, ?_, ?_⟩
    · by_cases hq : linkId = queried
      · subst hq
        rw [validateTempLink_of_none now linkId s.tempLinks hget]
        exact hget
      · rw [validateTempLink_get_ne now queried linkId s.tempLinks hq]
        exact hget
    · by_cases hq : linkId = queried
      · subst hq
        rw [incrementDownload_of_none linkId s.tempLinks hget]
        exact hget
      · rw [incrementDownload_get_ne queried linkId s.tempLinks hq]
        exact hget
    · rw [hc, hget]
      rfl

/-! ## The validity window of a fresh link -/

/-- C3: a fresh link created by `generateTempLink` at clock value `t` with a lifetime of
`h > 0` hours and a budget `k > 0` is reported valid at `t + h*3600000 - eps` and is
refused, as expired, at `t + h*3600000 + eps`, for every `0 < eps <= h*3600000`. -/
theorem generateTempLink_validity_window (t created : Nat) (randomBytes : List Nat)
    (files : Option (List FileDesc)) (k h eps : Nat) (tempLinks : TempLinks)
    (hh : 0 < h) (hk : 0 < k) (heps : 0 < eps) (hle : eps ≤ h * 3600000) :
    (validateTempLink (t + h * 3600000 - eps)
        (generateTempLink t created randomBytes files (some k) (some h) tempLinks).1
        (generateTempLink t created randomBytes files (some k) (some h) tempLinks).2).1.isValid
      = true ∧
    (validateTempLink (t + h * 3600000 + eps)
        (generateTempLink t created randomBytes files (some k) (some h) tempLinks).1
        (generateTempLink t created randomBytes files (some k) (some h) tempLinks).2).1
      = Validation.invalid reasonExpired := by
  have _ := hh
  have hgen : generateTempLink t created randomBytes files (some k) (some h) tempLinks =
      (hexUpper randomBytes, tempLinks.set (hexUpper randomBytes)
        { files := files.getD [], createdAt := created, downloads := 0, maxDownloads := k,
          expiresAt := t + h * 60 * 60 * 1000, active := true }) := rfl
  rw [hgen]
  constructor
  · have hnot : ¬ t + h * 3600000 - eps > t + h * 60 * 60 * 1000 := by omega
    rw [validateTempLink_usable (t + h * 3600000 - eps) (hexUpper randomBytes) _
      { files := files.getD [], createdAt := created, downloads := 0, maxDownloads := k,
        expiresAt := t + h * 60 * 60 * 1000, active := true }
      (TempLinks.get_set_self _ _ _) rfl hnot (by show ¬ 0 ≥ k; omega)]
    rfl
  · have hexp : t + h * 3600000 + eps > t + h * 60 * 60 * 1000 := by omega
    rw [validateTempLink_expired (t + h * 3600000 + eps) (hexUpper randomBytes) _
      { files := files.getD [], createdAt := created, downloads := 0, maxDownloads := k,
        expiresAt := t + h * 60 * 60 * 1000, active := true }
      (TempLinks.get_set_self _ _ _) rfl hexp]

/-- Witness for C3: a two-hour link created at clock value 1000, probed one
millisecond before and one millisecond after its expiry. -/
theorem generateTempLink_validity_window_witness :
    (0 < 2 ∧ 0 < 5 ∧ 0 < 1 ∧ 1 ≤ 2 * 3600000) ∧
    ((validateTempLink (1000 + 2 * 3600000 - 1)
        (generateTempLink 1000 1000 [1, 2, 3, 4, 5, 6, 7, 8] none (some 5) (some 2)
          TempLinks.empty).1
        (generateTempLink 1000 1000 [1, 2, 3, 4, 5, 6, 7, 8] none (some 5) (some 2)
          TempLinks.empty).2).1.isValid = true ∧
    (validateTempLink (1000 + 2 * 3600000 + 1)
        (generateTempLink 1000 1000 [1, 2, 3, 4, 5, 6, 7, 8] none (some 5) (some 2)
          TempLinks.empty).1
        (generateTempLink 1000 1000 [1, 2, 3, 4, 5, 6, 7, 8] none (some 5) (some 2)
          TempLinks.empty).2).1 = Validation.invalid reasonExpired) :=
  ⟨by decide,
   generateTempLink_validity_window 1000 1000 [1, 2, 3, 4, 5, 6, 7, 8] none 5 2 1
     TempLinks.empty (by decide) (by decide) (by decide) (by decide)⟩

/-! ## The download budget -/

theorem downloadFileRoute_served (now : Nat) (linkId filename name : String) (s : Server)
    (link : TempLink) (file : FileDesc)
    (hget : s.tempLinks.get linkId = some link) (hact : link.active = true)
    (hexp : now ≤ link.expiresAt) (hbud : link.downloads < link.maxDownloads)
    (hname : decodeURIComponent filename = .ok name)
    (hfind : link.files.find? (fun f => decide (f.originalname = name)) = some file)
    (hdisk : existsSync s.disk file.path = true) :
    downloadFileRoute now linkId filename s =
      (.download file.path file.originalname,
        { s with tempLinks :=
            s.tempLinks.set linkId { link with downloads := link.downloads + 1 } }) := by
  have hv := validateTempLink_usable now linkId s.tempLinks link hget hact
    (by omega) (by omega)
  obtain ⟨f, fs, hfiles⟩ : ∃ f fs, link.files = f :: fs := by
    cases h : link.files with
    | nil => rw [h] at hfind; simp at hfind
    | cons f fs => exact ⟨f, fs, rfl⟩
  have hfind' := hfind
  rw [hfiles] at hfind'
  unfold downloadFileRoute
  rw [hv]
  simp only [hfiles, hname, hfind', hdisk, incrementDownload, hget, Bool.not_true,
    Bool.false_eq_true, if_false]

theorem downloadFileRoute_exhausted (now : Nat) (linkId filename : String) (s : Server)
    (link : TempLink)
    (hget : s.tempLinks.get linkId = some link) (hact : link.active = true)
    (hexp : now ≤ link.expiresAt) (hbud : link.downloads ≥ link.maxDownloads) :
    (downloadFileRoute now linkId filename s).1 = .error 404 reasonExhausted := by
  have hv := validateTempLink_exhausted now linkId s.tempLinks link hget hact
    (by omega) hbud
  unfold downloadFileRoute
  rw [hv]

theorem downloadFileRepeatedly_budget (linkId filename name : String) (file : FileDesc)
    (hname : decodeURIComponent filename = .ok name) (n : Nat) :
    ∀ (s : Server) (link : TempLink) (times : List Nat),
      s.tempLinks.get linkId = some link → link.active = true →
      link.downloads + n = link.maxDownloads →
      link.files.find? (fun f => decide (f.originalname = name)) = some file →
      existsSync s.disk file.path = true →
      times.length = n + 1 → (∀ now ∈ times, now ≤ link.expiresAt) →
      (downloadFileRepeatedly linkId filename times s).1 =
        List.replicate n (.download file.path file.originalname) ++
          [.error 404 reasonExhausted] := by
  induction n with
  | zero =>
    intro s link times hget hact hbud _ _ hlen htimes
    match times, hlen with
    | [now], _ =>
      have hnow := htimes now (List.mem_singleton.mpr rfl)
      simp only [downloadFileRepeatedly, List.replicate_zero, List.nil_append]
      rw [downloadFileRoute_exhausted now linkId filename s link hget hact hnow (by omega)]
  | succ n ih =>
    intro s link times hget hact hbud hfind hdisk hlen htimes
    match times, hlen with
    | now :: later, hlen =>
      have hnow := htimes now (List.mem_cons_self _ _)
      have hstep := downloadFileRoute_served now linkId filename name s link file hget hact
        hnow (by omega) hname hfind hdisk
      simp only [downloadFileRepeatedly, List.replicate_succ, List.cons_append]
      rw [hstep]
      congr 1
      exact ih _ { link with downloads := link.downloads + 1 } later
        (TempLinks.get_set_self _ _ _) hact (by simp only; omega) hfind hdisk
        (by simpa using hlen) (fun t ht => htimes t (List.mem_cons_of_mem _ ht))

/-- C1: a link created with `maxDownloads = k` whose files exist on disk serves a stored
file name exactly `k` times.  When the file route is requested `k + 1` times in a row,
at clock values not after `expiresAt`, for a name that decodes to the original name of
a stored file, the first `k` answers deliver that file and the last answer is the 404
with the exhausted reason. -/
theorem download_budget (k : Nat) (t created : Nat) (randomBytes : List Nat)
    (files : List FileDesc) (expirationHours : Option Nat) (tempLinks : TempLinks)
    (disk : Disk) (filename name : String) (times : List Nat)
    (hdisk : ∀ f ∈ files, existsSync disk f.path = true)
    (hname : decodeURIComponent filename = .ok name)
    (hstored : ∃ f ∈ files, f.originalname = name)
    (hlen : times.length = k + 1)
    (htimes : ∀ now ∈ times, now ≤ t + expirationHours.getD 48 * 3600000) :
    ∃ file ∈ files, file.originalname = name ∧
      (downloadFileRepeatedly
          (generateTempLink t created randomBytes (some files) (some k) expirationHours
            tempLinks).1
          filename times
          { tempLinks := (generateTempLink t created randomBytes (some files) (some k)
              expirationHours tempLinks).2,
            disk := disk }).1 =
        List.replicate k (.download file.path file.originalname) ++
          [.error 404 reasonExhausted] := by
  obtain ⟨f₀, hf₀, hn₀⟩ := hstored
  cases hfind : files.find? (fun f => decide (f.originalname = name)) with
  | none =>
    have := List.find?_eq_none.mp hfind f₀ hf₀
    simp [hn₀] at this
  | some file =>
    have hmem : file ∈ files := List.mem_of_find?_eq_some hfind
    have hnm : file.originalname = name := by
      simpa using List.find?_some hfind
    refine ⟨file, hmem, hnm, ?_⟩
    exact downloadFileRepeatedly_budget _ filename name file hname k _
      { files := files, createdAt := created, downloads := 0, maxDownloads := k,
        expiresAt := t + expirationHours.getD 48 * 60 * 60 * 1000, active := true }
      times (TempLinks.get_set_self _ _ _) rfl (by simp) hfind (hdisk file hmem) hlen
      (fun now hnow => by
        have := htimes now hnow
        show now ≤ t + expirationHours.getD 48 * 60 * 60 * 1000
        omega)

/-- Witness for C1: a link for `sampleFile` with a budget of two downloads, requested
three times within its lifetime: two deliveries, then the exhausted answer. -/
theorem download_budget_witness :
    ((∀ f ∈ [sampleFile], existsSync ["uploads/1700000000000_contrato_social.pdf"] f.path = true) ∧
      decodeURIComponent "contrato%20social.pdf" = .ok "contrato social.pdf" ∧
      [10, 20, 172800000].length = 2 + 1 ∧
      (∀ now ∈ [10, 20, 172800000], now ≤ 0 + (none : Option Nat).getD 48 * 3600000)) ∧
    (∃ file ∈ [sampleFile], file.originalname = "contrato social.pdf" ∧
      (downloadFileRepeatedly
          (generateTempLink 0 0 [1, 2, 3, 4, 5, 6, 7, 8] (some [sampleFile]) (some 2) none
            TempLinks.empty).1
          "contrato%20social.pdf" [10, 20, 172800000]
          { tempLinks := (generateTempLink 0 0 [1, 2, 3, 4, 5, 6, 7, 8] (some [sampleFile])
              (some 2) none TempLinks.empty).2,
            disk := ["uploads/1700000000000_contrato_social.pdf"] }).1 =
        List.replicate 2 (.download file.path file.originalname) ++
          [.error 404 reasonExhausted]) :=
  ⟨⟨by decide, by decide, by decide, by decide⟩,
   download_budget 2 0 0 [1, 2, 3, 4, 5, 6, 7, 8] [sampleFile] none TempLinks.empty
     ["uploads/1700000000000_contrato_social.pdf"] "contrato%20social.pdf"
     "contrato social.pdf" [10, 20, 172800000]
     (by decide) (by decide) ⟨sampleFile, by simp, rfl⟩ (by decide) (by decide)⟩

/-- The three requests of the witness, evaluated. -/
theorem downloadFileRepeatedly_sample :
    (downloadFileRepeatedly "0102030405060708" "contrato%20social.pdf" [10, 20, 172800000]
        { tempLinks := (generateTempLink 0 0 [1, 2, 3, 4, 5, 6, 7, 8] (some [sampleFile])
            (some 2) none TempLinks.empty).2,
          disk := ["uploads/1700000000000_contrato_social.pdf"] }).1 =
      [.download "uploads/1700000000000_contrato_social.pdf" "contrato social.pdf",
       .download "uploads/1700000000000_contrato_social.pdf" "contrato social.pdf",
       .error 404 "Limite de downloads atingido"] := by
  decide

/-- Sample values of `decodeURIComponent`: escapes decode as UTF-8, a lone `%`, an
overlong encoding and an encoded surrogate are refused. -/
theorem decodeURIComponent_samples :
    decodeURIComponent "a%20b%C3%A3o.pdf" = .ok "a bão.pdf" ∧
    decodeURIComponent "%E2%82%AC%F0%9F%98%80" = .ok "€😀" ∧
    decodeURIComponent "100%.pdf" = .error "URIError: URI malformed" ∧
    decodeURIComponent "%C0%80" = .error "URIError: URI malformed" ∧
    decodeURIComponent "%ED%A0%80" = .error "URIError: URI malformed" := by
  decide

/-- The sweep on a sample state: the expired link and its file go, the live link and
its file stay. -/
theorem cleanupExpiredLinks_sample :
    cleanupExpiredLinks 5000
        { tempLinks :=
            ⟨[("AA", { files := [{ originalname := "a.pdf", path := "uploads/a", size := 1 }],
                        createdAt := 0, downloads := 0, maxDownloads := 5, expiresAt := 4000,
                        active := true }),
              ("BB", { files := [{ originalname := "b.pdf", path := "uploads/b", size := 1 }],
                        createdAt := 0, downloads := 0, maxDownloads := 5, expiresAt := 9000,
                        active := true })], by decide⟩,
          disk := ["uploads/a", "uploads/b"] } =
      { tempLinks :=
          ⟨[("BB", { files := [{ originalname := "b.pdf", path := "uploads/b", size := 1 }],
                      createdAt := 0, downloads := 0, maxDownloads := 5, expiresAt := 9000,
                      active := true })], by decide⟩,
        disk := ["uploads/b"] } := by
  decide

/-! ## Link creation: what is stored -/

theorem generateTempLink_eq (nowExpiry nowCreated : Nat) (randomBytes : List Nat)
    (files : Option (List FileDesc)) (maxDownloads expirationHours : Option Nat)
    (tempLinks : TempLinks) :
    generateTempLink nowExpiry nowCreated randomBytes files maxDownloads expirationHours
        tempLinks =
      (hexUpper randomBytes, tempLinks.set (hexUpper randomBytes)
        { files := files.getD [], createdAt := nowCreated, downloads := 0,
          maxDownloads := maxDownloads.getD 5,
          expiresAt := nowExpiry + expirationHours.getD 48 * 60 * 60 * 1000,
          active := true }) := rfl

/-- C11: `generateTempLink(files, maxDownloads, expirationHours)` called at clock value
`now` returns an id under which the map then holds a link with `active = true`,
`downloads = 0`, the given files (the empty list when absent), the given `maxDownloads`
(5 by default), `createdAt = now` and `expiresAt = createdAt + expirationHours*3600000`
(48 hours by default). -/
theorem generateTempLink_stores (now : Nat) (randomBytes : List Nat)
    (files : Option (List FileDesc)) (maxDownloads expirationHours : Option Nat)
    (tempLinks : TempLinks) :
    ∃ link,
      (generateTempLink now now randomBytes files maxDownloads expirationHours tempLinks).2.get
        (generateTempLink now now randomBytes files maxDownloads expirationHours tempLinks).1
        = some link ∧
      link.active = true ∧ link.downloads = 0 ∧ link.files = files.getD [] ∧
      link.maxDownloads = maxDownloads.getD 5 ∧ link.createdAt = now ∧
      link.expiresAt = link.createdAt + expirationHours.getD 48 * 3600000 := by
  rw [generateTempLink_eq]
  refine ⟨_, TempLinks.get_set_self _ _ _, rfl, rfl, rfl, rfl, rfl, ?_⟩
  show now + expirationHours.getD 48 * 60 * 60 * 1000 = now + expirationHours.getD 48 * 3600000
  omega

/-- C12, as stated, fails: when the random bytes spell an id that is already stored,
the link stored under it is replaced by the fresh one. -/
theorem generateTempLink_replaces_colliding_id :
    ¬ (∀ linkId link, spentStore.get linkId = some link →
        (generateTempLink 5 5 [1, 2, 3, 4, 5, 6, 7, 8] none none none spentStore).2.get linkId
          = some link) := by
  intro h
  have hold : spentStore.get "0102030405060708" =
      some { files := [], createdAt := 0, downloads := 1, maxDownloads := 1,
             expiresAt := 3600000, active := true } := by decide
  have hnew := h _ _ hold
  revert hnew
  decide

/-- C12, amended: `generateTempLink` leaves every link stored under an id other than the
returned one unchanged; hence, for every outcome of the random id generator whose id
is not currently stored, every link stored before the call is still stored and
unchanged after it. -/
theorem generateTempLink_frame (nowExpiry nowCreated : Nat) (randomBytes : List Nat)
    (files : Option (List FileDesc)) (maxDownloads expirationHours : Option Nat)
    (tempLinks : TempLinks) :
    (∀ other,
      other ≠ (generateTempLink nowExpiry nowCreated randomBytes files maxDownloads
        expirationHours tempLinks).1 →
      (generateTempLink nowExpiry nowCreated randomBytes files maxDownloads expirationHours
        tempLinks).2.get other = tempLinks.get other) ∧
    (tempLinks.get (generateTempLink nowExpiry nowCreated randomBytes files maxDownloads
        expirationHours tempLinks).1 = none →
      ∀ linkId link, tempLinks.get linkId = some link →
        (generateTempLink nowExpiry nowCreated randomBytes files maxDownloads expirationHours
          tempLinks).2.get linkId = some link) := by
  rw [generateTempLink_eq]
  refine ⟨fun other hne => TempLinks.get_set_ne _ _ _ _ hne, ?_⟩
  intro hfresh linkId link hget
  have hne : linkId ≠ hexUpper randomBytes := by
    intro hc
    rw [hc] at hget
    rw [hget] at hfresh
    cases hfresh
  rw [TempLinks.get_set_ne _ _ _ _ hne]
  exact hget

/-! ## The lookup orchestrator: validation of the identifier -/

/-- C13: for every identifier string whose count of decimal digits is not 14,
`consultarCNPJ` returns the failure tagged `validacao` and requests no source. -/
theorem consultarCNPJ_validacao (rt : JSRuntime) (fetch : Fetch) (now : Nat) (cnpj : String)
    (h : (cnpj.data.filter Char.isDigit).length ≠ 14) :
    consultarCNPJ rt fetch now cnpj =
      (.falha "CNPJ deve ter 14 dígitos" "validacao" none, []) := by
  have hlen : (cnpjLimpo cnpj).length ≠ 14 := by
    simpa [cnpjLimpo, String.length] using h
  simp [consultarCNPJ, hlen]

/-- Witness for C13: an identifier of thirteen digits, on a network that would answer. -/
theorem consultarCNPJ_validacao_witness :
    ("11.222.333/0001-8".data.filter Char.isDigit).length ≠ 14 ∧
    consultarCNPJ sampleRuntime
        (fun _ => .ok { status := 200, json := .ok (.object [("razao_social", .string "ACME")]) })
        1000 "11.222.333/0001-8" =
      (.falha "CNPJ deve ter 14 dígitos" "validacao" none, []) :=
  ⟨by decide,
   consultarCNPJ_validacao sampleRuntime
     (fun _ => .ok { status := 200, json := .ok (.object [("razao_social", .string "ACME")]) })
     1000 "11.222.333/0001-8" (by decide)⟩

/-! ## The normalizer: reading a payload -/

theorem getProp_of_not_nullish (v : JSValue) (name : String) (h : v.isNullish = false) :
    v.getProp name = .ok (v.prop name) := by
  cases v with
  | undefined => simp [JSValue.isNullish] at h
  | null => simp [JSValue.isNullish] at h
  | bool b => rfl
  | number n => rfl
  | object fields => rfl
  | string s =>
    by_cases h1 : name = "length" <;> by_cases h2 : name = "0" <;>
      simp [JSValue.prop, JSValue.getProp, h1, h2]
  | array elems =>
    by_cases h1 : name = "length" <;> by_cases h2 : name = "0" <;>
      simp [JSValue.prop, JSValue.getProp, h1, h2]

theorem getProp_of_nullish (v : JSValue) (name : String) (h : v.isNullish = true) :
    ∃ e, v.getProp name = .error e := by
  cases v <;> simp [JSValue.isNullish] at h
  · exact ⟨_, rfl⟩
  · exact ⟨_, rfl⟩

theorem prop_of_nullish (v : JSValue) (name : String) (h : v.isNullish = true) :
    v.prop name = .undefined := by
  cases v <;> simp [JSValue.isNullish] at h <;> rfl

theorem getPropOptional_eq (v : JSValue) (name : String) :
    v.getPropOptional name = .ok (v.prop name) := by
  unfold JSValue.getPropOptional
  cases h : v.isNullish
  · simpa using getProp_of_not_nullish v name h
  · simp [prop_of_nullish v name h]

theorem orM_ok (a b : JSValue) : orM (.ok a) (.ok b) = .ok (a.orElse b) := by
  simp only [orM, JSValue.orElse]
  split <;> rfl

theorem propOrEmpty_of_not_nullish (v : JSValue) (name : String) (h : v.isNullish = false) :
    propOrEmpty v name = .ok (v.prop name).orEmpty := by
  simp only [propOrEmpty, getProp_of_not_nullish v name h, orM_ok, JSValue.orEmpty, emptyText]

theorem propOrEmpty_of_nullish (v : JSValue) (name : String) (h : v.isNullish = true) :
    ∃ e, propOrEmpty v name = .error e := by
  obtain ⟨e, he⟩ := getProp_of_nullish v name h
  exact ⟨e, by simp [propOrEmpty, he, orM]⟩

theorem propOrPropOrEmpty_of_not_nullish (v : JSValue) (first second : String)
    (h : v.isNullish = false) :
    propOrPropOrEmpty v first second = .ok ((v.prop first).orElse (v.prop second).orEmpty) := by
  simp only [propOrPropOrEmpty, getProp_of_not_nullish v _ h, orM_ok, JSValue.orEmpty, emptyText]

theorem mapBrasilAPI_of_not_nullish (data : JSValue) (h : data.isNullish = false) :
    mapBrasilAPI data =
      match atividadePrincipalBrasilAPI data with
      | .error e => .error e
      | .ok principal =>
        match mapIfArray cnaeSecundario (data.prop "cnaes_secundarios") with
        | .error e => .error e
        | .ok secundarias =>
          match mapIfArray socioBrasilAPI (data.prop "qsa") with
          | .error e => .error e
          | .ok socios => .ok (registroBrasilAPI data principal secundarias socios) := by
  simp only [mapBrasilAPI, propOrEmpty_of_not_nullish data _ h,
    propOrPropOrEmpty_of_not_nullish data _ _ h, getProp_of_not_nullish data _ h,
    getPropOptional_eq, orM_ok, bind, Except.bind, pure, Except.pure]
  cases atividadePrincipalBrasilAPI data <;> try rfl
  cases mapIfArray cnaeSecundario (data.prop "cnaes_secundarios") <;> try rfl
  cases mapIfArray socioBrasilAPI (data.prop "qsa") <;> rfl

theorem mapReceitaWS_of_not_nullish (rt : JSRuntime) (data : JSValue)
    (h : data.isNullish = false) :
    mapReceitaWS rt data =
      match atividadePrincipalReceitaWS rt data with
      | .error e => .error e
      | .ok principal =>
        match mapIfArray atividadeSecundaria (data.prop "atividades_secundarias") with
        | .error e => .error e
        | .ok secundarias =>
          match mapIfArray socioReceitaWS (data.prop "qsa") with
          | .error e => .error e
          | .ok socios => .ok (registroReceitaWS data principal secundarias socios) := by
  simp only [mapReceitaWS, propOrEmpty_of_not_nullish data _ h,
    getProp_of_not_nullish data _ h, bind, Except.bind, pure, Except.pure]
  cases atividadePrincipalReceitaWS rt data <;> try rfl
  cases mapIfArray atividadeSecundaria (data.prop "atividades_secundarias") <;> try rfl
  cases mapIfArray socioReceitaWS (data.prop "qsa") <;> rfl

theorem mapBrasilAPI_of_nullish (data : JSValue) (h : data.isNullish = true) :
    ∃ e, mapBrasilAPI data = .error e := by
  obtain ⟨e, he⟩ := propOrEmpty_of_nullish data "cnpj" h
  exact ⟨e, by simp [mapBrasilAPI, he, bind, Except.bind]⟩

theorem mapReceitaWS_of_nullish (rt : JSRuntime) (data : JSValue) (h : data.isNullish = true) :
    ∃ e, mapReceitaWS rt data = .error e := by
  obtain ⟨e, he⟩ := propOrEmpty_of_nullish data "cnpj" h
  exact ⟨e, by simp [mapReceitaWS, he, bind, Except.bind]⟩

/-! ## The normalizer: failures -/

theorem truthy_orElse (a b : JSValue) :
    (a.orElse b).truthy = (a.truthy || b.truthy) := by
  unfold JSValue.orElse
  cases h : a.truthy <;> simp [h]

theorem orElse_of_falsy (a b : JSValue) (h : a.truthy = false) : a.orElse b = b := by
  simp [JSValue.orElse, h]

theorem truthy_emptyText : emptyText.truthy = false := by
  simp [emptyText, JSValue.truthy]

theorem normalizarDadosCNPJ_of_error (rt : JSRuntime) (data : JSValue) (apiName e : String)
    (h : mapearDados rt data apiName = .error e) :
    normalizarDadosCNPJ rt data apiName = .failure erroProcessamento := by
  simp [normalizarDadosCNPJ, h]

theorem normalizarDadosCNPJ_of_ok (rt : JSRuntime) (data : JSValue) (apiName : String)
    (registro : DadosCNPJ) (h : mapearDados rt data apiName = .ok registro) :
    normalizarDadosCNPJ rt data apiName =
      if registro.razaoSocial.truthy then .success registro
      else .failure erroDadosIncompletos := by
  cases ht : registro.razaoSocial.truthy <;> simp [normalizarDadosCNPJ, h, ht]

theorem razaoSocial_of_mapearDados (rt : JSRuntime) (data : JSValue) (apiName : String)
    (registro : DadosCNPJ) (h : mapearDados rt data apiName = .ok registro) :
    registro.razaoSocial = (nomeLegal data apiName).orEmpty := by
  unfold mapearDados at h
  unfold nomeLegal
  by_cases hb : apiName = "BrasilAPI"
  · rw [if_pos hb] at h
    rw [if_pos hb]
    cases hn : data.isNullish
    · rw [mapBrasilAPI_of_not_nullish data hn] at h
      cases h1 : atividadePrincipalBrasilAPI data <;> rw [h1] at h <;> try cases h
      cases h2 : mapIfArray cnaeSecundario (data.prop "cnaes_secundarios") <;> rw [h2] at h <;>
        try cases h
      cases h3 : mapIfArray socioBrasilAPI (data.prop "qsa") <;> rw [h3] at h <;> cases h
      simp only [registroBrasilAPI, JSValue.orEmpty, JSValue.orElse, emptyText]
      split <;> rfl
    · obtain ⟨e, he⟩ := mapBrasilAPI_of_nullish data hn
      rw [he] at h
      cases h
  · rw [if_neg hb] at h
    rw [if_neg hb]
    by_cases hr : apiName = "ReceitaWS"
    · rw [if_pos hr] at h
      rw [if_pos hr]
      cases hn : data.isNullish
      · rw [mapReceitaWS_of_not_nullish rt data hn] at h
        cases h1 : atividadePrincipalReceitaWS rt data <;> rw [h1] at h <;> try cases h
        cases h2 : mapIfArray atividadeSecundaria (data.prop "atividades_secundarias") <;>
          rw [h2] at h <;> try cases h
        cases h3 : mapIfArray socioReceitaWS (data.prop "qsa") <;> rw [h3] at h <;> cases h
        rfl
      · obtain ⟨e, he⟩ := mapReceitaWS_of_nullish rt data hn
        rw [he] at h
        cases h
    · rw [if_neg hr] at h
      rw [if_neg hr]
      cases h
      rfl

/-- C16, as stated, fails: a BrasilAPI payload without a legal name whose `qsa` list
holds `null` makes the mapping throw, and the reason returned is the
normalization-error text, not the incomplete-data text. -/
theorem normalizarDadosCNPJ_missing_name_other_reason :
    ¬ ((nomeLegal payloadSocioNulo "BrasilAPI").truthy = false →
        normalizarDadosCNPJ sampleRuntime payloadSocioNulo "BrasilAPI"
          = .failure erroDadosIncompletos) := by
  intro h
  have hmiss : (nomeLegal payloadSocioNulo "BrasilAPI").truthy = false := by decide
  have hval : normalizarDadosCNPJ sampleRuntime payloadSocioNulo "BrasilAPI"
      = .failure erroProcessamento := by rfl
  have := h hmiss
  rw [hval] at this
  injection this with hs
  revert hs
  decide

/-- C16, amended: for every source name and every payload that is missing a legal name
and on which the mapping raises no exception, `normalizarDadosCNPJ` returns
`success = false` with the incomplete-data reason. -/
theorem normalizarDadosCNPJ_missing_name (rt : JSRuntime) (data : JSValue) (apiName : String)
    (hmap : ∀ e, mapearDados rt data apiName ≠ .error e)
    (hnome : (nomeLegal data apiName).truthy = false) :
    normalizarDadosCNPJ rt data apiName = .failure erroDadosIncompletos := by
  cases h : mapearDados rt data apiName with
  | error e => exact absurd h (hmap e)
  | ok registro =>
    rw [normalizarDadosCNPJ_of_ok rt data apiName registro h,
      razaoSocial_of_mapearDados rt data apiName registro h]
    have : (nomeLegal data apiName).orEmpty.truthy = false := by
      rw [JSValue.orEmpty, truthy_orElse, hnome]
      rfl
    simp [this]

/-- Witness for C16 (amended): the empty object as a BrasilAPI payload. -/
theorem normalizarDadosCNPJ_missing_name_witness :
    ((∀ e, mapearDados sampleRuntime (.object []) "BrasilAPI" ≠ .error e) ∧
      (nomeLegal (.object []) "BrasilAPI").truthy = false) ∧
    normalizarDadosCNPJ sampleRuntime (.object []) "BrasilAPI" = .failure erroDadosIncompletos :=
  have hmap : ∀ e, mapearDados sampleRuntime (.object []) "BrasilAPI" ≠ .error e := by
    intro e h
    have hv : mapearDados sampleRuntime (.object []) "BrasilAPI" =
        .ok (registroBrasilAPI (.object []) emptyText [] []) := by rfl
    rw [hv] at h
    cases h
  ⟨⟨hmap, by decide⟩,
   normalizarDadosCNPJ_missing_name sampleRuntime (.object []) "BrasilAPI" hmap (by decide)⟩

/-- C17: `normalizarDadosCNPJ` returns a result for every payload and source name: the
canonical record, the incomplete-data failure or the normalization-error failure; the
last one is returned exactly when the mapping raises an exception.  So it is for
`null`, for a non-object and for arrays whose elements are `null`. -/
theorem normalizarDadosCNPJ_total (rt : JSRuntime) (data : JSValue) (apiName : String) :
    ((∃ dados, normalizarDadosCNPJ rt data apiName = .success dados) ∨
      normalizarDadosCNPJ rt data apiName = .failure erroDadosIncompletos ∨
      normalizarDadosCNPJ rt data apiName = .failure erroProcessamento) ∧
    ((∃ e, mapearDados rt data apiName = .error e) ↔
      normalizarDadosCNPJ rt data apiName = .failure erroProcessamento) ∧
    normalizarDadosCNPJ rt .null "BrasilAPI" = .failure erroProcessamento ∧
    normalizarDadosCNPJ rt .null "ReceitaWS" = .failure erroProcessamento ∧
    normalizarDadosCNPJ rt (.string "texto") "BrasilAPI" = .failure erroDadosIncompletos ∧
    normalizarDadosCNPJ rt
        (.object [("razao_social", .string "ACME LTDA"), ("qsa", .array [.null])]) "BrasilAPI"
      = .failure erroProcessamento ∧
    normalizarDadosCNPJ rt
        (.object [("nome", .string "ACME LTDA"), ("atividades_secundarias", .array [.null])])
        "ReceitaWS"
      = .failure erroProcessamento := by
  have hne : erroDadosIncompletos ≠ erroProcessamento := by decide
  refine ⟨?_, ?_, rfl, rfl, rfl, rfl, rfl⟩
  · cases h : mapearDados rt data apiName with
    | error e => exact Or.inr (Or.inr (normalizarDadosCNPJ_of_error rt data apiName e h))
    | ok registro =>
      rw [normalizarDadosCNPJ_of_ok rt data apiName registro h]
      cases registro.razaoSocial.truthy
      · exact Or.inr (Or.inl rfl)
      · exact Or.inl ⟨registro, rfl⟩
  · constructor
    · rintro ⟨e, he⟩
      exact normalizarDadosCNPJ_of_error rt data apiName e he
    · intro hf
      cases h : mapearDados rt data apiName with
      | error e => exact ⟨e, rfl⟩
      | ok registro =>
        rw [normalizarDadosCNPJ_of_ok rt data apiName registro h] at hf
        cases ht : registro.razaoSocial.truthy <;> rw [ht] at hf
        · simp only [Bool.false_eq_true, if_false] at hf
          injection hf with hs
          exact absurd hs hne
        · simp at hf

/-- C19 at its failing input: a secondary activity without a code is mapped to a text
that starts with `undefined`, not with the empty string. -/
theorem normalizarDadosCNPJ_cnae_sem_codigo (rt : JSRuntime) :
    normalizarDadosCNPJ rt payloadCnaeSemCodigo "BrasilAPI" =
      .success (registroBrasilAPI payloadCnaeSemCodigo emptyText
        [.string "undefined - Comércio varejista"] []) := by
  rfl

/-- C20 at its failing input: for the source name `CNPJ.ws` the normalizer has no
branch, so every payload, with or without a legal name, gets the incomplete-data
failure, and the third source of `consultarCNPJ` never answers. -/
theorem normalizarDadosCNPJ_cnpjws_never_succeeds (rt : JSRuntime) :
    (∀ data, normalizarDadosCNPJ rt data "CNPJ.ws" = .failure erroDadosIncompletos) ∧
    normalizarDadosCNPJ rt payloadComNome "CNPJ.ws" = .failure erroDadosIncompletos ∧
    (∃ dados, normalizarDadosCNPJ rt payloadComNome "BrasilAPI" = .success dados) ∧
    (∃ dados, normalizarDadosCNPJ rt payloadComNome "ReceitaWS" = .success dados) ∧
    (∀ (fetch : Fetch) (url : String) (official : Bool),
      tentarApi rt fetch { name := "CNPJ.ws", url := url, official := official } = none) := by
  have hall : ∀ data, normalizarDadosCNPJ rt data "CNPJ.ws" = .failure erroDadosIncompletos :=
    fun _ => rfl
  refine ⟨hall, rfl, ⟨_, rfl⟩, ⟨_, rfl⟩, ?_⟩
  intro fetch url official
  unfold tentarApi
  cases fetch url with
  | error e => rfl
  | ok response =>
    simp only []
    split
    · rfl
    · cases response.json with
      | error e => rfl
      | ok data =>
        simp only [hall data]
        split <;> rfl

/-! ## The normalizer: the shape of a successful record -/

theorem mapearDados_ok_cases (rt : JSRuntime) (data : JSValue) (apiName : String)
    (registro : DadosCNPJ) (h : mapearDados rt data apiName = .ok registro) :
    (apiName = "BrasilAPI" ∧ data.isNullish = false ∧
      ∃ principal secundarias socios,
        atividadePrincipalBrasilAPI data = .ok principal ∧
        mapIfArray cnaeSecundario (data.prop "cnaes_secundarios") = .ok secundarias ∧
        mapIfArray socioBrasilAPI (data.prop "qsa") = .ok socios ∧
        registro = registroBrasilAPI data principal secundarias socios) ∨
    (apiName = "ReceitaWS" ∧ data.isNullish = false ∧
      ∃ principal secundarias socios,
        atividadePrincipalReceitaWS rt data = .ok principal ∧
        mapIfArray atividadeSecundaria (data.prop "atividades_secundarias") = .ok secundarias ∧
        mapIfArray socioReceitaWS (data.prop "qsa") = .ok socios ∧
        registro = registroReceitaWS data principal secundarias socios) ∨
    (apiName ≠ "BrasilAPI" ∧ apiName ≠ "ReceitaWS" ∧ registro = normalizedInicial) := by
  unfold mapearDados at h
  by_cases hb : apiName = "BrasilAPI"
  · rw [if_pos hb] at h
    refine Or.inl ⟨hb, ?_⟩
    cases hn : data.isNullish
    · rw [mapBrasilAPI_of_not_nullish data hn] at h
      cases h1 : atividadePrincipalBrasilAPI data <;> rw [h1] at h <;> try cases h
      cases h2 : mapIfArray cnaeSecundario (data.prop "cnaes_secundarios") <;> rw [h2] at h <;>
        try cases h
      cases h3 : mapIfArray socioBrasilAPI (data.prop "qsa") <;> rw [h3] at h <;> cases h
      exact ⟨rfl, _, _, _, rfl, rfl, rfl, rfl⟩
    · obtain ⟨e, he⟩ := mapBrasilAPI_of_nullish data hn
      rw [he] at h
      cases h
  · rw [if_neg hb] at h
    by_cases hr : apiName = "ReceitaWS"
    · rw [if_pos hr] at h
      refine Or.inr (Or.inl ⟨hr, ?_⟩)
      cases hn : data.isNullish
      · rw [mapReceitaWS_of_not_nullish rt data hn] at h
        cases h1 : atividadePrincipalReceitaWS rt data <;> rw [h1] at h <;> try cases h
        cases h2 : mapIfArray atividadeSecundaria (data.prop "atividades_secundarias") <;>
          rw [h2] at h <;> try cases h
        cases h3 : mapIfArray socioReceitaWS (data.prop "qsa") <;> rw [h3] at h <;> cases h
        exact ⟨rfl, _, _, _, rfl, rfl, rfl, rfl⟩
      · obtain ⟨e, he⟩ := mapReceitaWS_of_nullish rt data hn
        rw [he] at h
        cases h
    · rw [if_neg hr] at h
      cases h
      exact Or.inr (Or.inr ⟨hb, hr, rfl⟩)

theorem definido_of_truthy (v : JSValue) (h : v.truthy = true) : v.definido = true := by
  cases v <;> simp [JSValue.truthy] at h <;> rfl

theorem definido_orElse (a b : JSValue) (hb : b.definido = true) :
    (a.orElse b).definido = true := by
  unfold JSValue.orElse
  cases h : a.truthy
  · simpa using hb
  · simpa using definido_of_truthy a h

theorem definido_orEmpty (a : JSValue) : a.orEmpty.definido = true :=
  definido_orElse a _ rfl

theorem definido_emptyText : emptyText.definido = true := rfl

theorem definido_dashTemplate (a b v : JSValue) (h : JSValue.dashTemplate a b = .ok v) :
    v.definido = true := by
  unfold JSValue.dashTemplate at h
  cases ha : JSValue.toStr a <;> rw [ha] at h <;> simp only [] at h
  · cases h
  · cases hb : JSValue.toStr b <;> rw [hb] at h <;> simp only [] at h
    · cases h
    · cases h
      rfl

theorem definido_propOrEmpty (v : JSValue) (name : String) (r : JSValue)
    (h : propOrEmpty v name = .ok r) : r.definido = true := by
  cases hn : v.isNullish
  · rw [propOrEmpty_of_not_nullish v name hn] at h
    cases h
    exact definido_orEmpty _
  · obtain ⟨e, he⟩ := propOrEmpty_of_nullish v name hn
    rw [he] at h
    cases h

theorem mapElems_ok {α : Type} (f : JSValue → Except String α) (elems : List JSValue)
    (result : List α) (h : mapElems f elems = .ok result) :
    List.Forall₂ (fun v a => f v = .ok a) elems result := by
  induction elems generalizing result with
  | nil =>
    simp only [mapElems] at h
    cases h
    exact List.Forall₂.nil
  | cons v rest ih =>
    simp only [mapElems] at h
    cases hv : f v <;> rw [hv] at h <;> simp only [] at h
    · cases h
    · cases hr : mapElems f rest <;> rw [hr] at h <;> simp only [] at h
      · cases h
      · cases h
        exact List.Forall₂.cons hv (ih _ hr)

theorem mapIfArray_all {α : Type} (f : JSValue → Except String α) (p : α → Bool)
    (hp : ∀ v a, f v = .ok a → p a = true) (value : JSValue) (result : List α)
    (h : mapIfArray f value = .ok result) : result.all p = true := by
  have key : ∀ (elems : List JSValue) (result : List α),
      List.Forall₂ (fun v a => f v = .ok a) elems result → result.all p = true := by
    intro elems result hf
    induction hf with
    | nil => rfl
    | cons hva _ ih => simp [hp _ _ hva, ih]
  cases value with
  | array elems => exact key elems result (mapElems_ok f elems result h)
  | _ =>
    simp only [mapIfArray] at h
    cases h
    rfl

theorem mapIfArray_of_not_array {α : Type} (f : JSValue → Except String α) (value : JSValue)
    (result : List α) (hv : value.isArray = false) (h : mapIfArray f value = .ok result) :
    result = [] := by
  cases value <;> simp [JSValue.isArray] at hv <;> simp only [mapIfArray] at h <;> cases h <;>
    rfl

theorem definido_cnaeSecundario (v a : JSValue) (h : cnaeSecundario v = .ok a) :
    a.definido = true := by
  simp only [cnaeSecundario, bind, Except.bind] at h
  cases h1 : v.getProp "codigo" <;> rw [h1] at h <;> simp only [] at h
  · cases h
  · cases h2 : v.getProp "descricao" <;> rw [h2] at h <;> simp only [] at h
    · cases h
    · exact definido_dashTemplate _ _ _ h

theorem definido_atividadeSecundaria (v a : JSValue) (h : atividadeSecundaria v = .ok a) :
    a.definido = true := by
  simp only [atividadeSecundaria, bind, Except.bind] at h
  cases h1 : v.getProp "code" <;> rw [h1] at h <;> simp only [] at h
  · cases h
  · cases h2 : v.getProp "text" <;> rw [h2] at h <;> simp only [] at h
    · cases h
    · exact definido_dashTemplate _ _ _ h

theorem semNulos_socioBrasilAPI (v : JSValue) (socio : Socio) (h : socioBrasilAPI v = .ok socio) :
    socio.semNulos = true := by
  simp only [socioBrasilAPI, bind, Except.bind, pure, Except.pure] at h
  cases h1 : propOrEmpty v "nome_socio" <;> rw [h1] at h <;> simp only [] at h
  · cases h
  · cases h2 : propOrEmpty v "qualificacao_socio" <;> rw [h2] at h <;> simp only [] at h
    · cases h
    · cases h3 : propOrEmpty v "data_entrada_sociedade" <;> rw [h3] at h <;> simp only [] at h
      · cases h
      · cases h
        simp [Socio.semNulos, definido_propOrEmpty _ _ _ h1, definido_propOrEmpty _ _ _ h2,
          definido_propOrEmpty _ _ _ h3]

theorem semNulos_socioReceitaWS (v : JSValue) (socio : Socio) (h : socioReceitaWS v = .ok socio) :
    socio.semNulos = true := by
  simp only [socioReceitaWS, bind, Except.bind, pure, Except.pure] at h
  cases h1 : propOrEmpty v "nome" <;> rw [h1] at h <;> simp only [] at h
  · cases h
  · cases h2 : propOrEmpty v "qual" <;> rw [h2] at h <;> simp only [] at h
    · cases h
    · cases h
      simp [Socio.semNulos, definido_propOrEmpty _ _ _ h1, definido_propOrEmpty _ _ _ h2,
        definido_emptyText]

theorem atividadePrincipalBrasilAPI_ok (data principal : JSValue) (hn : data.isNullish = false)
    (h : atividadePrincipalBrasilAPI data = .ok principal) :
    principal.definido = true ∧
    ((data.prop "cnae_fiscal_principal").truthy = false → principal = emptyText) := by
  simp only [atividadePrincipalBrasilAPI, getProp_of_not_nullish data _ hn, bind, Except.bind,
    pure, Except.pure] at h
  cases ht : (data.prop "cnae_fiscal_principal").truthy <;> rw [ht] at h
  · simp only [Bool.false_eq_true, if_false] at h
    cases h
    exact ⟨rfl, fun _ => rfl⟩
  · simp only [if_true] at h
    refine ⟨?_, fun hc => by cases hc⟩
    cases h1 : (data.prop "cnae_fiscal_principal").getProp "codigo" <;> rw [h1] at h <;>
      simp only [] at h
    · cases h
    · cases h2 : (data.prop "cnae_fiscal_principal").getProp "descricao" <;> rw [h2] at h <;>
        simp only [] at h
      · cases h
      · exact definido_dashTemplate _ _ _ h

theorem atividadePrincipalReceitaWS_ok (rt : JSRuntime) (data principal : JSValue)
    (hn : data.isNullish = false) (h : atividadePrincipalReceitaWS rt data = .ok principal) :
    principal.definido = true ∧
    ((data.prop "atividade_principal").truthy = false → principal = emptyText) := by
  simp only [atividadePrincipalReceitaWS, getProp_of_not_nullish data _ hn, bind, Except.bind,
    pure, Except.pure] at h
  cases ht : (data.prop "atividade_principal").truthy <;> rw [ht] at h
  · simp only [Bool.false_eq_true, if_false] at h
    cases h
    exact ⟨rfl, fun _ => rfl⟩
  · simp only [if_true] at h
    refine ⟨?_, fun hc => by cases hc⟩
    cases h0 : (data.prop "atividade_principal").getProp "length" <;> rw [h0] at h <;>
      simp only [] at h
    · cases h
    · rename_i len
      cases hg : len.gtZero rt <;> rw [hg] at h <;> simp only [] at h
      · cases h
      · rename_i pos
        cases pos
        · simp only [Bool.false_eq_true, if_false] at h
          cases h
          rfl
        · simp only [if_true] at h
          cases h1 : (data.prop "atividade_principal").getProp "0" <;> rw [h1] at h <;>
            simp only [] at h
          · cases h
          · rename_i first
            cases h2 : first.getProp "code" <;> rw [h2] at h <;> simp only [] at h
            · cases h
            · cases h3 : first.getProp "text" <;> rw [h3] at h <;> simp only [] at h
              · cases h
              · exact definido_dashTemplate _ _ _ h

theorem prop_of_falsy (v : JSValue) (h : v.truthy = false) : v.prop "name" = .undefined := by
  cases v with
  | undefined => rfl
  | null => rfl
  | bool b => rfl
  | number n => rfl
  | string s =>
    have hs : s = "" := by simpa [JSValue.truthy] using h
    subst hs
    rfl
  | array elems => simp [JSValue.truthy] at h
  | object fields => simp [JSValue.truthy] at h

theorem orEmpty_of_falsy (v : JSValue) (h : v.truthy = false) : v.orEmpty = emptyText := by
  simp [JSValue.orEmpty, JSValue.orElse, h, emptyText]

/-- C18: when `normalizarDadosCNPJ` returns the canonical record, no field of it (nor of
its address, its secondary activities or its partners) is `null` or `undefined`; each
scalar field whose payload fields are all absent (or otherwise falsy) is the empty
string, and the list of secondary activities and the list of partners are empty when
the payload field is not an array. -/
theorem normalizarDadosCNPJ_sem_nulos (rt : JSRuntime) (data : JSValue) (apiName : String)
    (dados : DadosCNPJ) (h : normalizarDadosCNPJ rt data apiName = .success dados) :
    dados.semNulos = true ∧
    (∀ campo ∈ camposEscalares apiName,
      (∀ chave ∈ campo.2, (data.prop chave).truthy = false) → campo.1 dados = emptyText) ∧
    ((data.prop (campoAtividadesSecundarias apiName)).isArray = false →
      dados.atividadesSecundarias = []) ∧
    ((data.prop "qsa").isArray = false → dados.socios = []) := by
  cases hm : mapearDados rt data apiName with
  | error e =>
    rw [normalizarDadosCNPJ_of_error rt data apiName e hm] at h
    cases h
  | ok registro =>
    rw [normalizarDadosCNPJ_of_ok rt data apiName registro hm] at h
    cases ht : registro.razaoSocial.truthy <;> rw [ht] at h
    · simp at h
    · simp only [if_true, Normalizacao.success.injEq] at h
      subst h
      rcases mapearDados_ok_cases rt data apiName registro hm with
        ⟨hb, hn, principal, secundarias, socios, h1, h2, h3, hreg⟩ |
        ⟨hr, hn, principal, secundarias, socios, h1, h2, h3, hreg⟩ | ⟨_, _, hreg⟩
      · subst hb
        subst hreg
        have hp := atividadePrincipalBrasilAPI_ok data principal hn h1
        have hs := mapIfArray_all cnaeSecundario JSValue.definido definido_cnaeSecundario _ _ h2
        have hq := mapIfArray_all socioBrasilAPI Socio.semNulos semNulos_socioBrasilAPI _ _ h3
        refine ⟨?_, ?_, ?_, ?_⟩
        · simp [DadosCNPJ.semNulos, registroBrasilAPI, definido_orEmpty, definido_orElse,
            definido_emptyText, hp.1, hs, hq]
        · intro campo hc hk
          simp only [camposEscalares, if_true, List.mem_cons, List.mem_singleton,
            List.not_mem_nil, or_false] at hc
          rcases hc with rfl | rfl | rfl | rfl | rfl | rfl | rfl | rfl | rfl | rfl | rfl | rfl |
            rfl | rfl | rfl | rfl | rfl | rfl | rfl | rfl | rfl | rfl <;>
            simp only [List.mem_cons, List.mem_singleton, List.not_mem_nil, or_false,
              forall_eq_or_imp, forall_eq] at hk <;>
            first
              | rfl
              | exact orEmpty_of_falsy _ hk
              | exact hp.2 hk
              | (simp only [registroBrasilAPI]
                 rw [orElse_of_falsy _ _ hk.1]
                 first
                   | exact orEmpty_of_falsy _ hk.2
                   | (rw [prop_of_falsy _ hk.2]; rfl))
        · intro hna
          exact mapIfArray_of_not_array _ _ _ hna h2
        · intro hna
          exact mapIfArray_of_not_array _ _ _ hna h3
      · subst hr
        subst hreg
        have hp := atividadePrincipalReceitaWS_ok rt data principal hn h1
        have hs := mapIfArray_all atividadeSecundaria JSValue.definido
          definido_atividadeSecundaria _ _ h2
        have hq := mapIfArray_all socioReceitaWS Socio.semNulos semNulos_socioReceitaWS _ _ h3
        refine ⟨?_, ?_, ?_, ?_⟩
        · simp [DadosCNPJ.semNulos, registroReceitaWS, definido_orEmpty,
            definido_emptyText, hp.1, hs, hq]
        · intro campo hc hk
          have hne : ¬ ("ReceitaWS" = "BrasilAPI") := by decide
          simp only [camposEscalares, hne, if_false, if_true, List.mem_cons, List.mem_singleton,
            List.not_mem_nil, or_false] at hc
          rcases hc with rfl | rfl | rfl | rfl | rfl | rfl | rfl | rfl | rfl | rfl | rfl | rfl |
            rfl | rfl | rfl | rfl | rfl | rfl | rfl | rfl | rfl | rfl <;>
            simp only [List.mem_cons, List.mem_singleton, List.not_mem_nil, or_false,
              forall_eq_or_imp, forall_eq] at hk <;>
            first
              | rfl
              | exact orEmpty_of_falsy _ hk
              | exact hp.2 hk
        · intro hna
          exact mapIfArray_of_not_array _ _ _ hna h2
        · intro hna
          exact mapIfArray_of_not_array _ _ _ hna h3
      · subst hreg
        simp [normalizedInicial, truthy_emptyText] at ht

/-- Witness for C18: a BrasilAPI payload that carries only a legal name. -/
theorem normalizarDadosCNPJ_sem_nulos_witness :
    normalizarDadosCNPJ sampleRuntime payloadSoNome "BrasilAPI" =
      .success (registroBrasilAPI payloadSoNome emptyText [] []) ∧
    ((registroBrasilAPI payloadSoNome emptyText [] []).semNulos = true ∧
    (∀ campo ∈ camposEscalares "BrasilAPI",
      (∀ chave ∈ campo.2, (payloadSoNome.prop chave).truthy = false) →
        campo.1 (registroBrasilAPI payloadSoNome emptyText [] []) = emptyText) ∧
    ((payloadSoNome.prop (campoAtividadesSecundarias "BrasilAPI")).isArray = false →
      (registroBrasilAPI payloadSoNome emptyText [] []).atividadesSecundarias = []) ∧
    ((payloadSoNome.prop "qsa").isArray = false →
      (registroBrasilAPI payloadSoNome emptyText [] []).socios = [])) :=
  ⟨rfl,
   normalizarDadosCNPJ_sem_nulos sampleRuntime payloadSoNome "BrasilAPI"
     (registroBrasilAPI payloadSoNome emptyText [] []) rfl⟩

/-! ## The lookup orchestrator: first success wins -/

theorem tentarApi_eq_some_iff (rt : JSRuntime) (fetch : Fetch) (api : Api) (dados : DadosCNPJ) :
    tentarApi rt fetch api = some dados ↔ responde rt fetch api dados := by
  constructor
  · intro h
    unfold tentarApi at h
    cases hf : fetch api.url with
    | error e =>
      rw [hf] at h
      cases h
    | ok response =>
      rw [hf] at h
      simp only [] at h
      cases hok : response.ok
      · rw [hok] at h
        cases h
      · rw [hok] at h
        simp only [Bool.not_true, Bool.false_eq_true, if_false] at h
        cases hj : response.json with
        | error e =>
          rw [hj] at h
          cases h
        | ok data =>
          rw [hj] at h
          simp only [] at h
          by_cases hc : (!data.truthy || temMarcaDeErro data) = true
          · rw [if_pos hc] at h
            cases h
          · rw [if_neg hc] at h
            have hc' : data.truthy = true ∧ temMarcaDeErro data = false := by
              cases ht : data.truthy <;> cases hm : temMarcaDeErro data <;>
                simp [ht, hm] at hc ⊢
            cases hn : normalizarDadosCNPJ rt data api.name with
            | failure e =>
              rw [hn] at h
              cases h
            | success d =>
              rw [hn] at h
              simp only [Option.some.injEq] at h
              subst h
              exact ⟨response, data, hf, hok, hj, hc'.1, hc'.2, hn⟩
  · rintro ⟨response, data, hf, hok, hj, ht, hm, hn⟩
    simp [tentarApi, hf, hok, hj, ht, hm, hn]

theorem tentarApi_eq_none_iff (rt : JSRuntime) (fetch : Fetch) (api : Api) :
    tentarApi rt fetch api = none ↔ ∀ dados, ¬ responde rt fetch api dados := by
  constructor
  · intro h dados hr
    rw [(tentarApi_eq_some_iff rt fetch api dados).mpr hr] at h
    cases h
  · intro h
    cases ht : tentarApi rt fetch api with
    | none => rfl
    | some dados => exact absurd ((tentarApi_eq_some_iff rt fetch api dados).mp ht) (h dados)

theorem consultarApis_first (rt : JSRuntime) (fetch : Fetch) (now : Nat) (dados : DadosCNPJ)
    (api : Api) (lista : List Api) (i : Nat) (hapi : lista[i]? = some api)
    (hsome : tentarApi rt fetch api = some dados)
    (hfirst : ∀ j, j < i → ∀ anterior, lista[j]? = some anterior →
      tentarApi rt fetch anterior = none) :
    consultarApis rt fetch now lista =
      (.sucesso dados api.name api.official now, (lista.take (i + 1)).map Api.url) := by
  induction lista generalizing i with
  | nil => simp at hapi
  | cons a rest ih =>
    cases i with
    | zero =>
      simp only [List.getElem?_cons_zero, Option.some.injEq] at hapi
      subst hapi
      simp [consultarApis, hsome]
    | succ k =>
      have ha : tentarApi rt fetch a = none := hfirst 0 (Nat.succ_pos k) a (by simp)
      have hrest := ih k (by simpa using hapi)
        (fun j hj anterior hant => hfirst (j + 1) (Nat.succ_lt_succ hj) anterior
          (by simpa using hant))
      simp [consultarApis, ha, hrest]

theorem consultarApis_none (rt : JSRuntime) (fetch : Fetch) (now : Nat) (lista : List Api)
    (hnone : ∀ api ∈ lista, tentarApi rt fetch api = none) :
    consultarApis rt fetch now lista =
      (.falha "Não foi possível consultar o CNPJ no momento. Todas as APIs estão indisponíveis."
        "todas_apis_falharam" (some now), lista.map Api.url) := by
  induction lista with
  | nil => rfl
  | cons a rest ih =>
    have ha := hnone a (List.mem_cons_self _ _)
    have hrest := ih (fun api hapi => hnone api (List.mem_cons_of_mem _ hapi))
    simp [consultarApis, ha, hrest]

theorem length_cnpjLimpo (cnpj : String) :
    (cnpjLimpo cnpj).length = (cnpj.data.filter Char.isDigit).length := by
  simp [cnpjLimpo, String.length]

/-- C14: first success wins, in order.  For an identifier of 14 digits, when the source
at position `i` of BrasilAPI, ReceitaWS, CNPJ.ws is the first that answers with a
record, `consultarCNPJ` returns that record tagged with the name and the `official`
flag of that source and with the timestamp, and the requests made are exactly those
to the sources at positions `0..i`: no later source is requested. -/
theorem consultarCNPJ_first_success (rt : JSRuntime) (fetch : Fetch) (now : Nat) (cnpj : String)
    (i : Nat) (api : Api) (dados : DadosCNPJ)
    (h14 : (cnpj.data.filter Char.isDigit).length = 14)
    (hapi : (apis (cnpjLimpo cnpj))[i]? = some api)
    (hresp : responde rt fetch api dados)
    (hfirst : ∀ j, j < i → ∀ anterior, (apis (cnpjLimpo cnpj))[j]? = some anterior →
      ∀ d, ¬ responde rt fetch anterior d) :
    (apis (cnpjLimpo cnpj)).map Api.name = ["BrasilAPI", "ReceitaWS", "CNPJ.ws"] ∧
    consultarCNPJ rt fetch now cnpj =
      (.sucesso dados api.name api.official now,
        ((apis (cnpjLimpo cnpj)).take (i + 1)).map Api.url) := by
  refine ⟨rfl, ?_⟩
  have hlen : ¬ (cnpjLimpo cnpj).length ≠ 14 := by
    rw [length_cnpjLimpo, h14]
    simp
  unfold consultarCNPJ
  rw [if_neg hlen]
  exact consultarApis_first rt fetch now dados api _ i hapi
    ((tentarApi_eq_some_iff rt fetch api dados).mpr hresp)
    (fun j hj anterior hant =>
      (tentarApi_eq_none_iff rt fetch anterior).mpr (hfirst j hj anterior hant))

/-- Witness for C14: BrasilAPI is unreachable and ReceitaWS answers; CNPJ.ws is not
requested. -/
theorem consultarCNPJ_first_success_witness :
    consultarCNPJ sampleRuntime fetchSoReceitaWS 1000 "11.222.333/0001-81" =
      (.sucesso (registroReceitaWS payloadComNome emptyText [] []) "ReceitaWS" false 1000,
        ["https://brasilapi.com.br/api/cnpj/v1/11222333000181",
         "https://www.receitaws.com.br/v1/cnpj/11222333000181"]) :=
  (consultarCNPJ_first_success sampleRuntime fetchSoReceitaWS 1000 "11.222.333/0001-81" 1
    { name := "ReceitaWS", url := "https://www.receitaws.com.br/v1/cnpj/11222333000181",
      official := false }
    (registroReceitaWS payloadComNome emptyText [] [])
    (by decide) (by decide)
    ⟨{ status := 200, json := .ok payloadComNome }, payloadComNome, rfl, by decide, rfl,
      by decide, by decide, rfl⟩
    (by
      intro j hj anterior hant d hd
      have hj0 : j = 0 := by omega
      subst hj0
      have hant' : anterior =
          { name := "BrasilAPI", url := "https://brasilapi.com.br/api/cnpj/v1/11222333000181",
            official := true } := by
        have : (apis (cnpjLimpo "11.222.333/0001-81"))[0]? =
            some { name := "BrasilAPI",
                   url := "https://brasilapi.com.br/api/cnpj/v1/11222333000181",
                   official := true } := by decide
        rw [this] at hant
        injection hant with hant
        exact hant.symm
      subst hant'
      obtain ⟨response, data, hf, _⟩ := hd
      have hfe : fetchSoReceitaWS "https://brasilapi.com.br/api/cnpj/v1/11222333000181" =
          .error "fetch failed" := rfl
      rw [hfe] at hf
      cases hf)).2

/-- C15: for an identifier of 14 digits, when no source answers with a record, whatever
made each of them fail, `consultarCNPJ` returns the failure tagged
`todas_apis_falharam` with the timestamp, after one request to every source, in
order. -/
theorem consultarCNPJ_all_failed (rt : JSRuntime) (fetch : Fetch) (now : Nat) (cnpj : String)
    (h14 : (cnpj.data.filter Char.isDigit).length = 14)
    (hnone : ∀ api ∈ apis (cnpjLimpo cnpj), ∀ dados, ¬ responde rt fetch api dados) :
    consultarCNPJ rt fetch now cnpj =
      (.falha "Não foi possível consultar o CNPJ no momento. Todas as APIs estão indisponíveis."
        "todas_apis_falharam" (some now),
       ["https://brasilapi.com.br/api/cnpj/v1/" ++ cnpjLimpo cnpj,
        "https://www.receitaws.com.br/v1/cnpj/" ++ cnpjLimpo cnpj,
        "https://cnpj.ws/cnpj/" ++ cnpjLimpo cnpj]) := by
  have hlen : ¬ (cnpjLimpo cnpj).length ≠ 14 := by
    rw [length_cnpjLimpo, h14]
    simp
  unfold consultarCNPJ
  rw [if_neg hlen]
  exact consultarApis_none rt fetch now _
    (fun api hapi => (tentarApi_eq_none_iff rt fetch api).mpr (hnone api hapi))

/-- Witness for C15: every request is rejected. -/
theorem consultarCNPJ_all_failed_witness :
    consultarCNPJ sampleRuntime offlineFetch 1000 "11.222.333/0001-81" =
      (.falha "Não foi possível consultar o CNPJ no momento. Todas as APIs estão indisponíveis."
        "todas_apis_falharam" (some 1000),
       ["https://brasilapi.com.br/api/cnpj/v1/" ++ cnpjLimpo "11.222.333/0001-81",
        "https://www.receitaws.com.br/v1/cnpj/" ++ cnpjLimpo "11.222.333/0001-81",
        "https://cnpj.ws/cnpj/" ++ cnpjLimpo "11.222.333/0001-81"]) :=
  consultarCNPJ_all_failed sampleRuntime offlineFetch 1000 "11.222.333/0001-81" (by decide)
    (by
      intro api _ dados hd
      obtain ⟨response, data, hf, _⟩ := hd
      cases hf)

/-! ## The form validator -/

theorem pushIf_eq (errors : List String) (condicao : Bool) (mensagem : String) :
    pushIf errors condicao mensagem = errors ++ (if condicao then [mensagem] else []) := by
  cases condicao <;> simp [pushIf]

theorem trimmedLength_empty : trimmedLength "" = 0 := by decide

theorem ausenteOuCurto_eq (campo : Option String) (minimo : Nat) (h : 0 < minimo) :
    ausenteOuCurto campo minimo = decide (trimmedLength (campo.getD "") < minimo) := by
  cases campo with
  | none => simp [ausenteOuCurto, trimmedLength_empty, h]
  | some s =>
    by_cases hs : s = ""
    · subst hs
      simp [ausenteOuCurto, trimmedLength_empty, h]
    · simp [ausenteOuCurto, hs]

theorem campoVazio_eq (campo : Option String) :
    campoVazio campo = decide (campo.getD "" = "") := by
  cases campo <;> simp [campoVazio]

theorem emailInvalido_eq (campo : Option String) :
    (match campo with
      | none => true
      | some email => decide (email = "") || !emailRegexTest email)
      = !emailRegexTest (campo.getD "") := by
  have h0 : emailRegexTest "" = false := by decide
  cases campo with
  | none => simp [h0]
  | some s =>
    by_cases hs : s = ""
    · subst hs
      simp [h0]
    · simp [hs]

theorem filterMap_id_cons (o : Option String) (rest : List (Option String)) :
    (o :: rest).filterMap id = o.toList ++ rest.filterMap id := by
  cases o <;> simp [List.filterMap_cons]

theorem validateFormData_errors (data : FormData) :
    (validateFormData data).errors =
      (if trimmedLength (data.nomeCompleto.getD "") < 2 then
          ["Nome completo é obrigatório e deve ter pelo menos 2 caracteres"] else []) ++
      ((if emailRegexTest (data.email.getD "") then [] else ["Email válido é obrigatório"]) ++
      ((if trimmedLength (data.telefone.getD "") < 10 then ["Telefone válido é obrigatório"]
          else []) ++
      ((if trimmedLength (data.empresa.getD "") < 2 then ["Nome da empresa é obrigatório"]
          else []) ++
      ((if trimmedLength (data.cnpj.getD "") < 14 then ["CNPJ é obrigatório e deve ser válido"]
          else if ((data.cnpj.getD "").data.filter Char.isDigit).length ≠ 14 then
            ["CNPJ deve conter 14 dígitos"]
          else []) ++
      ((if data.tempoExistencia.getD "" = "" then
          ["Tempo de existência da empresa é obrigatório"] else []) ++
      ((if data.faturamentoAnual.getD "" = "" then ["Faturamento anual é obrigatório"]
          else []) ++
      ((if data.tipoConsultoria.getD "" = "" then ["Tipo de consultoria é obrigatório"]
          else []) ++
      (if trimmedLength (data.mensagem.getD "") < 5 then
          ["Descrição do projeto é obrigatória e deve ter pelo menos 5 caracteres"]
        else [])))))))) := by
  simp only [validateFormData, pushIf_eq, ausenteOuCurto_eq _ _ (by decide : 0 < 2),
    ausenteOuCurto_eq _ _ (by decide : 0 < 10), ausenteOuCurto_eq _ _ (by decide : 0 < 14),
    ausenteOuCurto_eq _ _ (by decide : 0 < 5), campoVazio_eq, emailInvalido_eq,
    List.nil_append, List.append_assoc, apenasDigitos, String.length]
  by_cases h1 : trimmedLength (data.nomeCompleto.getD "") < 2 <;>
  by_cases h2 : emailRegexTest (data.email.getD "") = true <;>
  by_cases h5 : trimmedLength (data.cnpj.getD "") < 14 <;>
  by_cases h6 : ((data.cnpj.getD "").data.filter Char.isDigit).length = 14 <;>
  simp [h1, h2, h5, h6]

theorem toList_ite (c : Prop) [Decidable c] (m : String) :
    (if c then some m else none).toList = if c then [m] else [] := by
  split <;> rfl

theorem toList_ite_not (c : Prop) [Decidable c] (m : String) :
    (if c then none else some m).toList = if c then [] else [m] := by
  split <;> rfl

theorem toList_ite_ite (c d : Prop) [Decidable c] [Decidable d] (m n : String) :
    (if c then some m else if d then some n else none).toList =
      if c then [m] else if d then [n] else [] := by
  split
  · rfl
  · split <;> rfl

theorem validateFormData_isValid (data : FormData) :
    (validateFormData data).isValid = decide ((validateFormData data).errors = []) := by
  simp only [validateFormData]
  exact decide_eq_decide.mpr List.length_eq_zero

/-- C21: `validateFormData` reports all problems at once: `errors` is exactly the list
of the messages of the failing per-field checks, in the order of the form and with at
most one message for each of the nine fields, and `isValid` is true iff `errors` is
empty. -/
theorem validateFormData_collects (data : FormData) :
    (validateFormData data).errors = (problemasPorCampo data).filterMap id ∧
    (problemasPorCampo data).length = 9 ∧
    ((validateFormData data).isValid = true ↔ (validateFormData data).errors = []) := by
  refine ⟨?_, rfl, ?_⟩
  · rw [validateFormData_errors]
    simp only [problemasPorCampo, filterMap_id_cons, List.filterMap_nil, List.append_nil,
      toList_ite, toList_ite_not, toList_ite_ite]
  · rw [validateFormData_isValid]
    simp

/-- The validator on two sample records: a complete one, and the empty form, for which
all nine messages come back in order. -/
theorem validateFormData_samples :
    validateFormData formularioValido = { isValid := true, errors := [] } ∧
    validateFormData
        { nomeCompleto := none, email := none, telefone := none, empresa := none, cnpj := none,
          tempoExistencia := none, faturamentoAnual := none, tipoConsultoria := none,
          mensagem := none, outrosDocumentos := none } =
      { isValid := false,
        errors :=
          ["Nome completo é obrigatório e deve ter pelo menos 2 caracteres",
           "Email válido é obrigatório", "Telefone válido é obrigatório",
           "Nome da empresa é obrigatório", "CNPJ é obrigatório e deve ser válido",
           "Tempo de existência da empresa é obrigatório", "Faturamento anual é obrigatório",
           "Tipo de consultoria é obrigatório",
           "Descrição do projeto é obrigatória e deve ter pelo menos 5 caracteres"] } ∧
    (validateFormData { formularioValido with cnpj := some "11.222.333/0001-8x" }).errors =
      ["CNPJ deve conter 14 dígitos"] := by
  decide

/-- The regular expression of line 445 on sample texts. -/
theorem emailRegexTest_samples :
    emailRegexTest "maria@acme.com.br" = true ∧ emailRegexTest "a@b.c" = true ∧
    emailRegexTest "a@..c" = true ∧ emailRegexTest "maria@acme" = false ∧
    emailRegexTest "maria souza@acme.com" = false ∧ emailRegexTest "maria@@acme.com" = false ∧
    emailRegexTest "a@b@c.d" = false ∧ emailRegexTest "@acme.com" = false ∧
    emailRegexTest "maria@.com" = false ∧ emailRegexTest "maria@acme." = false ∧
    emailRegexTest "" = false := by
  decide

theorem cnpj_of_valid (data : FormData) (h : (validateFormData data).isValid = true) :
    ∃ cnpj, data.cnpj = some cnpj ∧ cnpj ≠ "" ∧ (cnpj.data.filter Char.isDigit).length = 14 := by
  rw [validateFormData_isValid] at h
  have herr : (validateFormData data).errors = [] := by simpa using h
  rw [validateFormData_errors] at herr
  simp only [List.append_eq_nil] at herr
  obtain ⟨_, _, _, _, hc, _⟩ := herr
  by_cases h5 : trimmedLength (data.cnpj.getD "") < 14
  · simp [h5] at hc
  · by_cases h6 : ((data.cnpj.getD "").data.filter Char.isDigit).length = 14
    · cases hcn : data.cnpj with
      | none =>
        rw [hcn] at h5
        exact absurd (by simp [trimmedLength_empty]) h5
      | some cnpj =>
        rw [hcn] at h5 h6
        refine ⟨cnpj, rfl, ?_, by simpa using h6⟩
        intro hc0
        rw [hc0] at h5
        exact h5 (by simp [trimmedLength_empty])
    · simp [h5, h6] at hc

theorem consultarApis_resultado (rt : JSRuntime) (fetch : Fetch) (now : Nat) (lista : List Api) :
    (∃ dados api, api ∈ lista ∧
      (consultarApis rt fetch now lista).1 = .sucesso dados api.name api.official now) ∨
    (consultarApis rt fetch now lista).1 =
      .falha "Não foi possível consultar o CNPJ no momento. Todas as APIs estão indisponíveis."
        "todas_apis_falharam" (some now) := by
  induction lista with
  | nil => exact Or.inr rfl
  | cons api rest ih =>
    cases ht : tentarApi rt fetch api with
    | some dados =>
      refine Or.inl ⟨dados, api, List.mem_cons_self _ _, ?_⟩
      simp [consultarApis, ht]
    | none =>
      rcases ih with ⟨dados, a, ha, hr⟩ | hr
      · refine Or.inl ⟨dados, a, List.mem_cons_of_mem _ ha, ?_⟩
        simp [consultarApis, ht, hr]
      · refine Or.inr ?_
        simp [consultarApis, ht, hr]

theorem consultarApis_primeira (rt : JSRuntime) (fetch : Fetch) (now : Nat) (api : Api)
    (rest : List Api) :
    (consultarApis rt fetch now (api :: rest)).2.head? = some api.url := by
  cases ht : tentarApi rt fetch api <;> simp [consultarApis, ht]

theorem consultarCNPJ_of_14 (rt : JSRuntime) (fetch : Fetch) (now : Nat) (cnpj : String)
    (h14 : (cnpj.data.filter Char.isDigit).length = 14) :
    consultarCNPJ rt fetch now cnpj = consultarApis rt fetch now (apis (cnpjLimpo cnpj)) := by
  have hlen : ¬ (cnpjLimpo cnpj).length ≠ 14 := by
    rw [length_cnpjLimpo, h14]
    simp
  unfold consultarCNPJ
  rw [if_neg hlen]

/-- C26: the form validator and the orchestrator agree on the identifier.  A form record
that `validateFormData` accepts carries an identifier with exactly 14 digits, so
`consultarCNPJ` called on it never returns the failure tagged `validacao`: it runs the
loop over the sources, and its first request goes to BrasilAPI. -/
theorem validateFormData_agrees_with_consultarCNPJ (data : FormData)
    (h : (validateFormData data).isValid = true) :
    ∃ cnpj, data.cnpj = some cnpj ∧ (cnpj.data.filter Char.isDigit).length = 14 ∧
      ∀ (rt : JSRuntime) (fetch : Fetch) (now : Nat),
        consultarCNPJ rt fetch now cnpj = consultarApis rt fetch now (apis (cnpjLimpo cnpj)) ∧
        (∀ e t, (consultarCNPJ rt fetch now cnpj).1 ≠ .falha e "validacao" t) ∧
        (consultarCNPJ rt fetch now cnpj).2.head? =
          some ("https://brasilapi.com.br/api/cnpj/v1/" ++ cnpjLimpo cnpj) := by
  obtain ⟨cnpj, hc, _, h14⟩ := cnpj_of_valid data h
  refine ⟨cnpj, hc, h14, ?_⟩
  intro rt fetch now
  have heq := consultarCNPJ_of_14 rt fetch now cnpj h14
  refine ⟨heq, ?_, ?_⟩
  · intro e t hf
    rw [heq] at hf
    rcases consultarApis_resultado rt fetch now (apis (cnpjLimpo cnpj)) with
      ⟨dados, api, _, hr⟩ | hr
    · rw [hr] at hf
      cases hf
    · rw [hr] at hf
      injection hf with _ hsrc _
      revert hsrc
      decide
  · rw [heq]
    exact consultarApis_primeira rt fetch now _ _

/-- Witness for C26: the sample form record. -/
theorem validateFormData_agrees_with_consultarCNPJ_witness :
    (validateFormData formularioValido).isValid = true ∧
    ∃ cnpj, formularioValido.cnpj = some cnpj ∧ (cnpj.data.filter Char.isDigit).length = 14 ∧
      ∀ (rt : JSRuntime) (fetch : Fetch) (now : Nat),
        consultarCNPJ rt fetch now cnpj = consultarApis rt fetch now (apis (cnpjLimpo cnpj)) ∧
        (∀ e t, (consultarCNPJ rt fetch now cnpj).1 ≠ .falha e "validacao" t) ∧
        (consultarCNPJ rt fetch now cnpj).2.head? =
          some ("https://brasilapi.com.br/api/cnpj/v1/" ++ cnpjLimpo cnpj) :=
  ⟨by decide, validateFormData_agrees_with_consultarCNPJ formularioValido (by decide)⟩

/-! ## The consultancy request handler: rejected forms -/

theorem removeUploadedFile_eq (disk : Disk) (file : FileDesc) :
    removeUploadedFile disk file = removeLinkFile disk file := by
  unfold removeUploadedFile removeLinkFile
  cases h : existsSync disk file.path
  · simp
  · have hp : file.path ≠ "" := by
      intro hc
      simp [existsSync, hc] at h
    simp [hp]

theorem cleanupFiles_eq_foldl (list : List FileDesc) (disk : Disk) :
    cleanupFiles (some list) disk = list.foldl removeLinkFile disk := by
  have hfun : removeUploadedFile = removeLinkFile := by
    funext d f
    exact removeUploadedFile_eq d f
  cases list with
  | nil => rfl
  | cons f rest => simp [cleanupFiles, hfun]

theorem existsSync_cleanupFiles (list : List FileDesc) (disk : Disk) (file : FileDesc)
    (hf : file ∈ list) : existsSync (cleanupFiles (some list) disk) file.path = false := by
  by_cases hp : file.path = ""
  · simp [existsSync, hp]
  · have hnot : file.path ∉ cleanupFiles (some list) disk := by
      rw [cleanupFiles_eq_foldl, mem_foldl_removeLinkFile]
      rintro ⟨_, hn⟩
      exact hn ⟨file, hf, hp, rfl⟩
    simp [existsSync, hnot]

/-- C22: for a request whose form data fails `validateFormData`, the handler of
`POST /api/consultoria` answers 400 with `success: false` and exactly the list of
validation errors, none of the uploaded files of the request exists afterwards, no
lookup source is requested, no mail is handed to `sendMail` and the map of links is
unchanged. -/
theorem consultoriaHandler_rejects (rt : JSRuntime) (amb : Ambiente) (fetch : Fetch)
    (sendMail : MailOptions → Bool) (instantes : Instantes) (randomBytes : List Nat)
    (req : Requisicao) (s : Server) (h : (validateFormData req.body).isValid = false) :
    (consultoriaHandler rt amb fetch sendMail instantes randomBytes req s).resposta =
      .invalida (validateFormData req.body).errors ∧
    (consultoriaHandler rt amb fetch sendMail instantes randomBytes req s).consultas = [] ∧
    (consultoriaHandler rt amb fetch sendMail instantes randomBytes req s).emails = [] ∧
    (consultoriaHandler rt amb fetch sendMail instantes randomBytes req s).estado.tempLinks =
      s.tempLinks ∧
    (∀ file ∈ req.files.getD [],
      existsSync
        (consultoriaHandler rt amb fetch sendMail instantes randomBytes req s).estado.disk
        file.path = false) := by
  have hr : consultoriaHandler rt amb fetch sendMail instantes randomBytes req s =
      { resposta := .invalida (validateFormData req.body).errors,
        estado := { s with disk := cleanupRequestFiles req.files s.disk },
        consultas := [], emails := [] } := by
    simp [consultoriaHandler, h]
  rw [hr]
  refine ⟨rfl, rfl, rfl, rfl, ?_⟩
  intro file hfile
  cases hfs : req.files with
  | none =>
    rw [hfs] at hfile
    simp at hfile
  | some list =>
    rw [hfs] at hfile
    exact existsSync_cleanupFiles list s.disk file (by simpa using hfile)

/-- Witness for C22: a form without email and one uploaded file that is on disk. -/
theorem consultoriaHandler_rejects_witness :
    (validateFormData pedidoInvalido.body).isValid = false ∧
    ((consultoriaHandler sampleRuntime sampleAmbiente offlineFetch (fun _ => true)
        sampleInstantes [1, 2, 3, 4, 5, 6, 7, 8] pedidoInvalido
        { tempLinks := oneHourStore, disk := ["uploads/1700000000000_balan_o.pdf"] }).resposta =
      .invalida (validateFormData pedidoInvalido.body).errors ∧
    (consultoriaHandler sampleRuntime sampleAmbiente offlineFetch (fun _ => true)
        sampleInstantes [1, 2, 3, 4, 5, 6, 7, 8] pedidoInvalido
        { tempLinks := oneHourStore, disk := ["uploads/1700000000000_balan_o.pdf"] }).consultas
      = [] ∧
    (consultoriaHandler sampleRuntime sampleAmbiente offlineFetch (fun _ => true)
        sampleInstantes [1, 2, 3, 4, 5, 6, 7, 8] pedidoInvalido
        { tempLinks := oneHourStore, disk := ["uploads/1700000000000_balan_o.pdf"] }).emails
      = [] ∧
    (consultoriaHandler sampleRuntime sampleAmbiente offlineFetch (fun _ => true)
        sampleInstantes [1, 2, 3, 4, 5, 6, 7, 8] pedidoInvalido
        { tempLinks := oneHourStore,
          disk := ["uploads/1700000000000_balan_o.pdf"] }).estado.tempLinks = oneHourStore ∧
    (∀ file ∈ pedidoInvalido.files.getD [],
      existsSync
        (consultoriaHandler sampleRuntime sampleAmbiente offlineFetch (fun _ => true)
          sampleInstantes [1, 2, 3, 4, 5, 6, 7, 8] pedidoInvalido
          { tempLinks := oneHourStore,
            disk := ["uploads/1700000000000_balan_o.pdf"] }).estado.disk
        file.path = false)) :=
  ⟨by decide,
   consultoriaHandler_rejects sampleRuntime sampleAmbiente offlineFetch (fun _ => true)
     sampleInstantes [1, 2, 3, 4, 5, 6, 7, 8] pedidoInvalido
     { tempLinks := oneHourStore, disk := ["uploads/1700000000000_balan_o.pdf"] } (by decide)⟩

/-- The run of the witness for C22, evaluated: the answer carries the one message and
the uploaded file is gone from the disk. -/
theorem consultoriaHandler_rejects_sample :
    (consultoriaHandler sampleRuntime sampleAmbiente offlineFetch (fun _ => true)
        sampleInstantes [1, 2, 3, 4, 5, 6, 7, 8] pedidoInvalido
        { tempLinks := oneHourStore, disk := ["uploads/1700000000000_balan_o.pdf"] }).resposta =
      .invalida ["Email válido é obrigatório"] ∧
    (consultoriaHandler sampleRuntime sampleAmbiente offlineFetch (fun _ => true)
        sampleInstantes [1, 2, 3, 4, 5, 6, 7, 8] pedidoInvalido
        { tempLinks := oneHourStore, disk := ["uploads/1700000000000_balan_o.pdf"] }).estado.disk
      = [] := by
  decide

/-! ## The notification email: the notice of a failed lookup -/

theorem string_append_assoc3 (a b c : String) : (a ++ b) ++ c = a ++ (b ++ c) := by
  apply String.ext
  simp [List.append_assoc]

theorem ocorreEm_self_append (parte depois : String) : ocorreEm parte (parte ++ depois) :=
  ⟨"", depois, by apply String.ext; simp⟩

theorem ocorreEm_append_right (parte antes texto : String) (h : ocorreEm parte texto) :
    ocorreEm parte (antes ++ texto) := by
  obtain ⟨a, d, rfl⟩ := h
  exact ⟨antes ++ a, d, by apply String.ext; simp [List.append_assoc]⟩

theorem ocorreEm_append_left (parte texto depois : String) (h : ocorreEm parte texto) :
    ocorreEm parte (texto ++ depois) := by
  obtain ⟨a, d, rfl⟩ := h
  exact ⟨a, d ++ depois, by apply String.ext; simp [List.append_assoc]⟩

theorem concatM_ocorre (partes : List (Except String String)) (h : todasOk partes = true)
    (parte : String) (hm : Except.ok parte ∈ partes) :
    ∃ texto, concatM partes = .ok texto ∧ ocorreEm parte texto := by
  have htotal : ∀ l : List (Except String String), todasOk l = true →
      ∃ t, concatM l = .ok t := by
    intro l
    induction l with
    | nil => exact fun _ => ⟨"", rfl⟩
    | cons x rest ih =>
      intro hx
      cases x with
      | error e => simp [todasOk] at hx
      | ok a =>
        obtain ⟨b, hb⟩ := ih (by simpa [todasOk] using hx)
        exact ⟨a ++ b, by simp [concatM, hb]⟩
  induction partes with
  | nil => simp at hm
  | cons x rest ih =>
    cases x with
    | error e => simp [todasOk] at h
    | ok a =>
      have hrest : todasOk rest = true := by simpa [todasOk] using h
      obtain ⟨b, hb⟩ := htotal rest hrest
      refine ⟨a ++ b, by simp [concatM, hb], ?_⟩
      rcases List.mem_cons.mp hm with hhead | htail
      · injection hhead with hhead
        subst hhead
        exact ocorreEm_self_append _ _
      · obtain ⟨t, ht, hoc⟩ := ih hrest htail
        rw [hb] at ht
        injection ht with ht
        subst ht
        exact ocorreEm_append_right _ _ _ hoc

theorem ocorreEm_foldl_append (parte : String) (textos : List String) (inicio : String)
    (h : parte ∈ textos ∨ ocorreEm parte inicio) :
    ocorreEm parte (textos.foldl (fun r t => r ++ t) inicio) := by
  induction textos generalizing inicio with
  | nil =>
    rcases h with h | h
    · simp at h
    · exact h
  | cons t rest ih =>
    rw [List.foldl_cons]
    apply ih
    rcases h with h | h
    · rcases List.mem_cons.mp h with rfl | hr
      · exact Or.inr ⟨inicio, "", by apply String.ext; simp⟩
      · exact Or.inl hr
    · exact Or.inr (ocorreEm_append_left _ _ _ h)

theorem avisoFalhaConsulta_ocorre (amb : Ambiente) (error source : String)
    (consultedAt : Option Nat) :
    ocorreEm error (avisoFalhaConsulta amb error source consultedAt) := by
  unfold avisoFalhaConsulta String.join
  apply ocorreEm_foldl_append
  left
  simp

/-! ## The listing route and the download budget -/

theorem validateTempLink_valid_inv (now : Nat) (linkId : String) (tempLinks tl : TempLinks)
    (link : TempLink) (h : validateTempLink now linkId tempLinks = (.valid link, tl)) :
    tempLinks.get linkId = some link ∧ link.active = true ∧ now ≤ link.expiresAt ∧
      link.downloads < link.maxDownloads ∧ tl = tempLinks := by
  cases hget : tempLinks.get linkId with
  | none =>
    rw [validateTempLink_of_none now linkId tempLinks hget] at h
    cases h
  | some stored =>
    rw [validateTempLink_of_some now linkId tempLinks stored hget] at h
    split at h
    · cases h
    · split at h
      · cases h
      · split at h
        · cases h
        · rename_i hact hexp hex
          cases h
          refine ⟨rfl, ?_, by omega, by omega, rfl⟩
          simpa using hact

theorem restante_of_invalid (now : Nat) (linkId reason : String) (tempLinks tl : TempLinks)
    (h : validateTempLink now linkId tempLinks = (.invalid reason, tl)) :
    restante tl linkId = 0 := by
  cases hget : tempLinks.get linkId with
  | none =>
    rw [validateTempLink_of_none now linkId tempLinks hget] at h
    cases h
    simp [restante, hget]
  | some stored =>
    rw [validateTempLink_of_some now linkId tempLinks stored hget] at h
    split at h
    · rename_i hact
      cases h
      simp [restante, hget, hact]
    · split at h
      · cases h
        simp [restante, TempLinks.get_set_self]
      · split at h
        · cases h
          simp [restante, TempLinks.get_set_self]
        · cases h

theorem restante_incrementDownload (linkId : String) (tempLinks : TempLinks) (link : TempLink)
    (hget : tempLinks.get linkId = some link) (hact : link.active = true)
    (hbud : link.downloads < link.maxDownloads) :
    restante (incrementDownload linkId tempLinks) linkId + 1 = restante tempLinks linkId := by
  rw [incrementDownload_of_some linkId tempLinks link hget]
  simp only [restante, TempLinks.get_set_self, hget, hact, if_true]
  omega

theorem downloadZipRoute_restante (now : Nat) (linkId : String) (s : Server) :
    restante (downloadZipRoute now linkId s).2.tempLinks linkId ≤
      restante s.tempLinks linkId - 1 := by
  cases hv : validateTempLink now linkId s.tempLinks with
  | mk v tl =>
    cases v with
    | invalid reason =>
      have h0 := restante_of_invalid now linkId reason s.tempLinks tl hv
      simp only [downloadZipRoute, hv, h0]
      exact Nat.zero_le _
    | valid link =>
      obtain ⟨hget, hact, _, hbud, htl⟩ := validateTempLink_valid_inv now linkId s.tempLinks tl
        link hv
      subst htl
      have hr := restante_incrementDownload linkId s.tempLinks link hget hact hbud
      simp only [downloadZipRoute, hv]
      omega

theorem downloadFileRoute_restante (now : Nat) (linkId filename : String) (s : Server) :
    entregas [(downloadFileRoute now linkId filename s).1] +
        restante (downloadFileRoute now linkId filename s).2.tempLinks linkId ≤
      restante s.tempLinks linkId := by
  cases hv : validateTempLink now linkId s.tempLinks with
  | mk v tl =>
    cases v with
    | invalid reason =>
      have h0 := restante_of_invalid now linkId reason s.tempLinks tl hv
      simp [downloadFileRoute, hv, h0, entregas, Response.isDownload]
    | valid link =>
      obtain ⟨hget, hact, _, hbud, htl⟩ := validateTempLink_valid_inv now linkId s.tempLinks tl
        link hv
      subst htl
      have hr := restante_incrementDownload linkId s.tempLinks link hget hact hbud
      unfold downloadFileRoute
      rw [hv]
      simp only
      split
      · simp [entregas, Response.isDownload]
      · split
        · simp [entregas, Response.isDownload]
        · split
          · simp [entregas, Response.isDownload]
          · split
            · simp [entregas, Response.isDownload]
            · simp only [entregas, List.countP_cons, List.countP_nil, Response.isDownload,
                if_true]
              omega

theorem downloadZipRepeatedly_restante (linkId : String) (times : List Nat) :
    ∀ s : Server,
      restante (downloadZipRepeatedly linkId times s).tempLinks linkId ≤
        restante s.tempLinks linkId - times.length := by
  induction times with
  | nil => intro s; simp [downloadZipRepeatedly]
  | cons now later ih =>
    intro s
    have h1 := downloadZipRoute_restante now linkId s
    have h2 := ih (downloadZipRoute now linkId s).2
    simp only [downloadZipRepeatedly, List.length_cons]
    omega

theorem downloadFiles_restante (linkId : String) (pedidos : List (Nat × String)) :
    ∀ s : Server,
      entregas (downloadFiles linkId pedidos s).1 ≤ restante s.tempLinks linkId := by
  induction pedidos with
  | nil => intro s; simp [downloadFiles, entregas]
  | cons pedido later ih =>
    intro s
    have h1 := downloadFileRoute_restante pedido.1 linkId pedido.2 s
    have h2 := ih (downloadFileRoute pedido.1 linkId pedido.2 s).2
    simp only [downloadFiles, entregas, List.countP_cons, List.countP_nil] at *
    omega

theorem restante_le (tempLinks : TempLinks) (linkId : String) (link : TempLink)
    (hget : tempLinks.get linkId = some link) :
    restante tempLinks linkId ≤ link.maxDownloads := by
  simp only [restante, hget]
  split
  · exact Nat.sub_le _ _
  · exact Nat.zero_le _

/-- C27: the listing route `GET /download/:linkId/zip` spends the budget without
delivering a file.  On a link that `validateTempLink` reports valid it answers the JSON
list of file names and URLs, and the only change of state is that this link's
`downloads` is one more; and on a link stored with `maxDownloads = k`, after `j` calls
of the listing route in a row the file route delivers at most `k - j` files, whatever
is requested and whenever. -/
theorem downloadZipRoute_spends_budget (linkId : String) (s : Server) (link : TempLink)
    (hget : s.tempLinks.get linkId = some link) :
    (∀ now valid tl, validateTempLink now linkId s.tempLinks = (.valid valid, tl) →
      valid = link ∧
      downloadZipRoute now linkId s =
        (.listing "Download em lote não implementado ainda. Use downloads individuais."
            (link.files.map (fun f =>
              (f.originalname,
                "/download/" ++ linkId ++ "/file/" ++ encodeURIComponent f.originalname))),
          { tempLinks :=
              s.tempLinks.set linkId { link with downloads := link.downloads + 1 },
            disk := s.disk })) ∧
    (∀ (times : List Nat) (pedidos : List (Nat × String)),
      entregas (downloadFiles linkId pedidos (downloadZipRepeatedly linkId times s)).1 ≤
        link.maxDownloads - times.length) := by
  constructor
  · intro now valid tl hv
    obtain ⟨hget', _, _, _, htl⟩ := validateTempLink_valid_inv now linkId s.tempLinks tl valid hv
    subst htl
    rw [hget] at hget'
    cases hget'
    refine ⟨rfl, ?_⟩
    simp only [downloadZipRoute, hv, incrementDownload_of_some linkId s.tempLinks link hget]
  · intro times pedidos
    have h1 := downloadFiles_restante linkId pedidos (downloadZipRepeatedly linkId times s)
    have h2 := downloadZipRepeatedly_restante linkId times s
    have h3 := restante_le s.tempLinks linkId link hget
    omega

/-- Witness for C27: on the sample link with a budget of three downloads, the listing
route counts one download, and after two calls of it at most one file is delivered. -/
theorem downloadZipRoute_spends_budget_witness :
    sampleServer.tempLinks.get "0102030405060708" =
        some { files := [sampleFile], createdAt := 0, downloads := 0, maxDownloads := 3,
               expiresAt := 172800000, active := true } ∧
    downloadZipRoute 10 "0102030405060708" sampleServer =
      (.listing "Download em lote não implementado ainda. Use downloads individuais."
          [("contrato social.pdf",
            "/download/0102030405060708/file/contrato%20social.pdf")],
        { tempLinks :=
            sampleServer.tempLinks.set "0102030405060708"
              { files := [sampleFile], createdAt := 0, downloads := 1, maxDownloads := 3,
                expiresAt := 172800000, active := true },
          disk := sampleServer.disk }) ∧
    entregas (downloadFiles "0102030405060708"
        [(30, "contrato%20social.pdf"), (40, "contrato%20social.pdf")]
        (downloadZipRepeatedly "0102030405060708" [10, 20] sampleServer)).1 ≤ 3 - 2 :=
  ⟨by decide,
   ((downloadZipRoute_spends_budget "0102030405060708" sampleServer
       { files := [sampleFile], createdAt := 0, downloads := 0, maxDownloads := 3,
         expiresAt := 172800000, active := true } (by decide)).1 10
       { files := [sampleFile], createdAt := 0, downloads := 0, maxDownloads := 3,
         expiresAt := 172800000, active := true } sampleServer.tempLinks (by decide)).2,
   (downloadZipRoute_spends_budget "0102030405060708" sampleServer
     { files := [sampleFile], createdAt := 0, downloads := 0, maxDownloads := 3,
       expiresAt := 172800000, active := true } (by decide)).2 [10, 20]
     [(30, "contrato%20social.pdf"), (40, "contrato%20social.pdf")]⟩

/-- The two listing calls and the two file requests of the witness, evaluated: the first
file request is served, the second meets the exhausted link. -/
theorem downloadZipRoute_sample :
    (downloadFiles "0102030405060708"
        [(30, "contrato%20social.pdf"), (40, "contrato%20social.pdf")]
        (downloadZipRepeatedly "0102030405060708" [10, 20] sampleServer)).1 =
      [.download "uploads/1700000000000_contrato_social.pdf" "contrato social.pdf",
       .error 404 reasonExhausted] := by
  decide

/-! ## The file route: the requested name -/

theorem validateTempLink_downloads (now : Nat) (linkId other : String) (tempLinks : TempLinks) :
    ((validateTempLink now linkId tempLinks).2.get other).map TempLink.downloads =
      (tempLinks.get other).map TempLink.downloads := by
  by_cases hne : other = linkId
  · subst hne
    cases hget : tempLinks.get other with
    | none => rw [validateTempLink_of_none now other tempLinks hget, hget]
    | some link =>
      rw [validateTempLink_of_some now other tempLinks link hget]
      split
      · rw [hget]
      · split
        · simp [TempLinks.get_set_self]
        · split
          · simp [TempLinks.get_set_self]
          · rw [hget]
  · rw [validateTempLink_get_ne now linkId other tempLinks hne]

/-- Whenever the file route does not deliver a file, the `downloads` counter of every
link and the disk are as before. -/
theorem downloadFileRoute_not_served (now : Nat) (linkId filename : String) (s : Server)
    (h : (downloadFileRoute now linkId filename s).1.isDownload = false) (other : String) :
    ((downloadFileRoute now linkId filename s).2.tempLinks.get other).map TempLink.downloads =
        (s.tempLinks.get other).map TempLink.downloads ∧
      (downloadFileRoute now linkId filename s).2.disk = s.disk := by
  have hd := validateTempLink_downloads now linkId other s.tempLinks
  revert h
  unfold downloadFileRoute
  split
  · rename_i reason tl hv
    rw [hv] at hd
    intro _
    exact ⟨hd, rfl⟩
  · rename_i link tl hv
    rw [hv] at hd
    split
    · intro _
      exact ⟨hd, rfl⟩
    · split
      · intro _
        exact ⟨hd, rfl⟩
      · split
        · intro _
          exact ⟨hd, rfl⟩
        · split
          · intro _
            exact ⟨hd, rfl⟩
          · intro h
            simp [Response.isDownload] at h

/-- C24, at a stored name holding a percent sign: the link is valid, the requested name
`100%.pdf` (what Express hands over for the URL the listing advertises, whose escape
`%25` it has decoded) equals the stored original name and the file is on disk, yet the
route decodes the name once more, the decoding throws, and the answer is the 500 of the
error middleware with nothing delivered and the counter as before. -/
theorem downloadFileRoute_percent_name :
    (validateTempLink 10 "0102030405060708" servidorPorcento.tempLinks).1 =
        .valid { files := [arquivoPorcento], createdAt := 0, downloads := 0, maxDownloads := 5,
                 expiresAt := 172800000, active := true } ∧
    arquivoPorcento.originalname = "100%.pdf" ∧
    existsSync servidorPorcento.disk arquivoPorcento.path = true ∧
    (downloadZipRoute 10 "0102030405060708" servidorPorcento).1 =
        .listing "Download em lote não implementado ainda. Use downloads individuais."
          [("100%.pdf", "/download/0102030405060708/file/100%25.pdf")] ∧
    decodeURIComponent "100%25.pdf" = .ok "100%.pdf" ∧
    decodeURIComponent "100%.pdf" = .error "URIError: URI malformed" ∧
    downloadFileRoute 10 "0102030405060708" "100%.pdf" servidorPorcento =
        (.internalError, servidorPorcento) := by
  refine ⟨by decide, by decide, by decide, by decide, by decide, by decide, by decide⟩

/-! ## The file route: files of the same name -/

theorem find_primeiro (name : String) (e : FileDesc) (resto : List FileDesc)
    (he : e.originalname = name) :
    ∀ pre : List FileDesc, (∀ f ∈ pre, f.originalname ≠ name) →
      (pre ++ e :: resto).find? (fun f => decide (f.originalname = name)) = some e := by
  intro pre
  induction pre with
  | nil => intro _; simp [he]
  | cons f pre ih =>
    intro hpre
    have hf : f.originalname ≠ name := hpre f (List.mem_cons_self _ _)
    have := ih (fun g hg => hpre g (List.mem_cons_of_mem _ hg))
    simp [List.find?, hf, this]

theorem downloadFileRoute_of_valid (now : Nat) (linkId filename name : String) (s : Server)
    (link : TempLink) (file : FileDesc)
    (hvalid : (validateTempLink now linkId s.tempLinks).1 = .valid link)
    (hname : decodeURIComponent filename = .ok name)
    (hfind : link.files.find? (fun f => decide (f.originalname = name)) = some file) :
    (downloadFileRoute now linkId filename s).1 =
      if existsSync s.disk file.path then .download file.path file.originalname
      else .error 404 "Arquivo não existe no servidor" := by
  cases hv : validateTempLink now linkId s.tempLinks with
  | mk v tl =>
    rw [hv] at hvalid
    simp only at hvalid
    subst hvalid
    obtain ⟨f, fs, hfiles⟩ : ∃ f fs, link.files = f :: fs := by
      cases h : link.files with
      | nil => rw [h] at hfind; simp at hfind
      | cons f fs => exact ⟨f, fs, rfl⟩
    have hfind' := hfind
    rw [hfiles] at hfind'
    unfold downloadFileRoute
    rw [hv]
    simp only [hfiles, hname, hfind']
    cases existsSync s.disk file.path <;> simp

theorem downloadFileRoute_download_inv (now : Nat) (linkId filename p n : String) (s : Server)
    (link : TempLink)
    (hvalid : (validateTempLink now linkId s.tempLinks).1 = .valid link)
    (h : (downloadFileRoute now linkId filename s).1 = .download p n) :
    ∃ file, decodeURIComponent filename = .ok n ∧
      link.files.find? (fun f => decide (f.originalname = n)) = some file ∧
      p = file.path ∧ n = file.originalname ∧ existsSync s.disk file.path = true := by
  cases hv : validateTempLink now linkId s.tempLinks with
  | mk v tl =>
    rw [hv] at hvalid
    simp only at hvalid
    subst hvalid
    revert h
    unfold downloadFileRoute
    rw [hv]
    simp only
    split
    · intro h; cases h
    · rename_i hfiles
      split
      · intro h; cases h
      · rename_i nm hdec
        split
        · intro h; cases h
        · rename_i file hfind
          split
          · intro h; cases h
          · rename_i hex
            intro h
            cases h
            have hnm : file.originalname = nm := by simpa using List.find?_some hfind
            subst hnm
            refine ⟨file, hdec, ?_, rfl, rfl, ?_⟩
            · exact hfind
            · simpa using hex

/-- C28, as stated, fails when the earlier of two files of the same name is no longer on
disk: the link is valid, both stored files are called `relatorio.pdf`, the later one is
on disk, and the request for that name is answered 404 instead of serving the earlier
file. -/
theorem downloadFileRoute_first_match_missing :
    (validateTempLink 10 "0102030405060708"
        (servidorHomonimos ["uploads/1700000000001_relatorio.pdf"]).tempLinks).1 =
      .valid { files := [relatorioAntigo, relatorioNovo], createdAt := 0, downloads := 0,
               maxDownloads := 5, expiresAt := 172800000, active := true } ∧
    relatorioAntigo.originalname = "relatorio.pdf" ∧
    relatorioNovo.originalname = "relatorio.pdf" ∧
    decodeURIComponent "relatorio.pdf" = .ok "relatorio.pdf" ∧
    (downloadFileRoute 10 "0102030405060708" "relatorio.pdf"
        (servidorHomonimos ["uploads/1700000000001_relatorio.pdf"])).1 =
      .error 404 "Arquivo não existe no servidor" ∧
    (downloadFileRoute 10 "0102030405060708" "relatorio.pdf"
        (servidorHomonimos ["uploads/1700000000001_relatorio.pdf"])).1 ≠
      .download relatorioAntigo.path relatorioAntigo.originalname := by
  refine ⟨by decide, by decide, by decide, by decide, by decide, by decide⟩

/-- C28, amended: on a link that `validateTempLink` reports valid and whose files hold
`e` and, later in stored order, `l` of the same original name, `e` being the first file
of that name: every request whose name decodes to that name serves `e` when `e` is on
disk and is answered 404 otherwise; and whatever a request to the route serves is the
first stored file of its name, so a request that delivers under the name of `l`
delivers the path of `e`. -/
theorem downloadFileRoute_first_match (now : Nat) (linkId name : String) (s : Server)
    (link : TempLink) (pre mid post : List FileDesc) (e l : FileDesc)
    (hvalid : (validateTempLink now linkId s.tempLinks).1 = .valid link)
    (hfiles : link.files = pre ++ e :: (mid ++ l :: post))
    (hpre : ∀ f ∈ pre, f.originalname ≠ name)
    (he : e.originalname = name) (hl : l.originalname = name) :
    (∀ filename, decodeURIComponent filename = .ok name →
      (downloadFileRoute now linkId filename s).1 =
        if existsSync s.disk e.path then .download e.path e.originalname
        else .error 404 "Arquivo não existe no servidor") ∧
    (∀ filename p n, (downloadFileRoute now linkId filename s).1 = .download p n →
      (∃ file, link.files.find? (fun f => decide (f.originalname = n)) = some file ∧
        p = file.path ∧ n = file.originalname) ∧
      (n = l.originalname → p = e.path)) := by
  have hfirst : link.files.find? (fun f => decide (f.originalname = name)) = some e := by
    rw [hfiles]
    exact find_primeiro name e _ he pre hpre
  constructor
  · intro filename hname
    exact downloadFileRoute_of_valid now linkId filename name s link e hvalid hname hfirst
  · intro filename p n h
    obtain ⟨file, _, hfind, hp, hn, _⟩ :=
      downloadFileRoute_download_inv now linkId filename p n s link hvalid h
    refine ⟨⟨file, hfind, hp, hn⟩, ?_⟩
    intro hnl
    rw [hl] at hnl
    subst hnl
    rw [hfirst] at hfind
    cases hfind
    exact hp

/-- Witness for C28: the link for the two files called `relatorio.pdf`, both on disk. -/
theorem downloadFileRoute_first_match_witness :
    (validateTempLink 10 "0102030405060708"
        (servidorHomonimos
          ["uploads/1700000000000_relatorio.pdf",
            "uploads/1700000000001_relatorio.pdf"]).tempLinks).1 =
      .valid { files := [relatorioAntigo, relatorioNovo], createdAt := 0, downloads := 0,
               maxDownloads := 5, expiresAt := 172800000, active := true } ∧
    (downloadFileRoute 10 "0102030405060708" "relatorio.pdf"
        (servidorHomonimos
          ["uploads/1700000000000_relatorio.pdf",
            "uploads/1700000000001_relatorio.pdf"])).1 =
      .download "uploads/1700000000000_relatorio.pdf" "relatorio.pdf" :=
  ⟨by decide,
   (downloadFileRoute_first_match 10 "0102030405060708" "relatorio.pdf"
     (servidorHomonimos
       ["uploads/1700000000000_relatorio.pdf", "uploads/1700000000001_relatorio.pdf"])
     { files := [relatorioAntigo, relatorioNovo], createdAt := 0, downloads := 0,
       maxDownloads := 5, expiresAt := 172800000, active := true }
     [] [] [] relatorioAntigo relatorioNovo (by decide) rfl (by simp) rfl rfl).1
     "relatorio.pdf" (by decide)⟩

/-! ## The serverless email handler: what is answered before any mail -/

theorem truthy_of_ausenteOuVazio (v : JSValue) (h : ausenteOuVazio v = true) :
    v.truthy = false := by
  cases v <;> simp_all [ausenteOuVazio, JSValue.truthy]

/-- C25, as stated, fails for a request without a body: the method is POST and `nome` is
missing, yet reading the fields of the absent body throws inside the `try` and the
answer is status 500, not 400. -/
theorem handler_post_without_body :
    ausenteOuVazio ((JSValue.null).prop "nome") = true ∧
    handler sampleAmbiente (some (fun _ => true)) 0 { method := "POST", body := .null } =
      (.json 500 false "Erro interno do servidor", []) ∧
    (handler sampleAmbiente (some (fun _ => true)) 0 { method := "POST", body := .null }).1 ≠
      .json 400 false "Nome, email e telefone são obrigatórios" := by
  refine ⟨rfl, rfl, ?_⟩
  intro h
  have h2 : (handler sampleAmbiente (some (fun _ => true)) 0
      { method := "POST", body := .null }).1 = .json 500 false "Erro interno do servidor" := rfl
  rw [h2] at h
  exact absurd h (by decide)

/-- C25, amended: the serverless handler answers before sending anything.  An OPTIONS
request gets status 200 without a body; any other method that is not POST gets 405
with `success: false`; a POST that carries a body in which `nome`, `email` or `telefone`
is missing or empty gets 400 with `success: false`; a POST without a body gets 500 with
`success: false`; and in all these cases no mail is handed to `sendMail`. -/
theorem handler_gating (amb : Ambiente) (createTransporter : Option (MailOptions → Bool))
    (agora : Nat) (req : PedidoEmail) :
    (req.method = "OPTIONS" → handler amb createTransporter agora req = (.vazio 200, [])) ∧
    (req.method ≠ "OPTIONS" → req.method ≠ "POST" →
      handler amb createTransporter agora req = (.json 405 false "Método não permitido", [])) ∧
    (req.method = "POST" → req.body.isNullish = false →
      (ausenteOuVazio (req.body.prop "nome") = true ∨
        ausenteOuVazio (req.body.prop "email") = true ∨
        ausenteOuVazio (req.body.prop "telefone") = true) →
      handler amb createTransporter agora req =
        (.json 400 false "Nome, email e telefone são obrigatórios", [])) ∧
    (req.method = "POST" → req.body.isNullish = true →
      handler amb createTransporter agora req =
        (.json 500 false "Erro interno do servidor", [])) := by
  refine ⟨?_, ?_, ?_, ?_⟩
  · intro h
    simp [handler, h]
  · intro h1 h2
    simp [handler, h1, h2]
  · intro h hb hcampo
    have hfalsy : (!(req.body.prop "nome").truthy || !(req.body.prop "email").truthy ||
        !(req.body.prop "telefone").truthy) = true := by
      rcases hcampo with hc | hc | hc <;>
        simp [truthy_of_ausenteOuVazio _ hc]
    simp only [handler, h, hb, hfalsy]
    simp
  · intro h hb
    simp [handler, h, hb]

/-- The early answers of the serverless handler on sample requests: a preflight, a GET, a POST
with an empty `email`, and a POST without `telefone`. -/
theorem handler_samples :
    handler sampleAmbiente none 0 { method := "OPTIONS", body := .undefined } =
      (.vazio 200, []) ∧
    handler sampleAmbiente none 0 { method := "GET", body := .undefined } =
      (.json 405 false "Método não permitido", []) ∧
    handler sampleAmbiente (some (fun _ => true)) 0
        { method := "POST",
          body := .object [("nome", .string "Maria"), ("email", .string ""),
            ("telefone", .string "92999889392")] } =
      (.json 400 false "Nome, email e telefone são obrigatórios", []) ∧
    handler sampleAmbiente (some (fun _ => true)) 0
        { method := "POST",
          body := .object [("nome", .string "Maria"), ("email", .string "maria@acme.com.br")] } =
      (.json 400 false "Nome, email e telefone são obrigatórios", []) :=
  ⟨rfl, rfl, rfl, rfl⟩

/-! ## The consultancy request on JavaScript strings -/

theorem pushIf_length_le (errors : List String) (condicao : Bool) (mensagem : String) :
    errors.length ≤ (pushIf errors condicao mensagem).length := by
  rw [pushIf_eq]
  simp

theorem cnpjLimpo_of_valid (data : Utf16.FormData)
    (h : (Utf16.validateFormData data).isValid = true) :
    Utf16.campoVazio data.cnpj = false ∧
      (Utf16.cnpjLimpo (Utf16.textoDe data.cnpj)).length = 14 := by
  simp only [Utf16.validateFormData, pushIf_eq] at h
  have h0 := of_decide_eq_true h
  simp only [List.length_append, List.nil_append] at h0
  cases hc : data.cnpj with
  | none =>
    rw [hc] at h0
    simp [Utf16.ausenteOuCurto] at h0
  | some cnpj =>
    rw [hc] at h0
    by_cases hcurto : Utf16.ausenteOuCurto (some cnpj) 14 = true
    · simp [hcurto] at h0
    · have hne : cnpj.isEmpty = false := by
        cases hemp : cnpj.isEmpty
        · rfl
        · exact absurd (by simp [Utf16.ausenteOuCurto, hemp]) hcurto
      by_cases h14 : (Utf16.apenasDigitos cnpj).length = 14
      · exact ⟨by simpa [Utf16.campoVazio] using hne,
          by simpa [Utf16.cnpjLimpo, Utf16.textoDe, String.length] using h14⟩
      · simp [hcurto, h14] at h0

theorem consultaDoPedido_sem_resposta (rt : JSRuntime) (fetch : Fetch) (now : Nat)
    (body : Utf16.FormData) (hvalid : (Utf16.validateFormData body).isValid = true)
    (hfail : ∀ api ∈ apis (Utf16.cnpjLimpo (Utf16.textoDe body.cnpj)),
      ∀ d, ¬ responde rt fetch api d) :
    Utf16.consultaDoPedido rt fetch now body =
      (some (.falha erroTodasApis "todas_apis_falharam" (some now)),
        (apis (Utf16.cnpjLimpo (Utf16.textoDe body.cnpj))).map Api.url) := by
  obtain ⟨hvazio, h14⟩ := cnpjLimpo_of_valid body hvalid
  have hnone := consultarApis_none rt fetch now
    (apis (Utf16.cnpjLimpo (Utf16.textoDe body.cnpj)))
    (fun api hapi => (tentarApi_eq_none_iff rt fetch api).mpr (hfail api hapi))
  unfold Utf16.consultaDoPedido Utf16.consultarCNPJ
  simp only [hvazio, h14, hnone]
  rfl

theorem lit_append (a b : String) : Utf16.lit (a ++ b) = Utf16.lit a ++ Utf16.lit b := by
  simp [Utf16.lit, List.flatMap_append]

theorem ocorreEm_lit (parte texto : String) (h : ocorreEm parte texto) :
    Utf16.ocorreEm (Utf16.lit parte) (Utf16.lit texto) := by
  obtain ⟨antes, depois, rfl⟩ := h
  exact ⟨Utf16.lit antes, Utf16.lit depois, by rw [lit_append, lit_append]⟩

theorem ocorreEm_trans (a b c : Utf16.JSString) (hab : Utf16.ocorreEm a b)
    (hbc : Utf16.ocorreEm b c) : Utf16.ocorreEm a c := by
  obtain ⟨x, y, rfl⟩ := hab
  obtain ⟨u, v, rfl⟩ := hbc
  exact ⟨u ++ x, y ++ v, by simp [List.append_assoc]⟩

theorem concatM_partes_ok (partes : List (Except String Utf16.JSString))
    (h : Utf16.todasOk partes = true) : ∃ texto, Utf16.concatM partes = .ok texto := by
  induction partes with
  | nil => exact ⟨[], rfl⟩
  | cons x rest ih =>
    cases x with
    | error e => simp [Utf16.todasOk] at h
    | ok a =>
      obtain ⟨b, hb⟩ := ih (by simpa [Utf16.todasOk] using h)
      exact ⟨a ++ b, by simp [Utf16.concatM, hb]⟩

theorem concatM_parte_ocorre (partes : List (Except String Utf16.JSString))
    (h : Utf16.todasOk partes = true) (parte : Utf16.JSString)
    (hm : Except.ok parte ∈ partes) :
    ∃ texto, Utf16.concatM partes = .ok texto ∧ Utf16.ocorreEm parte texto := by
  induction partes with
  | nil => simp at hm
  | cons x rest ih =>
    cases x with
    | error e => simp [Utf16.todasOk] at h
    | ok a =>
      have hrest : Utf16.todasOk rest = true := by simpa [Utf16.todasOk] using h
      obtain ⟨b, hb⟩ := concatM_partes_ok rest hrest
      refine ⟨a ++ b, by simp [Utf16.concatM, hb], ?_⟩
      rcases List.mem_cons.mp hm with hhead | htail
      · injection hhead with hhead
        subst hhead
        exact ⟨[], b, by simp⟩
      · obtain ⟨t, ht, antes, depois, hoc⟩ := ih hrest htail
        rw [hb] at ht
        injection ht with ht
        subst ht
        exact ⟨a ++ antes, depois, by rw [hoc]; simp [List.append_assoc]⟩

theorem generateEmailHTML_aviso (amb : Utf16.Ambiente) (agora : Nat) (data : Utf16.FormData)
    (error source : String) (consultedAt : Option Nat) :
    ∃ html,
      Utf16.generateEmailHTML amb agora data (some (.falha error source consultedAt)) =
        .ok html ∧
      Utf16.ocorreEm (Utf16.lit (avisoFalhaConsulta amb.base error source consultedAt))
        html := by
  unfold Utf16.generateEmailHTML
  apply concatM_parte_ocorre
  · cases hc : Utf16.campoVazio data.outrosDocumentos <;>
      simp [hc, Utf16.todasOk, secaoCNPJ, Utf16.concatM, Except.map]
  · simp [secaoCNPJ, Except.map]

theorem bemFormado_cons (u : Nat) (resto : Utf16.JSString) :
    Utf16.bemFormado (u :: resto) =
      if u < 55296 ∨ 57343 < u then Utf16.bemFormado resto
      else if u < 56320 then
        match resto with
        | v :: resto' =>
          (decide (56320 ≤ v) && decide (v ≤ 57343)) && Utf16.bemFormado resto'
        | [] => false
      else false := by
  cases resto <;> rfl

theorem encodeUnidades_cons (u : Nat) (resto : Utf16.JSString) :
    Utf16.encodeUnidades (u :: resto) =
      if u < 55296 ∨ 57343 < u then
        match Utf16.encodeUnidades resto with
        | .ok cs => .ok (Utf16.escapar (Char.ofNat u) ++ cs)
        | .error e => .error e
      else if u < 56320 then
        match resto with
        | v :: resto' =>
          if 56320 ≤ v ∧ v ≤ 57343 then
            match Utf16.encodeUnidades resto' with
            | .ok cs =>
              .ok (Utf16.escapar (Char.ofNat (65536 + (u - 55296) * 1024 + (v - 56320))) ++ cs)
            | .error e => .error e
          else .error "URIError: URI malformed"
        | [] => .error "URIError: URI malformed"
      else .error "URIError: URI malformed" := by
  cases resto <;> rfl

theorem bemFormado_append (b : Utf16.JSString) (hb : Utf16.bemFormado b = true) (n : Nat) :
    ∀ a : Utf16.JSString, a.length ≤ n → Utf16.bemFormado a = true →
      Utf16.bemFormado (a ++ b) = true := by
  induction n with
  | zero =>
    intro a hlen _
    have ha0 : a = [] := List.length_eq_zero.mp (by omega)
    subst ha0
    simpa using hb
  | succ n ih =>
    intro a hlen ha
    match a, hlen, ha with
    | [], _, _ => simpa using hb
    | u :: resto, hlen, ha =>
      rw [bemFormado_cons] at ha
      rw [List.cons_append, bemFormado_cons]
      by_cases h1 : u < 55296 ∨ 57343 < u
      · simp only [h1, if_true] at ha ⊢
        exact ih resto (by simp at hlen; omega) ha
      · by_cases h2 : u < 56320
        · match resto, hlen, ha with
          | [], _, ha => simp [h1, h2] at ha
          | v :: resto', hlen, ha =>
            simp only [h1, h2, if_true, if_false, List.cons_append, Bool.and_eq_true] at ha ⊢
            exact ⟨ha.1, ih resto' (by simp at hlen; omega) ha.2⟩
        · simp [h1, h2] at ha

theorem encodeUnidades_ok (n : Nat) :
    ∀ a : Utf16.JSString, a.length ≤ n → Utf16.bemFormado a = true →
      ∃ cs, Utf16.encodeUnidades a = .ok cs := by
  induction n with
  | zero =>
    intro a hlen _
    have ha0 : a = [] := List.length_eq_zero.mp (by omega)
    subst ha0
    exact ⟨[], rfl⟩
  | succ n ih =>
    intro a hlen ha
    match a, hlen, ha with
    | [], _, _ => exact ⟨[], rfl⟩
    | u :: resto, hlen, ha =>
      rw [bemFormado_cons] at ha
      rw [encodeUnidades_cons]
      by_cases h1 : u < 55296 ∨ 57343 < u
      · simp only [h1, if_true] at ha ⊢
        obtain ⟨cs, hcs⟩ := ih resto (by simp at hlen; omega) ha
        exact ⟨_, by rw [hcs]⟩
      · by_cases h2 : u < 56320
        · match resto, hlen, ha with
          | [], _, ha => simp [h1, h2] at ha
          | v :: resto', hlen, ha =>
            simp only [h1, h2, if_true, if_false, Bool.and_eq_true, decide_eq_true_eq] at ha ⊢
            obtain ⟨cs, hcs⟩ := ih resto' (by simp at hlen; omega) ha.2
            rw [if_pos ha.1, hcs]
            exact ⟨_, rfl⟩
        · simp [h1, h2] at ha

theorem bemFormado_unidades (c : Char) : Utf16.bemFormado (Utf16.unidades c) = true := by
  have hv : c.toNat < 55296 ∨ (57343 < c.toNat ∧ c.toNat < 1114112) := c.valid
  unfold Utf16.unidades
  by_cases hc : c.toNat < 65536
  · have h1 : c.toNat < 55296 ∨ 57343 < c.toNat := by omega
    simp [hc, bemFormado_cons, h1, Utf16.bemFormado]
  · have h1 : ¬ (55296 + (c.toNat - 65536) / 1024 < 55296 ∨
        57343 < 55296 + (c.toNat - 65536) / 1024) := by omega
    have h2 : 55296 + (c.toNat - 65536) / 1024 < 56320 := by omega
    have h3 : 56320 ≤ 56320 + (c.toNat - 65536) % 1024 := by omega
    have h4 : 56320 + (c.toNat - 65536) % 1024 ≤ 57343 := by omega
    simp only [hc, if_false, bemFormado_cons, h1, h2, if_true, h3, h4, decide_True,
      Bool.and_self, Utf16.bemFormado]

theorem bemFormado_lit (s : String) : Utf16.bemFormado (Utf16.lit s) = true := by
  unfold Utf16.lit
  induction s.data with
  | nil => rfl
  | cons c cs ih =>
    rw [List.flatMap_cons]
    exact bemFormado_append _ ih _ _ (Nat.le_refl _) (bemFormado_unidades c)

theorem bemFormado_flatten (partes : List Utf16.JSString)
    (h : partes.all Utf16.bemFormado = true) : Utf16.bemFormado partes.flatten = true := by
  induction partes with
  | nil => rfl
  | cons p rest ih =>
    simp only [List.all_cons, Bool.and_eq_true] at h
    rw [List.flatten_cons]
    exact bemFormado_append _ (ih h.2) _ _ (Nat.le_refl _) h.1

theorem bemFormado_textoDe (campo : Option Utf16.JSString)
    (h : Utf16.campoBemFormado campo = true) : Utf16.bemFormado (Utf16.textoDe campo) = true := by
  cases campo with
  | none => exact bemFormado_lit _
  | some s => exact h

theorem generateWhatsAppURL_ok (phoneNumber : String) (message : Utf16.JSString)
    (h : Utf16.bemFormado message = true) :
    ∃ url, Utf16.generateWhatsAppURL phoneNumber message = .ok url := by
  obtain ⟨cs, hcs⟩ := encodeUnidades_ok _ message (Nat.le_refl _) h
  unfold Utf16.generateWhatsAppURL Utf16.encodeURIComponent
  rw [hcs]
  exact ⟨_, rfl⟩

theorem campos_bemFormados (data : Utf16.FormData) (h : data.bemFormado = true) :
    Utf16.bemFormado (Utf16.textoDe data.nomeCompleto) = true ∧
    Utf16.bemFormado (Utf16.textoDe data.email) = true ∧
    Utf16.bemFormado (Utf16.textoDe data.telefone) = true ∧
    Utf16.bemFormado (Utf16.textoDe data.empresa) = true ∧
    Utf16.bemFormado (Utf16.textoDe data.cnpj) = true ∧
    Utf16.bemFormado (Utf16.textoDe data.tempoExistencia) = true ∧
    Utf16.bemFormado (Utf16.textoDe data.faturamentoAnual) = true ∧
    Utf16.bemFormado (Utf16.textoDe data.tipoConsultoria) = true ∧
    Utf16.bemFormado (Utf16.textoDe data.mensagem) = true := by
  simp only [Utf16.FormData.bemFormado, Bool.and_eq_true] at h
  obtain ⟨⟨⟨⟨⟨⟨⟨⟨⟨h1, h2⟩, h3⟩, h4⟩, h5⟩, h6⟩, h7⟩, h8⟩, h9⟩, _⟩ := h
  exact ⟨bemFormado_textoDe _ h1, bemFormado_textoDe _ h2, bemFormado_textoDe _ h3,
    bemFormado_textoDe _ h4, bemFormado_textoDe _ h5, bemFormado_textoDe _ h6,
    bemFormado_textoDe _ h7, bemFormado_textoDe _ h8, bemFormado_textoDe _ h9⟩

theorem generateWhatsAppMessageForClient_bemFormado (data : Utf16.FormData)
    (files : Option (List FileDesc)) (h : data.bemFormado = true) :
    Utf16.bemFormado (Utf16.generateWhatsAppMessageForClient data files) = true := by
  obtain ⟨h1, h2, h3, h4, h5, h6, h7, h8, h9⟩ := campos_bemFormados data h
  have hdoc : Utf16.bemFormado
      (if Utf16.temArquivos files then Utf16.documentosInfoCliente (files.getD []).length
        else Utf16.lit "📄 *DOCUMENTOS:* Nenhum documento anexado") = true := by
    split
    · unfold Utf16.documentosInfoCliente
      apply bemFormado_flatten
      simp [bemFormado_lit]
    · exact bemFormado_lit _
  unfold Utf16.generateWhatsAppMessageForClient Utf16.mensagemCliente
  apply bemFormado_flatten
  simp only [List.all_cons, List.all_nil, bemFormado_lit, h1, h2, h3, h4, h5, h6, h7, h8, h9,
    hdoc, Bool.and_self]

theorem generateWhatsAppMessage_bemFormado (amb : Utf16.Ambiente) (agora : Nat)
    (data : Utf16.FormData) (downloadLink : Option String) (files : Option (List FileDesc))
    (h : data.bemFormado = true) :
    Utf16.bemFormado (Utf16.generateWhatsAppMessage amb agora data downloadLink files) = true := by
  obtain ⟨h1, h2, h3, h4, h5, h6, h7, h8, h9⟩ := campos_bemFormados data h
  have hdoc : Utf16.bemFormado
      (if Utf16.temArquivos files then
          Utf16.documentosInfoEmpresa
            (if amb.envNodeEnv = some "production" then "https://aportecapital.com.br"
              else "http://192.168.0.18:3001")
            downloadLink (files.getD []).length
        else Utf16.lit "📄 *DOCUMENTOS:* Nenhum documento anexado") = true := by
    split
    · unfold Utf16.documentosInfoEmpresa
      apply bemFormado_flatten
      simp [bemFormado_lit]
    · exact bemFormado_lit _
  unfold Utf16.generateWhatsAppMessage Utf16.mensagemEmpresa
  apply bemFormado_flatten
  simp only [List.all_cons, List.all_nil, bemFormado_lit, h1, h2, h3, h4, h5, h6, h7, h8, h9,
    hdoc, Bool.and_self]

theorem urlsWhatsApp_ok (amb : Utf16.Ambiente) (agora : Nat) (req : Utf16.Requisicao)
    (downloadLink : Option String) (h : req.body.bemFormado = true) :
    ∃ urlCliente urlEmpresa,
      Utf16.generateWhatsAppURL (Utf16.whatsappNumber amb)
        (Utf16.generateWhatsAppMessageForClient req.body req.files) = .ok urlCliente ∧
      Utf16.generateWhatsAppURL (Utf16.whatsappNumber amb)
        (Utf16.generateWhatsAppMessage amb agora req.body downloadLink req.files) =
          .ok urlEmpresa ∧
      Utf16.urlsWhatsApp amb agora req downloadLink = .ok (urlCliente, urlEmpresa) := by
  obtain ⟨urlCliente, h1⟩ := generateWhatsAppURL_ok (Utf16.whatsappNumber amb) _
    (generateWhatsAppMessageForClient_bemFormado req.body req.files h)
  obtain ⟨urlEmpresa, h2⟩ := generateWhatsAppURL_ok (Utf16.whatsappNumber amb) _
    (generateWhatsAppMessage_bemFormado amb agora req.body downloadLink req.files h)
  refine ⟨urlCliente, urlEmpresa, h1, h2, ?_⟩
  unfold Utf16.urlsWhatsApp
  rw [h1, h2]

theorem montarEmail_falha (amb : Utf16.Ambiente) (agora : Nat) (req : Utf16.Requisicao)
    (error source : String) (consultedAt : Option Nat) :
    ∃ mail,
      Utf16.montarEmail amb agora req (some (.falha error source consultedAt)) = .ok mail ∧
      Utf16.generateEmailHTML amb agora req.body (some (.falha error source consultedAt)) =
        .ok mail.html ∧
      Utf16.ocorreEm (Utf16.lit (avisoFalhaConsulta amb.base error source consultedAt))
        mail.html := by
  obtain ⟨html, hhtml, hoc⟩ := generateEmailHTML_aviso amb agora req.body error source
    consultedAt
  have hm : ∃ mail,
      Utf16.montarEmail amb agora req (some (.falha error source consultedAt)) = .ok mail ∧
        mail.html = html := by
    unfold Utf16.montarEmail
    rw [hhtml]
    exact ⟨_, rfl, rfl⟩
  obtain ⟨mail, hm, hmh⟩ := hm
  subst hmh
  exact ⟨mail, hm, hhtml, hoc⟩

theorem campoBemFormado_lit (campo : Option String) :
    Utf16.campoBemFormado (campo.map Utf16.lit) = true := by
  cases campo with
  | none => rfl
  | some s => exact bemFormado_lit s

/-- A form of texts holds no lone surrogate, so for it the WhatsApp URLs are built without
an exception. -/
theorem deTextos_bemFormado (data : FormData) :
    (Utf16.FormData.deTextos data).bemFormado = true := by
  simp only [Utf16.FormData.bemFormado, Utf16.FormData.deTextos, campoBemFormado_lit,
    Bool.and_self]

/-- On JavaScript strings too a form that fails the validation is answered 400 with the
list of errors, before any lookup, mail or link. -/
theorem consultoriaHandler_utf16_rejects (rt : JSRuntime) (amb : Utf16.Ambiente)
    (fetch : Fetch) (sendMail : Utf16.MailOptions → Bool) (instantes : Utf16.Instantes)
    (randomBytes : List Nat) (req : Utf16.Requisicao) (s : Server)
    (h : (Utf16.validateFormData req.body).isValid = false) :
    Utf16.consultoriaHandler rt amb fetch sendMail instantes randomBytes req s =
      { resposta := .invalida (Utf16.validateFormData req.body).errors,
        estado := { s with disk := cleanupRequestFiles req.files s.disk },
        consultas := [], emails := [] } := by
  unfold Utf16.consultoriaHandler
  simp only [h, Bool.not_false, if_true]

/-- C23, amended: lookup failure is not fatal when the form is well-formed text.  For a
request whose form passes the validation and whose fields hold no lone surrogate, with
no attachment and every lookup source failing, when the mail is accepted the handler
answers `success: true` with the two WhatsApp URLs and `downloadLink: null`, leaves the
map of links and the disk as they are, requests the three sources once each and hands
`sendMail` exactly one mail, whose body is the result of `generateEmailHTML` and
contains the lookup-failure notice with the reason text of the failure. -/
theorem consultoriaHandler_lookup_failure_well_formed (rt : JSRuntime) (amb : Utf16.Ambiente)
    (fetch : Fetch) (sendMail : Utf16.MailOptions → Bool) (instantes : Utf16.Instantes)
    (randomBytes : List Nat) (req : Utf16.Requisicao) (s : Server)
    (hvalid : (Utf16.validateFormData req.body).isValid = true)
    (hbem : req.body.bemFormado = true)
    (hfiles : req.files = none ∨ req.files = some [])
    (hfail : ∀ api ∈ apis (Utf16.cnpjLimpo (Utf16.textoDe req.body.cnpj)),
      ∀ d, ¬ responde rt fetch api d)
    (hsend : ∀ mail, sendMail mail = true) :
    ∃ mail urlCliente urlEmpresa,
      (Utf16.consultoriaHandler rt amb fetch sendMail instantes randomBytes req s).emails =
        [mail] ∧
      (Utf16.consultoriaHandler rt amb fetch sendMail instantes randomBytes req s).resposta =
        .enviada urlCliente urlEmpresa none (req.files.map (fun _ => false)) ∧
      Utf16.generateWhatsAppURL (Utf16.whatsappNumber amb)
        (Utf16.generateWhatsAppMessageForClient req.body req.files) = .ok urlCliente ∧
      Utf16.generateWhatsAppURL (Utf16.whatsappNumber amb)
        (Utf16.generateWhatsAppMessage amb instantes.whatsapp req.body none req.files) =
          .ok urlEmpresa ∧
      (Utf16.consultoriaHandler rt amb fetch sendMail instantes randomBytes
        req s).estado.tempLinks = s.tempLinks ∧
      (Utf16.consultoriaHandler rt amb fetch sendMail instantes randomBytes
        req s).estado.disk = s.disk ∧
      (Utf16.consultoriaHandler rt amb fetch sendMail instantes randomBytes req s).consultas =
        (apis (Utf16.cnpjLimpo (Utf16.textoDe req.body.cnpj))).map Api.url ∧
      Utf16.generateEmailHTML amb instantes.email req.body
          (some (.falha erroTodasApis "todas_apis_falharam" (some instantes.consulta)))
        = .ok mail.html ∧
      Utf16.ocorreEm
        (Utf16.lit
          (avisoFalhaConsulta amb.base erroTodasApis "todas_apis_falharam"
            (some instantes.consulta)))
        mail.html ∧
      Utf16.ocorreEm (Utf16.lit erroTodasApis) mail.html := by
  have hcons := consultaDoPedido_sem_resposta rt fetch instantes.consulta req.body hvalid hfail
  obtain ⟨mail, hmail, hhtml, hoc⟩ := montarEmail_falha amb instantes.email req erroTodasApis
    "todas_apis_falharam" (some instantes.consulta)
  obtain ⟨urlCliente, urlEmpresa, hu1, hu2, hurls⟩ :=
    urlsWhatsApp_ok amb instantes.whatsapp req none hbem
  have hs := hsend mail
  have hlink : Utf16.linkDoPedido instantes randomBytes req.files s.tempLinks =
      (none, s.tempLinks) := by
    rcases hfiles with hf | hf <;> rw [hf] <;> rfl
  have hdisk : cleanupRequestFiles req.files s.disk = s.disk := by
    rcases hfiles with hf | hf <;> rw [hf] <;> rfl
  have hhas : req.files.map (fun files => decide (0 < files.length)) =
      req.files.map (fun _ => false) := by
    rcases hfiles with hf | hf <;> rw [hf] <;> rfl
  have hres : Utf16.consultoriaHandler rt amb fetch sendMail instantes randomBytes req s =
      { resposta := .enviada urlCliente urlEmpresa none (req.files.map (fun _ => false)),
        estado := { tempLinks := s.tempLinks, disk := s.disk },
        consultas := (apis (Utf16.cnpjLimpo (Utf16.textoDe req.body.cnpj))).map Api.url,
        emails := [mail] } := by
    unfold Utf16.consultoriaHandler
    simp only [hvalid, hcons, hmail, hs, hlink, hurls, hdisk, hhas, Utf16.temLink,
      Bool.not_true, Bool.false_eq_true, if_false]
  rw [hres]
  exact ⟨mail, urlCliente, urlEmpresa, rfl, rfl, hu1, hu2, rfl, rfl, rfl, hhtml, hoc,
    ocorreEm_trans _ _ _
      (ocorreEm_lit _ _ (avisoFalhaConsulta_ocorre amb.base erroTodasApis
        "todas_apis_falharam" (some instantes.consulta))) hoc⟩

/-- Witness for C23: the sample form without attachments, well-formed, on a network on
which every request is rejected. -/
theorem consultoriaHandler_lookup_failure_well_formed_witness :
    ((Utf16.validateFormData Utf16.pedidoSemAnexos.body).isValid = true ∧
      Utf16.pedidoSemAnexos.body.bemFormado = true ∧
      (Utf16.pedidoSemAnexos.files = none ∨ Utf16.pedidoSemAnexos.files = some [])) ∧
    ∃ mail urlCliente urlEmpresa,
      (Utf16.consultoriaHandler sampleRuntime Utf16.sampleAmbiente offlineFetch (fun _ => true)
        Utf16.sampleInstantes [1, 2, 3, 4, 5, 6, 7, 8] Utf16.pedidoSemAnexos
        { tempLinks := oneHourStore, disk := [] }).emails = [mail] ∧
      (Utf16.consultoriaHandler sampleRuntime Utf16.sampleAmbiente offlineFetch (fun _ => true)
        Utf16.sampleInstantes [1, 2, 3, 4, 5, 6, 7, 8] Utf16.pedidoSemAnexos
        { tempLinks := oneHourStore, disk := [] }).resposta =
        .enviada urlCliente urlEmpresa none (some false) ∧
      Utf16.ocorreEm (Utf16.lit erroTodasApis) mail.html := by
  refine ⟨⟨by decide, by decide, Or.inr rfl⟩, ?_⟩
  obtain ⟨mail, urlCliente, urlEmpresa, h1, h2, _, _, _, _, _, _, _, h3⟩ :=
    consultoriaHandler_lookup_failure_well_formed sampleRuntime Utf16.sampleAmbiente
      offlineFetch (fun _ => true) Utf16.sampleInstantes [1, 2, 3, 4, 5, 6, 7, 8]
      Utf16.pedidoSemAnexos { tempLinks := oneHourStore, disk := [] } (by decide) (by decide)
      (Or.inr rfl)
      (by
        intro api _ dados hd
        obtain ⟨response, data, hf, _⟩ := hd
        cases hf)
      (fun _ => rfl)
  exact ⟨mail, urlCliente, urlEmpresa, h1, h2, h3⟩

/-- C23, as stated, fails for a JSON body that holds a lone surrogate: the form passes
the validation, there is no attachment, every lookup source fails and the mail is
accepted and sent, yet `encodeURIComponent` throws while the WhatsApp URL is built and
the answer is status 500, not `success: true`. -/
theorem consultoriaHandler_lone_surrogate :
    (Utf16.validateFormData Utf16.pedidoComSubstituto.body).isValid = true ∧
    Utf16.pedidoComSubstituto.files = none ∧
    (∀ api ∈ apis (Utf16.cnpjLimpo (Utf16.textoDe Utf16.pedidoComSubstituto.body.cnpj)),
      ∀ d, ¬ responde sampleRuntime offlineFetch api d) ∧
    Utf16.generateWhatsAppURL (Utf16.whatsappNumber Utf16.sampleAmbiente)
        (Utf16.generateWhatsAppMessageForClient Utf16.pedidoComSubstituto.body
          Utf16.pedidoComSubstituto.files) = .error "URIError: URI malformed" ∧
    (Utf16.consultoriaHandler sampleRuntime Utf16.sampleAmbiente offlineFetch (fun _ => true)
      Utf16.sampleInstantes [1, 2, 3, 4, 5, 6, 7, 8] Utf16.pedidoComSubstituto
      { tempLinks := oneHourStore, disk := [] }).resposta = .erroInterno ∧
    (Utf16.consultoriaHandler sampleRuntime Utf16.sampleAmbiente offlineFetch (fun _ => true)
      Utf16.sampleInstantes [1, 2, 3, 4, 5, 6, 7, 8] Utf16.pedidoComSubstituto
      { tempLinks := oneHourStore, disk := [] }).emails.length = 1 := by
  refine ⟨by decide, rfl, ?_, ?_, ?_, ?_⟩
  · intro api _ dados hd
    obtain ⟨response, data, hf, _⟩ := hd
    cases hf
  · set_option maxRecDepth 100000 in decide
  · set_option maxRecDepth 100000 in decide
  · set_option maxRecDepth 100000 in decide

end AporteCapital
